import Mathlib

/-!
# ClinicPro application orchestrator (`src/app/main.js`)

A shallow embedding of the `ClinicProApp` class: the startup sequence, the
authentication event wiring and the role module loader, followed by the
properties established about them.

Conventions of the embedding

* Every method of the class is a function on an explicit record `App` holding the
  fields of `this`, the contents of the persistent store and an observation
  trace of the calls made to collaborators.
* A method that may raise returns `Except JSError α × App`: assignments made before
  the error are kept, as in JavaScript.
* The behaviour of the collaborators whose source is not part of `main.js`
  (storage engine, session manager, route engine, dynamic `import`) is supplied by
  an `Env` record of outcomes.
* What a call that is not awaited leaves to be done is kept in the record: the
  loops of module loader runs under `pending`, run by `runPending`, and the store
  writes of `handleAppError` under `unsettled`, settled by `settleWrites`.
-/

namespace ClinicPro

/-! ## Values -/

/-- A raised JavaScript error: its `name` and its `message`. -/
structure JSError where
  name : String
  message : String
deriving DecidableEq, Repr

/-- The error raised by the engine when a property of `null` is read or a
non-iterable value is iterated. -/
def typeError (message : String) : JSError := ⟨"TypeError", message⟩

/-- A user record as the orchestrator reads it (`id`, `name`, `email`, `role`,
`permissions`); `none` stands for a property that is `undefined`. -/
structure User where
  id : String
  name : String
  email : String
  role : Option String
  permissions : Option (List String)
deriving DecidableEq, Repr

/-- The pair `{ isAuthenticated, user }` exchanged with the session manager and
kept under the key `auth_session`. -/
structure Session where
  isAuthenticated : Bool
  user : Option User
deriving DecidableEq, Repr

/-- An entry `{ name, path }` of the role table. -/
structure ModuleDescriptor where
  name : String
  path : String
deriving DecidableEq, Repr

/-! ## The role table (`getModulesForRole`) -/

/-- The own properties of the object literal `modulesMap`, in source order. -/
def modulesMap : List (String × List ModuleDescriptor) :=
  [ ("super_admin",
      [ ⟨"system-admin", "admin/system-admin"⟩,
        ⟨"reports-manager", "reports/reports-manager"⟩,
        ⟨"audit-logger", "admin/audit-logger"⟩ ]),
    ("clinic_admin",
      [ ⟨"clinic-manager", "admin/clinic-manager"⟩,
        ⟨"financial-reports", "reports/financial-reports"⟩ ]),
    ("doctor",
      [ ⟨"doctor-dashboard", "medical/doctor-dashboard"⟩,
        ⟨"prescription-manager", "prescriptions/prescription-manager"⟩,
        ⟨"patient-manager", "medical/patients/patient-manager"⟩ ]),
    ("receptionist",
      [ ⟨"appointment-manager", "appointments/appointment-manager"⟩,
        ⟨"patient-registration", "medical/patients/patient-registration"⟩ ]),
    ("accountant",
      [ ⟨"billing-manager", "billing/billing-manager"⟩,
        ⟨"payment-manager", "payments/payment-manager"⟩ ]),
    ("patient",
      [ ⟨"patient-portal", "patients/patient-portal"⟩,
        ⟨"appointment-booking", "appointments/appointment-booking"⟩ ]) ]

/-- The property names every object literal inherits from `Object.prototype`
(ECMAScript, Annex B included). Each of them reads as a function, except
`__proto__`, which reads as the prototype object itself: all are truthy and none
is iterable. -/
def objectPrototypeKeys : List String :=
  [ "constructor", "hasOwnProperty", "isPrototypeOf", "propertyIsEnumerable",
    "toLocaleString", "toString", "valueOf", "__proto__",
    "__defineGetter__", "__defineSetter__", "__lookupGetter__", "__lookupSetter__" ]

/-- The property key a role value is converted to by `modulesMap[role]`:
`undefined` becomes the string `"undefined"`. -/
def propertyKey (role : Option String) : String :=
  role.getD "undefined"

/-- What `getModulesForRole` hands back: an array of descriptors, or a value
inherited through the prototype chain, which is not an array. -/
inductive RoleModules where
  | descriptors (ds : List ModuleDescriptor)
  | inherited (key : String)
deriving DecidableEq, Repr

/-- The method `getModulesForRole(role)`: `return modulesMap[role] || []`.
The lookup finds an own property first, then a property of `Object.prototype`;
only when both miss is the result `undefined` and replaced by `[]`. -/
def getModulesForRole (role : Option String) : RoleModules :=
  match modulesMap.lookup (propertyKey role) with
  | some ds => .descriptors ds
  | none =>
    if propertyKey role ∈ objectPrototypeKeys then .inherited (propertyKey role)
    else .descriptors []

/-! ## Collaborator data -/

/-- The result of `detectBrowserCompatibility()`. -/
structure Compatibility where
  supported : Bool
  issues : List String
deriving DecidableEq, Repr

/-- The settings object kept under the key `user_settings`. -/
structure SavedSettings where
  language : Option String
  theme : Option String
deriving DecidableEq, Repr

/-- Region `app` of the state tree, with the fields of `initialState.app`. -/
structure AppRegion where
  initialized : Bool
  online : Bool
  language : String
  theme : String
deriving DecidableEq, Repr

/-- Region `auth` of the state tree, with the fields of `initialState.auth`. -/
structure AuthRegion where
  isAuthenticated : Bool
  user : Option User
  token : Option String
  permissions : List String
deriving DecidableEq, Repr

/-- An entry of the route table as `handleRouteChange` reads it: `path`, `title`
and `component`. -/
structure Route where
  path : String
  title : String
  component : String
deriving DecidableEq, Repr

/-- The argument `{ route, params, query }` of the callback `onRouteChange`. -/
structure RouteChange where
  route : Route
  params : List (String × String)
  query : List (String × String)
deriving DecidableEq, Repr

/-- The object `{ path, component, params, query }` that `handleRouteChange`
writes under `ui.currentRoute`. -/
structure RouteState where
  path : String
  component : String
  params : List (String × String)
  query : List (String × String)
deriving DecidableEq, Repr

/-- Region `ui` of the state tree, with the fields of `initialState.ui` and the
route written by `handleRouteChange`, absent until the first route change. -/
structure UiRegion where
  isLoading : Bool
  notifications : List String
  modals : List String
  currentRoute : Option RouteState
deriving DecidableEq, Repr

/-- The state tree held by the `StateManager`. -/
structure StateManager where
  app : AppRegion
  auth : AuthRegion
  ui : UiRegion
deriving DecidableEq, Repr

/-- The arguments with which the orchestrator calls `state.update(path, value)`. -/
inductive StateWrite where
  /-- The call `update('app', savedSettings)`. -/
  | app (settings : SavedSettings)
  /-- The call `update('auth', savedSession)`. -/
  | authSession (session : Session)
  /-- The call `update('auth', { isAuthenticated, user, permissions })`. -/
  | auth (isAuthenticated : Bool) (user : Option User) (permissions : List String)
  /-- The call `update('app.theme', theme)`. -/
  | appTheme (theme : String)
  /-- The call `update('app.language', language)`. -/
  | appLanguage (language : String)
  /-- The call `update('app.initialized', flag)`. -/
  | appInitialized (flag : Bool)
  /-- The call `update('app.online', flag)`. -/
  | appOnline (flag : Bool)
  /-- The call `update('auth', savedState.auth)` with a region read by `get('auth')`. -/
  | authRegion (region : AuthRegion)
  /-- The call `update('ui', savedState.ui)` with a region read by `get('ui')`. -/
  | uiRegion (region : UiRegion)
  /-- The call `update('ui.currentRoute', { path, component, params, query })`. -/
  | uiCurrentRoute (route : RouteState)
deriving DecidableEq, Repr

/-- Modelled from the spec: `state-manager.js` is not among the sources; section 6
gives `update(path, value)` as "sets/merges value at dotted path". A value written
at a region path replaces the fields it carries and keeps the others; a value
written at a field path replaces that field. A region read by `get` carries every
field of the region, the route only when one has been recorded. -/
def StateManager.update (st : StateManager) : StateWrite → StateManager
  | .app s =>
    { st with app := { st.app with language := s.language.getD st.app.language,
                                   theme := s.theme.getD st.app.theme } }
  | .authSession s =>
    { st with auth := { st.auth with isAuthenticated := s.isAuthenticated, user := s.user } }
  | .auth isAuthenticated user permissions =>
    { st with auth := { st.auth with isAuthenticated := isAuthenticated, user := user,
                                     permissions := permissions } }
  | .appTheme t => { st with app := { st.app with theme := t } }
  | .appLanguage l => { st with app := { st.app with language := l } }
  | .appInitialized b => { st with app := { st.app with initialized := b } }
  | .appOnline b => { st with app := { st.app with online := b } }
  | .authRegion r => { st with auth := r }
  | .uiRegion r =>
    { st with ui := { r with currentRoute := r.currentRoute.orElse fun _ => st.ui.currentRoute } }
  | .uiCurrentRoute r => { st with ui := { st.ui with currentRoute := some r } }

/-- The value of an expression that is meant to be a message text: a string, or
the value found under `key` in `Object.prototype`, which is not a string. -/
inductive MessageValue where
  | text (s : String)
  | inherited (key : String)
deriving DecidableEq, Repr

/-- An error value as `handleAppError` reads it: `name` (possibly `undefined`),
`message` and `stack`. -/
structure ErrorValue where
  name : Option String
  message : String
  stack : String
deriving DecidableEq, Repr

/-- The object `errorInfo` of `handleAppError`: `{ message, stack, timestamp,
context, user }`, `user` being `this.currentUser?.id`. -/
structure ErrorRecord where
  message : String
  stack : String
  timestamp : String
  context : String
  user : Option String
deriving DecidableEq, Repr

/-- The object `{ auth, ui, timestamp }` kept under the key `app_recovery_state`. -/
structure Snapshot where
  auth : AuthRegion
  ui : UiRegion
  timestamp : String
deriving DecidableEq, Repr

/-- Contents of the persistent store, one field per key the orchestrator uses:
`user_settings`, `auth_session`, `user_theme`, `user_language`, `reference_data`
(present or not), `app_recovery_state` and `error_log`. -/
structure Store where
  userSettings : Option SavedSettings
  authSession : Option Session
  userTheme : Option String
  userLanguage : Option String
  referenceData : Bool
  recoveryState : Option Snapshot
  errorLog : Option ErrorRecord
deriving DecidableEq, Repr

/-- A store holding nothing. -/
def Store.empty : Store :=
  { userSettings := none, authSession := none, userTheme := none, userLanguage := none,
    referenceData := false, recoveryState := none, errorLog := none }

/-- The object built by `new ModuleClass.default({ app, user, config })`. -/
structure ModuleInstance where
  path : String
  user : Option User
deriving DecidableEq, Repr

/-- A method of the orchestrator handed to a collaborator as a callback. -/
inductive Callback where
  /-- The method `handleRouteChange`, bound to the orchestrator by the
  constructor. -/
  | handleRouteChange
deriving DecidableEq, Repr

/-- The router built by `new RouterEngine({ routes, onRouteChange, authManager,
defaultRoute })`: the callback and the default route it was given. The route
table and the session manager are the same for every router. -/
structure RouterEngine where
  onRouteChange : Callback
  defaultRoute : String
deriving DecidableEq, Repr

/-- A value written with `this.storage.setItem(key, value)` whose promise is not
awaited: the error record of `handleAppError`. -/
inductive StoreWrite where
  | errorLog (record : ErrorRecord)
deriving DecidableEq, Repr

/-- The key the value is written under. -/
def StoreWrite.key : StoreWrite → String
  | .errorLog _ => "error_log"

/-- The store once the value is written. -/
def StoreWrite.apply : StoreWrite → Store → Store
  | .errorLog record, s => { s with errorLog := some record }

/-- The closures `setupSystemEvents` registers on the event bus. -/
inductive Listener where
  | authLogin
  | authLogout
  | languageChanged
  | themeChanged
deriving DecidableEq, Repr

/-- The event name under which a closure is registered with `events.on`. -/
def Listener.event : Listener → String
  | .authLogin => "auth:login"
  | .authLogout => "auth:logout"
  | .languageChanged => "language:changed"
  | .themeChanged => "theme:changed"

/-- The data passed along with an event. -/
inductive Payload where
  /-- No data: `emit(name)`. -/
  | absent
  /-- The object `{ user }` of a login event. -/
  | user (u : User)
  /-- A language or theme name. -/
  | text (s : String)
  /-- The object `{ timestamp, user, config }` of `app:initialized`. -/
  | initialized (timestamp : String) (user : Option User)
  /-- The object `errorInfo` of `error:occurred`. -/
  | errorRecord (record : ErrorRecord)
  /-- The object `{ timestamp, version }` of `app:started`. -/
  | started (timestamp : String) (version : String)
  /-- The object `{ timestamp }` of `app:shutdown`. -/
  | shutdown (timestamp : String)
deriving DecidableEq, Repr

/-- The methods called by the startup sequence. -/
inductive Phase where
  | checkBrowserCompatibility
  | setupGlobalErrorHandling
  | setupPerformanceTracking
  | initializeCoreComponents
  | loadInitialData
  | initializeAuthentication
  | initializeUI
  | initializeRouting
  | setupSystemEvents
  | initializeServices
  | loadUserSpecificModules
  | markAsInitialized
deriving DecidableEq, Repr

/-- What an execution lets an observer see, in order of occurrence. -/
inductive Effect where
  /-- A method of the startup sequence was entered. -/
  | enter (p : Phase)
  /-- The call `showCompatibilityWarning(compatibility)`. -/
  | showCompatibilityWarning (issues : List String)
  /-- The call `handleCriticalError(error)`. -/
  | handleCriticalError (e : JSError)
  /-- The call `showCriticalErrorScreen(error)`. -/
  | showCriticalErrorScreen
  /-- A `console.warn(text, error)` of a `catch` block. -/
  | warn (text : String) (e : JSError)
  /-- The line `Loading modules for role: ...` of the module loader. -/
  | loadingModulesFor (role : Option String)
  /-- The call `import(path)`. -/
  | dynamicImport (path : String)
  /-- The line `Module loaded: ...` or `Service loaded: ...`. -/
  | loaded (name : String)
  /-- The call `router.navigate(path)`. -/
  | navigate (path : String)
  /-- The call `events.emit(name, data)`. -/
  | emit (event : String) (data : Payload)
  /-- The call `notifications.show({ type, message, ... })`. -/
  | notify (type : String) (message : MessageValue)
  /-- The line `Application Error [context]: error` at the entry of
  `handleAppError`. -/
  | appError (error : ErrorValue) (context : String)
  /-- A `console.error(error)` handling a rejected promise. -/
  | consoleError (e : JSError)
  /-- The call `instance.shutdown()` on the registry entry `name`. -/
  | shutdownHook (name : String)
  /-- A periodic task calls `method` on the registered service `service`. -/
  | serviceCall (service : String) (method : String)
  /-- A promise of a call that was not awaited was rejected. -/
  | unhandledRejection (e : JSError)
deriving DecidableEq, Repr

/-- The argument of `login(credentials)`. -/
structure Credentials where
  email : String
  password : String
deriving DecidableEq, Repr

/-- The object `{ success, user?, message? }` returned by `auth.login`. -/
structure LoginResult where
  success : Bool
  user : Option User
  message : Option String
deriving DecidableEq, Repr

/-- The property `shutdown` of a registered service or module: absent, a function
that completes, or a function that raises. -/
inductive Hook where
  | absent
  | completes
  | raises (e : JSError)
deriving DecidableEq, Repr

/-- The bodies of the three periodic tasks of `startBackgroundServices`. -/
inductive TimerTask where
  | autoBackup
  | scheduledNotifications
  | cacheCleanup
deriving DecidableEq, Repr

/-- A timer armed by `setInterval(body, period)`, the period in milliseconds. -/
structure Timer where
  task : TimerTask
  period : Nat
deriving DecidableEq, Repr

/-- Outcomes of the collaborators whose source is outside `main.js`. An `Option
JSError` is the error a call raises, `none` when it completes. Constructors of
collaborators, DOM calls, `setupErrorHandling` and `setupPerformanceMonitoring`
are taken to complete. -/
structure Env where
  /-- The result of `detectBrowserCompatibility()`. -/
  compatibility : Compatibility
  /-- The value of `navigator.onLine`. -/
  online : Bool
  /-- The value of `new Date().toISOString()`. -/
  now : String
  /-- The call `storage.initialize()`. -/
  storageInit : Option JSError
  /-- The call `storage.getItem(key)`. -/
  getItemError : String → Option JSError
  /-- The call `storage.setItem(key, value)`. -/
  setItemError : String → Option JSError
  /-- The call `auth.initialize()`. -/
  authInit : Option JSError
  /-- The call `auth.checkCurrentSession()`. -/
  checkCurrentSession : Except JSError Session
  /-- The call `loadCSS([...])`. -/
  loadCSS : Option JSError
  /-- The call `router.initialize()`. -/
  routerInit : Option JSError
  /-- The route change, if any, that the router reports through `onRouteChange`
  while `router.initialize()` is awaited. -/
  routerInitRoute : Option RouteChange
  /-- Resolving `import(path)` of a service and constructing it. -/
  serviceLoad : String → Option JSError
  /-- Resolving `import(path)` of a module and constructing it. -/
  moduleLoad : String → Option JSError
  /-- The call `moduleInstance.initialize()` of the module at `path`. -/
  moduleInit : String → Option JSError
  /-- The property `stack` of a raised error. -/
  stackOf : JSError → String
  /-- The call `auth.login(credentials)`. -/
  authLogin : Credentials → Except JSError LoginResult
  /-- The call `auth.logout()`. -/
  authLogout : Option JSError
  /-- The property `shutdown` of the service or module loaded from `path`. -/
  shutdownHook : String → Hook

/-- The fields of `this`, the persistent store and the observations made so far. -/
structure App where
  /-- Whether `this.storage` has been assigned. -/
  storage : Bool
  state : Option StateManager
  /-- The closures registered on `this.events`, `none` before it is assigned. -/
  events : Option (List Listener)
  /-- Whether `this.notifications` has been assigned. -/
  notifications : Bool
  /-- Whether `this.auth` has been assigned. -/
  auth : Bool
  router : Option RouterEngine
  isInitialized : Bool
  isAuthenticated : Bool
  currentUser : Option User
  currentRoute : Option Route
  /-- The map `this.modules`, in insertion order. -/
  modules : List (String × ModuleInstance)
  /-- The map `this.services`, in insertion order: name and load path. -/
  services : List (String × String)
  /-- Names of the events listened to on `window`. -/
  windowListeners : List String
  /-- Loops of module loader runs that were started without `await` and have
  not run yet. -/
  pending : List (List ModuleDescriptor)
  /-- The writes `this.storage.setItem(...).catch(console.error)` whose promise has
  not settled yet, oldest first. -/
  unsettled : List StoreWrite
  /-- The timers armed by `setInterval` and never cleared. -/
  timers : List Timer
  store : Store
  trace : List Effect
deriving DecidableEq, Repr

/-- The `constructor()`, run over a persistent store with the given contents. -/
def ClinicProApp.new (store : Store) : App :=
  { storage := false, state := none, events := none, notifications := false,
    auth := false, router := none, isInitialized := false, isAuthenticated := false,
    currentUser := none, currentRoute := none, modules := [], services := [],
    windowListeners := [], pending := [], unsettled := [], timers := [], store := store,
    trace := [] }

/-! ## Method bodies -/

/-- A method body: it runs on the fields of `this`, completes with a value or
raises, and hands on the fields as they are at that point. -/
def Method (α : Type) : Type := App → Except JSError α × App

/-- A body that completes with `x`. -/
def Method.pure {α : Type} (x : α) : Method α := fun a => (.ok x, a)

/-- Sequencing: the second body runs only when the first completes. -/
def Method.bind {α β : Type} (m : Method α) (f : α → Method β) : Method β := fun a =>
  match m a with
  | (.ok x, a') => f x a'
  | (.error e, a') => (.error e, a')

instance : Monad Method where
  pure := Method.pure
  bind := Method.bind

/-- The statement `throw e`, and every call that raises `e`. -/
def raise {α : Type} (e : JSError) : Method α := fun a => (.error e, a)

/-- The statement `try { body } catch (error) { handler(error) }`. -/
def tryCatch {α : Type} (body : Method α) (handler : JSError → Method α) : Method α := fun a =>
  match body a with
  | (.ok x, a') => (.ok x, a')
  | (.error e, a') => handler e a'

/-- Reads the fields of `this`. -/
def getThis : Method App := fun a => (.ok a, a)

/-- Assigns fields of `this`. -/
def assign (f : App → App) : Method Unit := fun a => (.ok (), f a)

/-- Appends one observation to the trace. -/
def observe (e : Effect) : Method Unit :=
  assign fun a => { a with trace := a.trace ++ [e] }

/-- A collaborator call that raises the given error, or completes. -/
def call : Option JSError → Method Unit
  | none => Method.pure ()
  | some e => raise e

/-- The call `this.storage.getItem(key)`, `read` selecting the entry of `key`. -/
def getItem {α : Type} (env : Env) (key : String) (read : Store → Option α) :
    Method (Option α) := do
  let this ← getThis
  if !this.storage then raise (typeError "Cannot read properties of undefined (reading 'getItem')")
  call (env.getItemError key)
  return read this.store

/-- The call `this.storage.setItem(key, value)`, `write` storing the value under
`key`. -/
def setItem (env : Env) (key : String) (write : Store → Store) : Method Unit := do
  let this ← getThis
  if !this.storage then raise (typeError "Cannot read properties of undefined (reading 'setItem')")
  call (env.setItemError key)
  assign fun a => { a with store := write a.store }

/-- The call `this.state.update(path, value)`. -/
def stateUpdate (w : StateWrite) : Method Unit := do
  let this ← getThis
  match this.state with
  | none => raise (typeError "Cannot read properties of null (reading 'update')")
  | some st => assign fun a => { a with state := some (st.update w) }

/-- The expression `this.state.get(region)` for a top-level region. -/
def stateGet {α : Type} (region : StateManager → α) : Method α := do
  let this ← getThis
  match this.state with
  | none => raise (typeError "Cannot read properties of null (reading 'get')")
  | some st => return region st

/-- The call `this.notifications.show({ type, title, message, duration })`. -/
def notificationsShow (type : String) (message : MessageValue) : Method Unit := do
  let this ← getThis
  if !this.notifications then raise (typeError "Cannot read properties of undefined (reading 'show')")
  observe (.notify type message)

/-- The method `showSuccessNotification(message)`. -/
def showSuccessNotification (message : String) : Method Unit :=
  notificationsShow "success" (.text message)

/-- The call `this.events.emit(name, data)` for an event no closure of the
orchestrator is registered for. -/
def eventsEmit (event : String) (data : Payload) : Method Unit := do
  let this ← getThis
  match this.events with
  | none => raise (typeError "Cannot read properties of undefined (reading 'emit')")
  | some _ => observe (.emit event data)

/-- The call `this.events.on(l.event, closure)`. -/
def eventsOn (l : Listener) : Method Unit := do
  let this ← getThis
  match this.events with
  | none => raise (typeError "Cannot read properties of undefined (reading 'on')")
  | some ls => assign fun a => { a with events := some (ls ++ [l]) }

/-- The call `this.router.navigate(path)`. -/
def routerNavigate (path : String) : Method Unit := do
  let this ← getThis
  match this.router with
  | none => raise (typeError "Cannot read properties of null (reading 'navigate')")
  | some _ => observe (.navigate path)

/-- The call `map.set(key, value)` of a `Map`: an existing key keeps its place. -/
def mapSet {β : Type} (m : List (String × β)) (key : String) (value : β) : List (String × β) :=
  if m.any (fun kv => kv.1 == key) then
    m.map fun kv => if kv.1 == key then (key, value) else kv
  else m ++ [(key, value)]

/-- The expression `Array.from(map.keys())`. -/
def mapKeys {β : Type} (m : List (String × β)) : List String :=
  m.map Prod.fst

/-- The statement `for (const x of xs) { body(x) }`. -/
def forEach {α : Type} (xs : List α) (body : α → Method Unit) : Method Unit :=
  match xs with
  | [] => Method.pure ()
  | x :: rest => Method.bind (body x) fun _ => forEach rest body

/-- A call of an `async` method without `await`: an error it raises rejects a
promise nobody handles and does not reach the caller. -/
def detached (m : Method Unit) : Method Unit :=
  tryCatch m fun e => observe (.unhandledRejection e)

/-! ## Startup phases -/

/-- The method `checkBrowserCompatibility()`. -/
def checkBrowserCompatibility (env : Env) : Method Compatibility := do
  observe (.enter .checkBrowserCompatibility)
  return env.compatibility

/-- The method `showCompatibilityWarning(compatibility)`. -/
def showCompatibilityWarning (compatibility : Compatibility) : Method Unit :=
  observe (.showCompatibilityWarning compatibility.issues)

/-- The method `setupGlobalErrorHandling()`. -/
def setupGlobalErrorHandling : Method Unit := do
  observe (.enter .setupGlobalErrorHandling)
  assign fun a => { a with windowListeners := a.windowListeners ++ ["error"] }

/-- The method `setupPerformanceTracking()`. -/
def setupPerformanceTracking : Method Unit :=
  observe (.enter .setupPerformanceTracking)

/-- The `initialState` handed to `new StateManager`, with
`config.system.defaultLanguage = "ar"`. -/
def initialState (env : Env) : StateManager :=
  { app := { initialized := false, online := env.online, language := "ar", theme := "light" },
    auth := { isAuthenticated := false, user := none, token := none, permissions := [] },
    ui := { isLoading := false, notifications := [], modals := [], currentRoute := none } }

/-- The method `initializeCoreComponents()`. -/
def initializeCoreComponents (env : Env) : Method Unit := do
  observe (.enter .initializeCoreComponents)
  assign fun a => { a with storage := true }
  call env.storageInit
  assign fun a => { a with state := some (initialState env) }
  assign fun a => { a with events := some [] }
  assign fun a => { a with notifications := true }

/-- The method `loadReferenceData()`. -/
def loadReferenceData (env : Env) : Method Unit :=
  setItem env "reference_data" fun s => { s with referenceData := true }

/-- The method `loadInitialData()`. -/
def loadInitialData (env : Env) : Method Unit := do
  observe (.enter .loadInitialData)
  tryCatch
    (do
      let savedSettings ← getItem env "user_settings" Store.userSettings
      match savedSettings with
      | some settings => stateUpdate (.app settings)
      | none => Method.pure ()
      let savedSession ← getItem env "auth_session" Store.authSession
      match savedSession with
      | some session =>
        stateUpdate (.authSession session)
        assign fun a => { a with isAuthenticated := session.isAuthenticated,
                                 currentUser := session.user }
      | none => Method.pure ()
      loadReferenceData env)
    (fun e => observe (.warn "Failed to load initial data" e))

/-- The method `initializeAuthentication()`. -/
def initializeAuthentication (env : Env) : Method Unit := do
  observe (.enter .initializeAuthentication)
  assign fun a => { a with auth := true }
  call env.authInit
  match env.checkCurrentSession with
  | .error e => raise e
  | .ok session =>
    assign fun a => { a with isAuthenticated := session.isAuthenticated,
                             currentUser := session.user }

/-- The method `loadFonts()`: it only touches the document. -/
def loadFonts : Method Unit := Method.pure ()

/-- The expression `stored || 'light'`: an absent or empty string is falsy. -/
def orLight : Option String → String
  | some t => if t = "" then "light" else t
  | none => "light"

/-- The method `setupTheme()`. -/
def setupTheme (env : Env) : Method Unit := do
  let savedTheme := orLight (← getItem env "user_theme" Store.userTheme)
  stateUpdate (.appTheme savedTheme)

/-- The method `setupLanguage()`: it only touches the document. -/
def setupLanguage : Method Unit := Method.pure ()

/-- The method `createLoadingScreen()`: it only touches the document. -/
def createLoadingScreen : Method Unit := Method.pure ()

/-- The method `initializeUI()`. -/
def initializeUI (env : Env) : Method Unit := do
  observe (.enter .initializeUI)
  call env.loadCSS
  loadFonts
  setupTheme env
  setupLanguage
  createLoadingScreen

/-- The method `getDefaultRoute()`. -/
def getDefaultRoute (this : App) : String :=
  if this.isAuthenticated then "/" else "/login"

/-- The method `handleRouteChange({ route, params, query })`. The assignment to
`document.title` only touches the document. -/
def handleRouteChange (change : RouteChange) : Method Unit := do
  assign fun a => { a with currentRoute := some change.route }
  stateUpdate (.uiCurrentRoute
    { path := change.route.path, component := change.route.component,
      params := change.params, query := change.query })

/-- A call of a callback with the data of a route change. -/
def Callback.run : Callback → RouteChange → Method Unit
  | .handleRouteChange, change => ClinicPro.handleRouteChange change

/-- Modelled from the spec: `router-engine.js` is not among the sources; section 6
gives the route engine as "constructed with the fixed route table, a callback for
route-change notifications, and a reference to the Session Manager". The router
reports a change of route by calling the callback `onRouteChange` it was built
with; before a router is built there is nothing that calls. A report that
follows `router.navigate(path)`, which the orchestrator does not await, is such a
call made afterwards. -/
def routeChanged (change : RouteChange) : Method Unit := do
  let this ← getThis
  match this.router with
  | none => Method.pure ()
  | some router => router.onRouteChange.run change

/-- The record `handleRouteChange` writes under `ui.currentRoute` for a change. -/
def RouteChange.recorded (change : RouteChange) : RouteState :=
  { path := change.route.path, component := change.route.component,
    params := change.params, query := change.query }

/-- The state tree once the router has reported the route change `report`, if
any, through `handleRouteChange`. -/
def StateManager.routeReported (st : StateManager) (report : Option RouteChange) :
    StateManager :=
  match report with
  | none => st
  | some change => st.update (.uiCurrentRoute change.recorded)

/-- The method `initializeRouting()`. The router is built with the callback
`this.handleRouteChange`, and while `router.initialize()` is awaited it may report
a first route through it. -/
def initializeRouting (env : Env) : Method Unit := do
  observe (.enter .initializeRouting)
  assign fun a => { a with router := some { onRouteChange := .handleRouteChange,
                                            defaultRoute := getDefaultRoute a } }
  match env.routerInitRoute with
  | some change => routeChanged change
  | none => Method.pure ()
  call env.routerInit

/-- The method `setupSystemEvents()`. -/
def setupSystemEvents : Method Unit := do
  observe (.enter .setupSystemEvents)
  eventsOn .authLogin
  eventsOn .authLogout
  assign fun a => { a with windowListeners := a.windowListeners ++ ["online"] }
  assign fun a => { a with windowListeners := a.windowListeners ++ ["offline"] }
  eventsOn .languageChanged
  eventsOn .themeChanged

/-- The array `services` of `initializeServices`: name and path. -/
def services : List (String × String) :=
  [ ("api", "./services/api-service.js"),
    ("cache", "./core/cache-manager.js"),
    ("backup", "./services/backup/backup-manager.js"),
    ("notifications", "./services/notifications/notification-scheduler.js") ]

/-- The method `initializeServices()`. -/
def initializeServices (env : Env) : Method Unit := do
  observe (.enter .initializeServices)
  forEach services fun service =>
    tryCatch
      (do
        observe (.dynamicImport service.2)
        call (env.serviceLoad service.2)
        assign fun a => { a with services := mapSet a.services service.1 service.2 }
        observe (.loaded service.1))
      (fun e => observe (.warn ("Failed to load service: " ++ service.1) e))

/-! ## The role module loader -/

/-- The statements of `loadUserSpecificModules()` before its loop: they yield the
array the loop runs over, nothing when there is no user. Iterating a value that
is not an array raises. -/
def loaderPrologue : Method (List ModuleDescriptor) := do
  observe (.enter .loadUserSpecificModules)
  let this ← getThis
  match this.currentUser with
  | none => return []
  | some user =>
    let modules := getModulesForRole user.role
    observe (.loadingModulesFor user.role)
    match modules with
    | .descriptors ds => return ds
    | .inherited _ => raise (typeError "modules is not iterable")

/-- One turn of the loop of `loadUserSpecificModules()`. -/
def loadModule (env : Env) (module : ModuleDescriptor) : Method Unit :=
  tryCatch
    (do
      observe (.dynamicImport ("./modules/" ++ module.path ++ ".js"))
      call (env.moduleLoad module.path)
      assign fun a =>
        { a with modules := mapSet a.modules module.name ⟨module.path, a.currentUser⟩ }
      call (env.moduleInit module.path)
      observe (.loaded module.name))
    (fun e => observe (.warn ("Failed to load module: " ++ module.name) e))

/-- The loop of `loadUserSpecificModules()`. -/
def loadModules (env : Env) (modules : List ModuleDescriptor) : Method Unit :=
  forEach modules (loadModule env)

/-- The method `loadUserSpecificModules()`, awaited. -/
def loadUserSpecificModules (env : Env) : Method Unit := do
  let modules ← loaderPrologue
  loadModules env modules

/-- The call `this.loadUserSpecificModules()` without `await`: the statements
before the loop run at once, the loop is left pending. -/
def startModuleLoader : Method Unit :=
  detached do
    let modules ← loaderPrologue
    assign fun a => { a with pending := a.pending ++ [modules] }

/-- The pending loader loops run to completion, oldest first. -/
def runPending (env : Env) : Method Unit := do
  let this ← getThis
  assign fun a => { a with pending := [] }
  forEach this.pending (loadModules env)

/-! ## Completion, failure and the startup sequence -/

/-- The method `markAsInitialized()`. -/
def markAsInitialized (env : Env) : Method Unit := do
  observe (.enter .markAsInitialized)
  assign fun a => { a with isInitialized := true }
  stateUpdate (.appInitialized true)
  let this ← getThis
  eventsEmit "app:initialized" (.initialized env.now this.currentUser)

/-- The method `saveApplicationState()`. -/
def saveApplicationState (env : Env) : Method Unit :=
  tryCatch
    (do
      let auth ← stateGet StateManager.auth
      let ui ← stateGet StateManager.ui
      setItem env "app_recovery_state" fun s =>
        { s with recoveryState := some { auth := auth, ui := ui, timestamp := env.now } })
    (fun e => observe (.warn "Failed to save application state" e))

/-- The method `showCriticalErrorScreen(error)`. -/
def showCriticalErrorScreen : Method Unit :=
  observe .showCriticalErrorScreen

/-- The method `handleCriticalError(error)`. -/
def handleCriticalError (env : Env) (error : JSError) : Method Unit := do
  observe (.handleCriticalError error)
  showCriticalErrorScreen
  detached (saveApplicationState env)

/-- The method `initialize()`. -/
def ClinicProApp.initialize (env : Env) : Method Bool :=
  tryCatch
    (do
      let compatibility ← checkBrowserCompatibility env
      if !compatibility.supported then
        showCompatibilityWarning compatibility
        return false
      setupGlobalErrorHandling
      setupPerformanceTracking
      initializeCoreComponents env
      loadInitialData env
      initializeAuthentication env
      initializeUI env
      initializeRouting env
      setupSystemEvents
      initializeServices env
      loadUserSpecificModules env
      markAsInitialized env
      return true)
    (fun error => do
      handleCriticalError env error
      return false)

/-! ## Event handlers -/

/-- The method `handleAuthStateChange({ isAuthenticated, user })`. -/
def handleAuthStateChange (change : Session) : Method Unit := do
  assign fun a => { a with isAuthenticated := change.isAuthenticated,
                           currentUser := change.user }
  stateUpdate (.auth change.isAuthenticated change.user
    ((change.user.bind User.permissions).getD []))
  if change.isAuthenticated then
    match change.user with
    | none => raise (typeError "Cannot read properties of null (reading 'name')")
    | some _ => Method.pure ()
    startModuleLoader
    let this ← getThis
    routerNavigate (getDefaultRoute this)
  else
    assign fun a => { a with modules := [] }
    routerNavigate "/login"

/-- The value of `config.system.supportedLanguages`. -/
def supportedLanguages : List String := ["ar", "en"]

/-- The method `changeLanguage(language)`; `none` is an argument that is not a
string. -/
def changeLanguage (env : Env) (language : Option String) : Method Unit :=
  match language with
  | none => Method.pure ()
  | some l =>
    if l ∈ supportedLanguages then do
      setItem env "user_language" fun s => { s with userLanguage := some l }
      stateUpdate (.appLanguage l)
      eventsEmit "language:reload" .absent
      showSuccessNotification
        ("تم تغيير اللغة إلى " ++ if l = "ar" then "العربية" else "English")
    else Method.pure ()

/-- The method `changeTheme(theme)`; `none` is an argument that is not a string. -/
def changeTheme (env : Env) (theme : Option String) : Method Unit :=
  match theme with
  | none => Method.pure ()
  | some t =>
    if t ∈ ["light", "dark", "auto"] then do
      setItem env "user_theme" fun s => { s with userTheme := some t }
      stateUpdate (.appTheme t)
      showSuccessNotification
        ("تم تغيير السمة إلى " ++ if t = "light" then "فاتح" else "غامق")
    else Method.pure ()

/-- The string a payload passes to a handler that expects one. -/
def Payload.asText : Payload → Option String
  | .text s => some s
  | _ => none

/-- The closures of `setupSystemEvents`, applied to the data of an event. The
login closure reads `data.user.email` first, which raises when there is no
user record in the data. -/
def Listener.run (env : Env) (l : Listener) (data : Payload) : Method Unit :=
  match l, data with
  | .authLogin, .user u => handleAuthStateChange { isAuthenticated := true, user := some u }
  | .authLogin, .initialized _ (some u) =>
    handleAuthStateChange { isAuthenticated := true, user := some u }
  | .authLogin, _ => raise (typeError "Cannot read properties of undefined (reading 'email')")
  | .authLogout, _ => handleAuthStateChange { isAuthenticated := false, user := none }
  | .languageChanged, d => detached (changeLanguage env d.asText)
  | .themeChanged, d => detached (changeTheme env d.asText)

/-- Modelled from the spec: `event-emitter.js` is not among the sources; section 6
gives the event bus as "synchronous, registration-ordered per kind". Publishing
runs, in registration order, the closures registered for the event. -/
def publish (env : Env) (event : String) (data : Payload) : Method Unit := do
  let this ← getThis
  match this.events with
  | none => raise (typeError "Cannot read properties of undefined (reading 'emit')")
  | some listeners =>
    observe (.emit event data)
    forEach (listeners.filter fun l => l.event = event) fun l => l.run env data

/-! ## Error handling, recovery and the public methods -/

/-- The value of `errorMessages.default`. -/
def defaultErrorMessage : String := "حدث خطأ غير متوقع. يرجى المحاولة مرة أخرى."

/-- The own properties of the object literal `errorMessages`, in source order. -/
def errorMessages : List (String × String) :=
  [ ("NetworkError", "فشل في الاتصال بالخادم. يرجى التحقق من اتصال الإنترنت."),
    ("TimeoutError", "انتهت مهلة الاتصال. يرجى المحاولة مرة أخرى."),
    ("QuotaExceededError", "تم تجاوز سعة التخزين المسموح بها."),
    ("SecurityError", "خطأ في الأمان. يرجى تسجيل الدخول مرة أخرى."),
    ("default", defaultErrorMessage) ]

/-- The method `getErrorMessage(error)`:
`return errorMessages[error.name] || errorMessages.default`. The lookup finds an
own property first, then a property of `Object.prototype`, which is truthy; only
when both miss is the result `undefined` and replaced by the default text. -/
def getErrorMessage (error : ErrorValue) : MessageValue :=
  match errorMessages.lookup (propertyKey error.name) with
  | some text => .text text
  | none =>
    if propertyKey error.name ∈ objectPrototypeKeys then .inherited (propertyKey error.name)
    else .text defaultErrorMessage

/-- The method `showErrorNotification(message)`. -/
def showErrorNotification (message : MessageValue) : Method Unit :=
  notificationsShow "error" message

/-- The method `showWarningNotification(message)`. -/
def showWarningNotification (message : String) : Method Unit :=
  notificationsShow "warning" (.text message)

/-- The statement `this.storage.setItem(key, value).catch(console.error)`: a
missing `this.storage` raises at once; otherwise the write is started and the
statement is over, the promise of the write settling later (`settleWrites`). -/
def setItemCaught (write : StoreWrite) : Method Unit := do
  let this ← getThis
  if !this.storage then raise (typeError "Cannot read properties of undefined (reading 'setItem')")
  assign fun a => { a with unsettled := a.unsettled ++ [write] }

/-- The promise of one such write settles: the value is in the store, or the
rejection goes to the callback of `.catch`, which is `console.error`. -/
def settleWrite (env : Env) (write : StoreWrite) : Method Unit :=
  match env.setItemError write.key with
  | none => assign fun a => { a with store := write.apply a.store }
  | some e => observe (.consoleError e)

/-- The promises of the writes that were started without `await` settle, oldest
first. -/
def settleWrites (env : Env) : Method Unit := do
  let this ← getThis
  assign fun a => { a with unsettled := [] }
  forEach this.unsettled (settleWrite env)

/-- The method `handleAppError(error, context)`. -/
def handleAppError (env : Env) (error : ErrorValue) (context : String) : Method Unit := do
  observe (.appError error context)
  let this ← getThis
  let errorInfo : ErrorRecord :=
    { message := error.message, stack := error.stack, timestamp := env.now,
      context := context, user := this.currentUser.map User.id }
  setItemCaught (.errorLog errorInfo)
  showErrorNotification (getErrorMessage error)
  eventsEmit "error:occurred" (.errorRecord errorInfo)

/-- A raised error as an error value, with the stack the engine attached. -/
def JSError.value (env : Env) (e : JSError) : ErrorValue :=
  { name := some e.name, message := e.message, stack := env.stackOf e }

/-- The method `restoreApplicationState()`. -/
def restoreApplicationState (env : Env) : Method Bool :=
  tryCatch
    (do
      let savedState ← getItem env "app_recovery_state" Store.recoveryState
      match savedState with
      | some saved =>
        stateUpdate (.authRegion saved.auth)
        stateUpdate (.uiRegion saved.ui)
        return true
      | none => return false)
    (fun e => do
      observe (.warn "Failed to restore application state" e)
      return false)

/-- The object `{ success, user?, message? }` returned by `login` and `logout`. -/
structure LoginOutcome where
  success : Bool
  user : Option User
  message : Option String
deriving DecidableEq, Repr

/-- The expression `message || fallback`: an absent or empty string is falsy. -/
def orText (message : Option String) (fallback : String) : String :=
  match message with
  | some m => if m = "" then fallback else m
  | none => fallback

/-- The call `this.auth.login(credentials)`. -/
def authLogin (env : Env) (credentials : Credentials) : Method LoginResult := do
  let this ← getThis
  if !this.auth then raise (typeError "Cannot read properties of null (reading 'login')")
  match env.authLogin credentials with
  | .ok result => return result
  | .error e => raise e

/-- The call `this.auth.logout()`. -/
def authLogout (env : Env) : Method Unit := do
  let this ← getThis
  if !this.auth then raise (typeError "Cannot read properties of null (reading 'logout')")
  call env.authLogout

/-- The method `login(credentials)`. -/
def login (env : Env) (credentials : Credentials) : Method LoginOutcome :=
  tryCatch
    (do
      let result ← authLogin env credentials
      if result.success then
        showSuccessNotification "تم تسجيل الدخول بنجاح"
        return { success := true, user := result.user, message := none }
      else
        showErrorNotification (.text (orText result.message "فشل تسجيل الدخول"))
        return { success := false, user := none, message := result.message })
    (fun error => do
      handleAppError env (error.value env) "login"
      return { success := false, user := none,
               message := some "حدث خطأ أثناء تسجيل الدخول" })

/-- The method `logout()`. -/
def logout (env : Env) : Method LoginOutcome :=
  tryCatch
    (do
      authLogout env
      showSuccessNotification "تم تسجيل الخروج بنجاح"
      return { success := true, user := none, message := none })
    (fun error => do
      handleAppError env (error.value env) "logout"
      return { success := false, user := none,
               message := some "حدث خطأ أثناء تسجيل الخروج" })

/-! ## Running and stopping -/

/-- The value of `config.backup.autoBackup.enabled` in `core-settings.js`. -/
def autoBackupEnabled : Bool := true

/-- The value of `config.system.version` in `core-settings.js`. -/
def systemVersion : String := "1.0.0"

/-- The method `startBackgroundServices()`: three calls of `setInterval`, whose
handles are not kept. -/
def startBackgroundServices : Method Unit := do
  if autoBackupEnabled then
    assign fun a => { a with timers := a.timers ++ [⟨.autoBackup, 24 * 60 * 60 * 1000⟩] }
  assign fun a => { a with timers := a.timers ++ [⟨.scheduledNotifications, 5 * 60 * 1000⟩] }
  assign fun a => { a with timers := a.timers ++ [⟨.cacheCleanup, 60 * 60 * 1000⟩] }

/-- The service a periodic task looks up with `this.services.get(name)`. -/
def TimerTask.service : TimerTask → String
  | .autoBackup => "backup"
  | .scheduledNotifications => "notifications"
  | .cacheCleanup => "cache"

/-- The method a periodic task calls on that service. -/
def TimerTask.method : TimerTask → String
  | .autoBackup => "createAutoBackup"
  | .scheduledNotifications => "sendScheduledNotifications"
  | .cacheCleanup => "cleanup"

/-- One firing of an armed timer: `this.services.get(name)?.method()`. -/
def Timer.fire (timer : Timer) : Method Unit := do
  let this ← getThis
  if this.services.any (fun kv => kv.1 == timer.task.service) then
    observe (.serviceCall timer.task.service timer.task.method)

/-- The method `run()`. -/
def run (env : Env) : Method Bool := do
  let initialized ← ClinicProApp.initialize env
  if initialized then
    eventsEmit "app:started" (.started env.now systemVersion)
    startBackgroundServices
    return true
  else
    return false

/-- The statement `if (entry.shutdown) entry.shutdown()` for the registry entry
`name` loaded from `path`. -/
def runShutdownHook (env : Env) (name path : String) : Method Unit :=
  match env.shutdownHook path with
  | .absent => Method.pure ()
  | .completes => observe (.shutdownHook name)
  | .raises e => Method.bind (observe (.shutdownHook name)) fun _ => raise e

/-- Modelled from the spec: `event-emitter.js` is not among the sources; section 6
lists `unsubscribeAll()` for the event bus. The call
`this.events.removeAllListeners()` leaves no closure registered. -/
def eventsRemoveAllListeners : Method Unit := do
  let this ← getThis
  match this.events with
  | none => raise (typeError "Cannot read properties of undefined (reading 'removeAllListeners')")
  | some _ => assign fun a => { a with events := some [] }

/-- The method `shutdown()`. -/
def shutdown (env : Env) : Method Unit := do
  eventsEmit "app:shutdown" (.shutdown env.now)
  saveApplicationState env
  let this ← getThis
  forEach this.services fun service => runShutdownHook env service.1 service.2
  let this ← getThis
  forEach this.modules fun module => runShutdownHook env module.1 module.2.path
  eventsRemoveAllListeners

/-- The shutdown hooks called, by registry key, in order. -/
def hooksInvoked (t : List Effect) : List String :=
  t.filterMap fun
    | .shutdownHook name => some name
    | _ => none

/-- The calls periodic tasks made on services, in order. -/
def serviceCalls (t : List Effect) : List (String × String) :=
  t.filterMap fun
    | .serviceCall service method => some (service, method)
    | _ => none

/-- The errors `handleAppError` was called with, and their contexts, in order. -/
def appErrors (t : List Effect) : List (ErrorValue × String) :=
  t.filterMap fun
    | .appError error context => some (error, context)
    | _ => none

/-- The notifications shown, by type and message, in order. -/
def notificationsShown (t : List Effect) : List (String × MessageValue) :=
  t.filterMap fun
    | .notify type message => some (type, message)
    | _ => none

/-- The rejections of promises nobody handled, in order. -/
def unhandledRejections (t : List Effect) : List JSError :=
  t.filterMap fun
    | .unhandledRejection e => some e
    | _ => none

/-! ## Observations on a trace -/

/-- The startup methods entered, in order. -/
def phasesEntered (t : List Effect) : List Phase :=
  t.filterMap fun
    | .enter p => some p
    | _ => none

/-- The errors `handleCriticalError` was called with, in order. -/
def criticalErrors (t : List Effect) : List JSError :=
  t.filterMap fun
    | .handleCriticalError e => some e
    | _ => none

/-- The paths `router.navigate` was called with, in order. -/
def navigations (t : List Effect) : List String :=
  t.filterMap fun
    | .navigate path => some path
    | _ => none

/-- The paths `import` was called with, in order. -/
def importsAttempted (t : List Effect) : List String :=
  t.filterMap fun
    | .dynamicImport path => some path
    | _ => none

/-- The events passed to `events.emit`, with their data, in order. -/
def emitted (t : List Effect) : List (String × Payload) :=
  t.filterMap fun
    | .emit event data => some (event, data)
    | _ => none

/-! ## Relations between the fields before and after a run -/

/-- Every run of `m` relates the fields before to the fields after by `R`,
whether it completes or raises. -/
def Preserves (R : App → App → Prop) {α : Type} (m : Method α) : Prop :=
  ∀ a, R a (m a).2

/-- Every run of `m` completes. -/
def Total {α : Type} (m : Method α) : Prop :=
  ∀ a, ∃ x, (m a).1 = .ok x

/-- What the fault-tolerant parts of startup leave alone: the collaborators stay
assigned, no startup method is entered, `handleCriticalError` is not called, no
event is emitted, and the region `ui` and the timers are as before. -/
structure Quiet (a a' : App) : Prop where
  storage : a'.storage = a.storage
  state : a.state.isSome = true → a'.state.isSome = true
  events : a'.events = a.events
  notifications : a'.notifications = a.notifications
  auth : a'.auth = a.auth
  router : a'.router = a.router
  isInitialized : a'.isInitialized = a.isInitialized
  windowListeners : a'.windowListeners = a.windowListeners
  pending : a'.pending = a.pending
  phases : phasesEntered a'.trace = phasesEntered a.trace
  criticals : criticalErrors a'.trace = criticalErrors a.trace
  ui : a'.state.map StateManager.ui = a.state.map StateManager.ui
  emits : emitted a'.trace = emitted a.trace
  timers : a'.timers = a.timers

/-- The cached pair `(isAuthenticated, currentUser)` is the same before and after. -/
def KeepsCache (a a' : App) : Prop :=
  a'.isAuthenticated = a.isAuthenticated ∧ a'.currentUser = a.currentUser

/-! ## Sample collaborators -/

/-- Collaborators that all complete, with no session open. -/
def Env.nominal : Env :=
  { compatibility := { supported := true, issues := [] }, online := true,
    now := "2024-01-01T00:00:00.000Z",
    storageInit := none, getItemError := fun _ => none, setItemError := fun _ => none,
    authInit := none, checkCurrentSession := .ok { isAuthenticated := false, user := none },
    loadCSS := none, routerInit := none, routerInitRoute := none,
    serviceLoad := fun _ => none,
    moduleLoad := fun _ => none, moduleInit := fun _ => none,
    stackOf := fun e => e.name ++ ": " ++ e.message,
    authLogin := fun _ => .ok { success := false, user := none,
                                message := some "Invalid credentials" },
    authLogout := none, shutdownHook := fun _ => .completes }

/-- A doctor. -/
def sampleDoctor : User :=
  { id := "u-7", name := "Salma", email := "salma@clinic.example", role := some "doctor",
    permissions := some ["patient_management"] }

/-- The store cannot be opened. -/
def Env.storeFails : Env :=
  { Env.nominal with storageInit := some ⟨"InvalidStateError", "database unavailable"⟩ }

/-- The style sheets cannot be loaded. -/
def Env.stylesheetFails : Env :=
  { Env.nominal with loadCSS := some ⟨"Error", "Failed to load CSS"⟩ }

/-- The session manager cannot be started. -/
def Env.sessionManagerFails : Env :=
  { Env.nominal with authInit := some ⟨"Error", "auth unavailable"⟩ }

/-- The route engine cannot be started. -/
def Env.routerFails : Env :=
  { Env.nominal with routerInit := some ⟨"Error", "no route table"⟩ }

/-- A doctor is signed in; every store access of `loadInitialData`, every service
and the prescription module fail to load, and the dashboard module fails to
start. -/
def Env.degraded : Env :=
  { Env.nominal with
      checkCurrentSession := .ok { isAuthenticated := true, user := some sampleDoctor },
      getItemError := fun key =>
        if key = "user_theme" then none else some ⟨"Error", "read failed"⟩,
      setItemError := fun _ => some ⟨"QuotaExceededError", "write failed"⟩,
      serviceLoad := fun _ => some ⟨"Error", "service missing"⟩,
      moduleLoad := fun path =>
        if path = "prescriptions/prescription-manager" then some ⟨"Error", "module missing"⟩
        else none,
      moduleInit := fun path =>
        if path = "medical/doctor-dashboard" then some ⟨"Error", "dashboard failed"⟩
        else none }

/-- A doctor is signed in and every collaborator completes. -/
def Env.doctor : Env :=
  { Env.nominal with
      checkCurrentSession := .ok { isAuthenticated := true, user := some sampleDoctor } }

/-- The prescription module cannot be resolved. -/
def Env.prescriptionMissing : Env :=
  { Env.doctor with
      moduleLoad := fun path =>
        if path = "prescriptions/prescription-manager" then some ⟨"Error", "module missing"⟩
        else none }

/-- The dashboard module resolves and constructs, and its own `initialize` raises. -/
def Env.dashboardFails : Env :=
  { Env.doctor with
      moduleInit := fun path =>
        if path = "medical/doctor-dashboard" then some ⟨"Error", "dashboard failed"⟩
        else none }

/-- A new orchestrator whose cache holds the doctor. -/
def sampleSignedIn : App :=
  { ClinicProApp.new Store.empty with isAuthenticated := true, currentUser := some sampleDoctor }

/-- A user whose role is the string `constructor`. -/
def sampleOddRole : User :=
  { id := "u-9", name := "Nur", email := "nur@clinic.example", role := some "constructor",
    permissions := none }

/-- The cached pair after a run is the one before it or the session kept in the
store under `auth_session`, and that entry of the store is left as it was. -/
def CacheFromStore (a a' : App) : Prop :=
  a'.store.authSession = a.store.authSession ∧
    ((a'.isAuthenticated = a.isAuthenticated ∧ a'.currentUser = a.currentUser) ∨
      ∃ s, a.store.authSession = some s ∧ a'.isAuthenticated = s.isAuthenticated ∧
        a'.currentUser = s.user)

/-- A store that holds the session of the doctor under `auth_session`. -/
def Store.withSession : Store :=
  { Store.empty with authSession := some { isAuthenticated := true, user := some sampleDoctor } }

/-- The orchestrator after a startup in which every collaborator completes and
no session is open. -/
def sampleStarted : App :=
  ( ClinicProApp.initialize Env.nominal (ClinicProApp.new Store.empty)).2

/-- The orchestrator after a startup in which the doctor is signed in. -/
def sampleDoctorStarted : App :=
  ( ClinicProApp.initialize Env.doctor (ClinicProApp.new Store.empty)).2

/-- The value `f` reads from the fields is the same before and after. -/
def Keeps {β : Type} (f : App → β) (a a' : App) : Prop :=
  f a' = f a

/-- The browser lacks a feature the application needs. -/
def Env.unsupported : Env :=
  { Env.nominal with compatibility := { supported := false, issues := ["IndexedDB"] } }

/-- The store cannot be opened and rejects every read and write. -/
def Env.storeDown : Env :=
  { Env.storeFails with
      getItemError := fun _ => some ⟨"InvalidStateError", "database unavailable"⟩,
      setItemError := fun _ => some ⟨"InvalidStateError", "database unavailable"⟩ }

/-- The store rejects every write. -/
def Env.writesFail : Env :=
  { Env.doctor with setItemError := fun _ => some ⟨"QuotaExceededError", "write failed"⟩ }

/-- The orchestrator after a startup that stopped at `storage.initialize()`:
`this.storage` is assigned, the state tree, the event bus and the notification
sink are not. -/
def sampleCoreFailed : App :=
  ( ClinicProApp.initialize Env.storeDown (ClinicProApp.new Store.empty)).2

/-- An error whose `name` is the string `constructor`. -/
def sampleOddError : ErrorValue :=
  { name := some "constructor", message := "unexpected", stack := "at main.js:1" }

/-- A network error. -/
def sampleNetworkError : ErrorValue :=
  { name := some "NetworkError", message := "fetch failed", stack := "at api.js:10" }

/-- The route record of the patients page. -/
def samplePatientsPage : RouteState :=
  { path := "/patients", component := "patients", params := [], query := [] }

/-- The route change to the login page. -/
def sampleLoginPage : RouteChange :=
  { route := { path := "/login", title := "تسجيل الدخول", component := "login" },
    params := [], query := [] }

/-- Collaborators that all complete, with no session open; the router reports
the login page while it starts. -/
def Env.routed : Env :=
  { Env.nominal with routerInitRoute := some sampleLoginPage }

/-- The orchestrator after a startup that stopped at the style sheets. -/
def sampleStylesFailed : App :=
  ( ClinicProApp.initialize Env.stylesheetFails (ClinicProApp.new Store.empty)).2

/-- The orchestrator started next, over the store in which the one stopped at
the style sheets saved its state, by a router that reports the login page. -/
def sampleRestarted : App :=
  ( ClinicProApp.initialize Env.routed
    (ClinicProApp.new (saveApplicationState Env.stylesheetFails sampleStylesFailed).2.store)).2

/-- A store that holds a recovery snapshot of a signed-in doctor on the patients
page. -/
def Store.withSnapshot : Store :=
  { Store.empty with
      recoveryState := some
        { auth := { isAuthenticated := true, user := some sampleDoctor, token := some "t-1",
                    permissions := ["patient_management"] },
          ui := { isLoading := false, notifications := [], modals := [],
                  currentRoute := some samplePatientsPage },
          timestamp := "2023-12-31T23:00:00.000Z" } }

/-- The orchestrator after a startup, over a store that holds a snapshot, that
stopped at `storage.initialize()`. -/
def sampleSnapshotCoreFailed : App :=
  ( ClinicProApp.initialize Env.storeFails (ClinicProApp.new Store.withSnapshot)).2

/-- A state tree that holds a signed-in doctor on the patients page, with a
dialog open. -/
def sampleAtWorkState : StateManager :=
  { initialState Env.doctor with
      auth := { isAuthenticated := true, user := some sampleDoctor, token := some "t-1",
                permissions := ["patient_management"] },
      ui := { isLoading := false, notifications := [], modals := ["confirm"],
              currentRoute := some samplePatientsPage } }

/-- A started orchestrator with that state tree. -/
def sampleAtWork : App :=
  { sampleDoctorStarted with state := some sampleAtWorkState }
/-- The object `errorInfo` that `handleAppError(error, context)` builds. -/
def errorInfo (env : Env) (error : ErrorValue) (context : String) (a : App) : ErrorRecord :=
  { message := error.message, stack := error.stack, timestamp := env.now,
    context := context, user := a.currentUser.map User.id }

/-- The session manager accepts the doctor and rejects everyone else. -/
def Env.doctorLogsIn : Env :=
  { Env.nominal with
      authLogin := fun credentials =>
        if credentials.email = sampleDoctor.email then
          .ok { success := true, user := some sampleDoctor, message := none }
        else .ok { success := false, user := none, message := some "Invalid credentials" } }

/-- The session manager cannot reach its server. -/
def Env.sessionServerDown : Env :=
  { Env.nominal with
      authLogin := fun _ => .error ⟨"NetworkError", "fetch failed"⟩,
      authLogout := some ⟨"NetworkError", "fetch failed"⟩ }

/-- The credentials of the doctor. -/
def sampleCredentials : Credentials :=
  { email := "salma@clinic.example", password := "secret" }

/-- The doctor is signed in and the shutdown hook of the cache manager raises. -/
def Env.cacheHookRaises : Env :=
  { Env.doctor with
      shutdownHook := fun path =>
        if path = "./core/cache-manager.js" then .raises ⟨"Error", "cache busy"⟩
        else .completes }

/-- The doctor is signed in; the API service and the prescription module have no
shutdown hook. -/
def Env.someHooksAbsent : Env :=
  { Env.doctor with
      shutdownHook := fun path =>
        if path = "./services/api-service.js" ∨ path = "prescriptions/prescription-manager"
        then .absent else .completes }

/-- The orchestrator after `run()` with the doctor signed in. -/
def sampleRunning : App :=
  (run Env.doctor (ClinicProApp.new Store.empty)).2

/-- That orchestrator after `shutdown()`. -/
def sampleStopped : App :=
  (shutdown Env.doctor sampleRunning).2

/-- The registry keys of the entries that expose a shutdown hook, in order. -/
def hookedKeys {β : Type} (env : Env) (path : β → String) (registry : List (String × β)) :
    List String :=
  (registry.filter fun entry => env.shutdownHook (path entry.2) != .absent).map Prod.fst

/-- The orchestrator after a startup with the doctor signed in, where two
registry entries have no shutdown hook. -/
def sampleSomeHooks : App :=
  ( ClinicProApp.initialize Env.someHooksAbsent (ClinicProApp.new Store.empty)).2

/-- The API service and the backup manager cannot be loaded. -/
def Env.twoServicesMissing : Env :=
  { Env.nominal with
      serviceLoad := fun path =>
        if path = "./services/api-service.js" ∨ path = "./services/backup/backup-manager.js"
        then some ⟨"Error", "service missing"⟩ else none }

/-- One turn of the loop of `initializeServices()`. -/
def loadService (env : Env) (service : String × String) : Method Unit :=
  tryCatch
    (do
      observe (.dynamicImport service.2)
      call (env.serviceLoad service.2)
      assign fun a => { a with services := mapSet a.services service.1 service.2 }
      observe (.loaded service.1))
    (fun e => observe (.warn ("Failed to load service: " ++ service.1) e))

/-- The closure registered on `window` for the signal `online`. -/
def handleOnline : Method Unit := do
  stateUpdate (.appOnline true)
  eventsEmit "network:online" .absent
  showSuccessNotification "تم استعادة الاتصال بالشبكة"

/-- The closure registered on `window` for the signal `offline`. -/
def handleOffline : Method Unit := do
  stateUpdate (.appOnline false)
  eventsEmit "network:offline" .absent
  showWarningNotification "فقدان الاتصال بالشبكة. جاري العمل في وضع عدم الاتصال"

/-- A system administrator. -/
def sampleAdmin : User :=
  { id := "u-1", name := "Huda", email := "huda@clinic.example", role := some "super_admin",
    permissions := some ["settings_management"] }

/-- The administrator is signed in and every collaborator completes. -/
def Env.admin : Env :=
  { Env.nominal with
      checkCurrentSession := .ok { isAuthenticated := true, user := some sampleAdmin } }

/-- The orchestrator after a startup in which the administrator is signed in. -/
def sampleAdminStarted : App :=
  ( ClinicProApp.initialize Env.admin (ClinicProApp.new Store.empty)).2

/-! ## The module `main.js`: the singleton and the exported functions -/

/-- The value of `config.system.name` in `core-settings.js`. -/
def systemName : String := "ClinicPro"

/-- The object returned by `getAppInfo()`, without `clinic`, a constant of the
configuration, and `performance`, a field of the state tree that no method of the
orchestrator writes. -/
structure AppInfo where
  name : String
  version : String
  initialized : Bool
  authenticated : Bool
  user : Option User
  online : Bool
deriving DecidableEq, Repr

/-- The method `getAppInfo()`: its last property reads `this.state`. -/
def getAppInfo (env : Env) : Method AppInfo := do
  let this ← getThis
  match this.state with
  | none => raise (typeError "Cannot read properties of null (reading 'get')")
  | some _ =>
    return { name := systemName, version := systemVersion, initialized := this.isInitialized,
             authenticated := this.isAuthenticated, user := this.currentUser,
             online := env.online }

/-- The state of the module `main.js`: the variable `appInstance`, the objects
built by `new ClinicProApp()` so far, each known by its position in the list,
and the contents of the persistent store when the page was loaded. -/
structure MainModule where
  appInstance : Option Nat
  instances : List App
  origin : Store
deriving DecidableEq, Repr

/-- The module right after it was evaluated: `let appInstance = null`. -/
def MainModule.load (origin : Store) : MainModule :=
  { appInstance := none, instances := [], origin := origin }

/-- The function `getApp()`: the instance it returns and the module afterwards. -/
def MainModule.getApp (m : MainModule) : Nat × MainModule :=
  match m.appInstance with
  | some app => (app, m)
  | none =>
    (m.instances.length,
     { m with appInstance := some m.instances.length,
              instances := m.instances ++ [ClinicProApp.new m.origin] })

/-- A method called on the instance `app`: its result, and the module with the
fields of that instance as the method left them. -/
def MainModule.callOn {α : Type} (m : MainModule) (app : Nat) (method : Method α) :
    Except JSError α × MainModule :=
  match m.instances[app]? with
  | none => (.error (typeError "Cannot read properties of undefined"), m)
  | some this =>
    ((method this).1, { m with instances := m.instances.set app (method this).2 })

/-- The exported function `initializeApp()`. -/
def MainModule.initializeApp (env : Env) (m : MainModule) : Except JSError Bool × MainModule :=
  m.getApp.2.callOn m.getApp.1 (run env)

/-- The exported function `login(credentials)`. -/
def MainModule.login (env : Env) (credentials : Credentials) (m : MainModule) :
    Except JSError LoginOutcome × MainModule :=
  m.getApp.2.callOn m.getApp.1 (ClinicPro.login env credentials)

/-- The exported function `logout()`. -/
def MainModule.logout (env : Env) (m : MainModule) : Except JSError LoginOutcome × MainModule :=
  m.getApp.2.callOn m.getApp.1 (ClinicPro.logout env)

/-- The exported function `getAppInfo()`. -/
def MainModule.getAppInfo (env : Env) (m : MainModule) : Except JSError AppInfo × MainModule :=
  m.getApp.2.callOn m.getApp.1 (ClinicPro.getAppInfo env)

/-- A call of one of the five functions that `main.js` exports. -/
inductive Export where
  | getApp
  | initializeApp
  | login (credentials : Credentials)
  | logout
  | getAppInfo
deriving DecidableEq, Repr

/-- The instance an exported function obtains from `getApp()`, and the module
after the call. -/
def MainModule.call (env : Env) (m : MainModule) : Export → Nat × MainModule
  | .getApp => m.getApp
  | .initializeApp => (m.getApp.1, (m.initializeApp env).2)
  | .login credentials => (m.getApp.1, (m.login env credentials).2)
  | .logout => (m.getApp.1, (m.logout env).2)
  | .getAppInfo => (m.getApp.1, (m.getAppInfo env).2)

/-- A sequence of calls, each with the collaborators it meets: the instances the
calls obtained, in order, and the module in the end. -/
def MainModule.calls (m : MainModule) : List (Env × Export) → List Nat × MainModule
  | [] => ([], m)
  | (env, e) :: rest =>
    (((m.call env e).1 :: ((m.call env e).2.calls rest).1), ((m.call env e).2.calls rest).2)


/-! ## Values and objects of `core-settings.js` -/

/-- A primitive value. A number is the decimal fraction `mantissa / 10 ^ decimals`
or `NaN`. -/
inductive Primitive where
  | undefined
  | null
  | bool (b : Bool)
  | number (mantissa : Int) (decimals : Nat)
  | nan
  | str (s : String)
deriving DecidableEq, Repr

/-- Whether a primitive is truthy: `undefined`, `null`, `false`, `0`, `NaN` and
the empty string are not. -/
def Primitive.truthy : Primitive → Bool
  | .undefined => false
  | .null => false
  | .bool b => b
  | .number mantissa _ => mantissa != 0
  | .nan => false
  | .str s => s != ""

/-- A value made of own properties only, nothing in it shared with anything
else: a primitive, a function, or a plain object given by its own properties. -/
inductive JSValue where
  | prim (p : Primitive)
  | fn (name : String)
  | obj (props : List (String × JSValue))

/-- What a property read yields: a value, or the object `Object.prototype`, which
every plain object has under `__proto__`. -/
inductive Found where
  | value (v : JSValue)
  | objectPrototype

/-- The value `undefined`. -/
def Found.undefined : Found := .value (.prim .undefined)

/-- Whether what was found is truthy. -/
def Found.truthy : Found → Bool
  | .value (.prim p) => p.truthy
  | _ => true

/-- The test `found === undefined`. -/
def Found.isUndefined : Found → Bool
  | .value (.prim .undefined) => true
  | _ => false

/-- The data properties of `Object.prototype` as the engine provides it: the
built-in functions. The property `__proto__` is an accessor and not among them. -/
def objectPrototypeOwn : List (String × JSValue) :=
  (objectPrototypeKeys.filter fun key => key ≠ "__proto__").map fun key => (key, .fn key)

/-- The expression `Object.prototype[key]`, the object holding the data
properties `prototype`: one of them, or `null` under `__proto__`, the object
having no prototype itself. -/
def objectPrototypeMember (prototype : List (String × JSValue)) (key : String) : Found :=
  match prototype.lookup key with
  | some value => .value value
  | none => if key = "__proto__" then .value (.prim .null) else Found.undefined

/-- The expression `object[key]` on a plain object with the own properties
`props`: an own property, or what the object inherits from `Object.prototype`,
which is that object itself under `__proto__`. -/
def readProperty (prototype props : List (String × JSValue)) (key : String) : Found :=
  match props.lookup key with
  | some value => .value value
  | none =>
    if key = "__proto__" then .objectPrototype
    else
      match prototype.lookup key with
      | some value => .value value
      | none => Found.undefined

/-- The expression `current[key]` on a truthy value, `Object.prototype` holding the
data properties `prototype`. What strings, numbers, booleans and functions hold
or inherit depends on the engine and is given by `builtin`. -/
def Found.member (builtin : List (String × JSValue) → JSValue → String → Found)
    (prototype : List (String × JSValue)) : Found → String → Found
  | .value (.obj props), key => readProperty prototype props key
  | .objectPrototype, key => objectPrototypeMember prototype key
  | .value other, key => builtin prototype other key

/-- The operations `getNestedValue` performs on the values it walks through. -/
structure Reader (V : Type) where
  undefined : V
  truthy : V → Bool
  isUndefined : V → Bool
  member : V → String → V

/-- Reading values made of own properties, `Object.prototype` holding the data
properties `prototype`. -/
def JSValue.reader (builtin : List (String × JSValue) → JSValue → String → Found)
    (prototype : List (String × JSValue)) : Reader Found :=
  { undefined := Found.undefined, truthy := Found.truthy,
    isUndefined := Found.isUndefined, member := Found.member builtin prototype }

/-- The segments of `path.split('.')`, on the characters of `path`. -/
def splitAtDots : List Char → List (List Char)
  | [] => [[]]
  | c :: rest =>
    if c = '.' then [] :: splitAtDots rest
    else
      match splitAtDots rest with
      | segment :: segments => (c :: segment) :: segments
      | [] => [[c]]

/-- The call `path.split('.')`. -/
def splitPath (path : String) : List String :=
  (splitAtDots path.toList).map String.mk

/-- The call `keys.reduce(callback, obj)` of `getNestedValue`. -/
def reduceKeys {V : Type} (r : Reader V) (obj : V) (keys : List String) : V :=
  keys.foldl
    (fun current key =>
      if r.truthy current && !r.isUndefined (r.member current key) then r.member current key
      else r.undefined)
    obj

/-- The function `getNestedValue(obj, path)`. -/
def getNestedValue {V : Type} (r : Reader V) (obj : V) (path : String) : V :=
  reduceKeys r obj (splitPath path)

/-- How a call that writes properties ends: it returns, it raises, or it goes on
to replace a prototype link or to write to an object this model does not hold,
which is where the model stops. -/
inductive Written (α : Type) where
  | returned (x : α)
  | raised (e : JSError)
  | leavesModel
deriving DecidableEq, Repr

/-- What a write returned, if it did return. -/
def Written.result? {α : Type} : Written α → Option α
  | .returned x => some x
  | _ => none

/-- What follows a write that returned. -/
def Written.map {α β : Type} (f : α → β) : Written α → Written β
  | .returned x => .returned (f x)
  | .raised e => .raised e
  | .leavesModel => .leavesModel

/-- The objects `updateNestedValue(obj, path, value)` can write to: the plain
object `obj`, given by its own properties, and `Object.prototype`, given by its
data properties. -/
structure Objects where
  obj : List (String × JSValue)
  objectPrototype : List (String × JSValue)

/-- The assignment `object[key] = value` on a plain, extensible object. Under the
key `__proto__`, when it is not an own property, the setter of
`Object.prototype` runs: it ignores a primitive other than `null` and replaces
the prototype otherwise. Under any other key the property is set on the object
itself, the data properties of `Object.prototype` being writable. -/
def writeProperty (props : List (String × JSValue)) (key : String) (value : JSValue) :
    Written (List (String × JSValue)) :=
  if key = "__proto__" ∧ (props.lookup key).isNone then
    match value with
    | .prim .null => .leavesModel
    | .prim _ => .returned props
    | _ => .leavesModel
  else .returned (mapSet props key value)

/-- The error raised where the prototype of `Object.prototype` would be replaced. -/
def immutablePrototype : JSError :=
  typeError "Immutable prototype object 'Object.prototype' cannot have their prototype set"

/-- The assignment `Object.prototype[key] = value`. Under the key `__proto__` the
setter runs on `Object.prototype` itself, whose prototype is `null` and cannot be
replaced: a primitive leaves it as it is, an object or a function raises. -/
def writePrototypeProperty (prototype : List (String × JSValue)) (key : String)
    (value : JSValue) : Written (List (String × JSValue)) :=
  if key = "__proto__" ∧ (prototype.lookup key).isNone then
    match value with
    | .prim _ => .returned prototype
    | _ => .raised immutablePrototype
  else .returned (mapSet prototype key value)

/-- The callback of `keys.reduce` in `updateNestedValue`, run over the keys still
to walk from an object `current` below `Object.prototype`, which the walk reached
under the key `entered` of `Object.prototype`; `finish` is run on the object the
walk ends in. An own property holding an object is walked into; one holding
anything else is given an empty object first. A key that is not an own property
of `current` is looked up in `Object.prototype`: unless it is `entered`, it holds
a built-in function there or nothing, and `current[key] = {}` follows. Under
`entered` the walk would be back in the object it came through, and under
`__proto__` back in `Object.prototype`, which is where the model stops. -/
def walkBelow (entered : String)
    (finish : List (String × JSValue) → Written (Bool × List (String × JSValue))) :
    List (String × JSValue) → List String → Written (Bool × List (String × JSValue))
  | current, [] => finish current
  | current, key :: rest =>
    match current.lookup key with
    | some (.obj child) =>
      (walkBelow entered finish child rest).map fun out => (out.1, mapSet current key (.obj out.2))
    | some _ =>
      (walkBelow entered finish [] rest).map fun out => (out.1, mapSet current key (.obj out.2))
    | none =>
      if key = "__proto__" ∨ key = entered then .leavesModel
      else
        (walkBelow entered finish [] rest).map fun out =>
          (out.1, mapSet current key (.obj out.2))

/-- The callback of `keys.reduce` run over the keys still to walk from
`Object.prototype` as the engine provides it, and `finishPrototype` run on it
when no key is left. Under `__proto__` the object holds `null`, and
`Object.prototype.__proto__ = {}` raises; under any other key it holds a
function or nothing, `Object.prototype[key] = {}` follows, and the walk goes on
below it. -/
def walkPrototype
    (finish finishPrototype :
      List (String × JSValue) → Written (Bool × List (String × JSValue))) :
    List String → Written (Bool × List (String × JSValue))
  | [] => finishPrototype objectPrototypeOwn
  | key :: rest =>
    if key = "__proto__" then
      .raised immutablePrototype
    else
      (walkBelow key finish [] rest).map fun out =>
        (out.1, mapSet objectPrototypeOwn key (.obj out.2))

/-- The callback of `keys.reduce` in `updateNestedValue`, run over the keys
still to walk from the object `current`, which is `obj` or an object below it,
and `finish` run on the object the walk ends in: the result is that of `finish`,
with `current` and `Object.prototype` as all this left them. An own property
holding an object is walked into; one holding anything else is given an empty
object first. A key that is not an own property of `current` is looked up in
`Object.prototype`, which nothing has written to so far: under `__proto__` the
walk goes on in `Object.prototype` itself; under any other key it finds a
built-in function or nothing, and `current[key] = {}` follows. -/
def walkKeys
    (finish finishPrototype :
      List (String × JSValue) → Written (Bool × List (String × JSValue))) :
    List (String × JSValue) → List String → Written (Bool × Objects)
  | current, [] =>
    (finish current).map fun out => (out.1, ⟨out.2, objectPrototypeOwn⟩)
  | current, key :: rest =>
    match current.lookup key with
    | some (.obj child) =>
      (walkKeys finish finishPrototype child rest).map fun out =>
        (out.1, ⟨mapSet current key (.obj out.2.obj), out.2.objectPrototype⟩)
    | some _ =>
      (walkKeys finish finishPrototype [] rest).map fun out =>
        (out.1, ⟨mapSet current key (.obj out.2.obj), out.2.objectPrototype⟩)
    | none =>
      if key = "__proto__" then
        (walkPrototype finish finishPrototype rest).map fun out => (out.1, ⟨current, out.2⟩)
      else
        (walkKeys finish finishPrototype [] rest).map fun out =>
          (out.1, ⟨mapSet current key (.obj out.2.obj), out.2.objectPrototype⟩)

/-- The function `updateNestedValue(obj, path, value)` on a plain object `obj`,
`Object.prototype` being as the engine provides it: what the call returns, and
`obj` and `Object.prototype` as it left them. -/
def updateNestedValue (obj : List (String × JSValue)) (path : String) (value : JSValue) :
    Written (Bool × Objects) :=
  let keys := splitPath path
  let lastKey := keys.getLast?.getD ""
  let keys := keys.dropLast
  walkKeys
    (fun target =>
      if lastKey ≠ "" then (writeProperty target lastKey value).map fun written => (true, written)
      else .returned (false, target))
    (fun target =>
      if lastKey ≠ "" then
        (writePrototypeProperty target lastKey value).map fun written => (true, written)
      else .returned (false, target))
    obj keys

/-- The segments of a path that follow its first segment `__proto__`, if it has
one. -/
def afterPrototype : List String → Option (List String)
  | [] => none
  | key :: rest => if key = "__proto__" then some rest else afterPrototype rest
/-! ## The objects of the module `core-settings.js` -/

/-- A value held by a property of an object of the module: a primitive, a
function, the object `Object.prototype`, or a reference to an object, which is
known by the place in the source where it is created. -/
inductive Val where
  | prim (p : Primitive)
  | fn (name : String)
  | objectPrototype
  | ref (site : String)
deriving DecidableEq, Repr

/-- A string. -/
def Val.text (s : String) : Val := .prim (.str s)

/-- A whole number. -/
def Val.int (n : Int) : Val := .prim (.number n 0)

/-- The number `mantissa / 10 ^ decimals`. -/
def Val.decimal (mantissa : Int) (decimals : Nat) : Val := .prim (.number mantissa decimals)

/-- A boolean. -/
def Val.flag (b : Bool) : Val := .prim (.bool b)

/-- The value `null`. -/
def Val.null : Val := .prim .null

/-- The value `undefined`. -/
def Val.undefined : Val := .prim .undefined

/-- An object of the module: its own enumerable properties in insertion order,
whether properties can still be added (not after `Object.seal` or
`Object.freeze`), whether it is frozen, and whether it is an array, whose own
properties are then its elements under their indices. -/
structure HeapObject where
  props : List (String × Val)
  extensible : Bool
  frozen : Bool
  array : Bool
deriving DecidableEq, Repr

/-- The objects of the module, each under the place where it was created. -/
abbrev Heap := List (String × HeapObject)

/-- The object an object literal creates. -/
def plainObject (props : List (String × Val)) : HeapObject :=
  { props := props, extensible := true, frozen := false, array := false }

/-- The object an array literal creates, its elements under their indices. -/
def arrayObject (elements : List (String × Val)) : HeapObject :=
  { props := elements, extensible := true, frozen := false, array := true }


/-- The objects the literal `SYSTEM_CONFIG` creates, each under the place of its
literal in the source. -/
def SYSTEM_CONFIG : Heap :=
  [ ("SYSTEM_CONFIG", plainObject [("system", .ref "SYSTEM_CONFIG.system"),
        ("licensing", .ref "SYSTEM_CONFIG.licensing")]),
    ("SYSTEM_CONFIG.system", plainObject [("name", .text "ClinicPro"), ("version", .text "1.0.0"),
        ("releaseDate", .text "2024-01-01"), ("environment", .text "production"),
        ("defaultLanguage", .text "ar"),
        ("supportedLanguages", .ref "SYSTEM_CONFIG.system.supportedLanguages"),
        ("direction", .text "rtl"), ("timezone", .text "Asia/Riyadh"),
        ("dateFormat", .text "YYYY-MM-DD"), ("timeFormat", .text "24h"), ("currency", .text "SAR"),
        ("currencySymbol", .text "ر.س"), ("decimalPlaces", .int 2)]),
    ("SYSTEM_CONFIG.system.supportedLanguages", arrayObject [("0", .text "ar"), ("1", .text "en")]),
    ("SYSTEM_CONFIG.licensing", plainObject [("licenseKey", .text ""),
        ("licensedTo", .text "اسم العيادة الافتراضي"), ("expiryDate", .null),
        ("maxUsers", .int 10), ("maxDoctors", .int 5),
        ("features", .ref "SYSTEM_CONFIG.licensing.features")]),
    ("SYSTEM_CONFIG.licensing.features", plainObject [("billing", .flag true),
        ("prescriptions", .flag true), ("appointments", .flag true), ("inventory", .flag false),
        ("labIntegration", .flag false), ("radiologyIntegration", .flag false)]) ]

/-- The objects the literal `CLINIC_CONFIG` creates, each under the place of its
literal in the source. -/
def CLINIC_CONFIG : Heap :=
  [ ("CLINIC_CONFIG", plainObject [("basicInfo", .ref "CLINIC_CONFIG.basicInfo"),
        ("contact", .ref "CLINIC_CONFIG.contact"), ("address", .ref "CLINIC_CONFIG.address"),
        ("socialMedia", .ref "CLINIC_CONFIG.socialMedia")]),
    ("CLINIC_CONFIG.basicInfo", plainObject [("name", .text "مركز العناية الطبية"),
        ("legalName", .text ""), ("taxNumber", .text ""), ("commercialRegistration", .text ""),
        ("licenseNumber", .text ""), ("establishmentYear", .int 2020)]),
    ("CLINIC_CONFIG.contact", plainObject [("phone", .text "+966500000000"),
        ("secondaryPhone", .text ""), ("email", .text "info@clinic.com"), ("website", .text ""),
        ("whatsapp", .text ""), ("emergencyContact", .text "")]),
    ("CLINIC_CONFIG.address", plainObject [("street", .text "شارع الملك فهد"),
        ("district", .text "المركز"), ("city", .text "الرياض"), ("state", .text "منطقة الرياض"),
        ("country", .text "المملكة العربية السعودية"), ("postalCode", .text "12345"),
        ("googleMapsLink", .text ""), ("coordinates", .ref "CLINIC_CONFIG.address.coordinates")]),
    ("CLINIC_CONFIG.address.coordinates", plainObject [("lat", .decimal 247136 4),
        ("lng", .decimal 466753 4)]),
    ("CLINIC_CONFIG.socialMedia", plainObject [("facebook", .text ""), ("twitter", .text ""),
        ("instagram", .text ""), ("linkedin", .text ""), ("youtube", .text "")]) ]

/-- The objects the literal `THEME_CONFIG` creates, each under the place of its
literal in the source. -/
def THEME_CONFIG : Heap :=
  [ ("THEME_CONFIG", plainObject [("colors", .ref "THEME_CONFIG.colors"),
        ("typography", .ref "THEME_CONFIG.typography"), ("shadows", .ref "THEME_CONFIG.shadows"),
        ("borderRadius", .ref "THEME_CONFIG.borderRadius")]),
    ("THEME_CONFIG.colors", plainObject [("primary", .text "#2D5BFF"),
        ("primaryDark", .text "#1E3FB3"), ("primaryLight", .text "#E8EDFF"),
        ("secondary", .text "#10B981"), ("secondaryDark", .text "#0E9C6B"),
        ("secondaryLight", .text "#D1FAE5"), ("accent", .text "#F59E0B"),
        ("danger", .text "#EF4444"), ("warning", .text "#F59E0B"), ("success", .text "#10B981"),
        ("info", .text "#3B82F6"), ("text", .ref "THEME_CONFIG.colors.text"),
        ("background", .ref "THEME_CONFIG.colors.background"),
        ("borders", .ref "THEME_CONFIG.colors.borders")]),
    ("THEME_CONFIG.colors.text", plainObject [("primary", .text "#1F2937"),
        ("secondary", .text "#6B7280"), ("disabled", .text "#9CA3AF"),
        ("inverse", .text "#FFFFFF")]),
    ("THEME_CONFIG.colors.background", plainObject [("primary", .text "#FFFFFF"),
        ("secondary", .text "#F9FAFB"), ("tertiary", .text "#F3F4F6"), ("dark", .text "#111827")]),
    ("THEME_CONFIG.colors.borders", plainObject [("light", .text "#E5E7EB"),
        ("medium", .text "#D1D5DB"), ("dark", .text "#9CA3AF")]),
    ("THEME_CONFIG.typography", plainObject [("fontFamily", .ref "THEME_CONFIG.typography.fontFamily"),
        ("fontSize", .ref "THEME_CONFIG.typography.fontSize"),
        ("fontWeight", .ref "THEME_CONFIG.typography.fontWeight")]),
    ("THEME_CONFIG.typography.fontFamily", plainObject [("arabic", .text "'Cairo', 'Tajawal', sans-serif"),
        ("english", .text "'Inter', 'Roboto', sans-serif"),
        ("code", .text "'Fira Code', monospace")]),
    ("THEME_CONFIG.typography.fontSize", plainObject [("xs", .text "0.75rem"),
        ("sm", .text "0.875rem"), ("base", .text "1rem"), ("lg", .text "1.125rem"),
        ("xl", .text "1.25rem"), ("2xl", .text "1.5rem"), ("3xl", .text "1.875rem"),
        ("4xl", .text "2.25rem")]),
    ("THEME_CONFIG.typography.fontWeight", plainObject [("light", .int 300), ("normal", .int 400),
        ("medium", .int 500), ("semibold", .int 600), ("bold", .int 700), ("extrabold", .int 800)]),
    ("THEME_CONFIG.shadows", plainObject [("sm", .text "0 1px 2px 0 rgba(0, 0, 0, 0.05)"),
        ("md", .text "0 4px 6px -1px rgba(0, 0, 0, 0.1), 0 2px 4px -1px rgba(0, 0, 0, 0.06)"),
        ("lg", .text "0 10px 15px -3px rgba(0, 0, 0, 0.1), 0 4px 6px -2px rgba(0, 0, 0, 0.05)"),
        ("xl", .text "0 20px 25px -5px rgba(0, 0, 0, 0.1), 0 10px 10px -5px rgba(0, 0, 0, 0.04)")]),
    ("THEME_CONFIG.borderRadius", plainObject [("none", .text "0"), ("sm", .text "0.125rem"),
        ("md", .text "0.375rem"), ("lg", .text "0.5rem"), ("xl", .text "0.75rem"),
        ("2xl", .text "1rem"), ("full", .text "9999px")]) ]

/-- The objects the literal `USER_CONFIG` creates, each under the place of its
literal in the source. -/
def USER_CONFIG : Heap :=
  [ ("USER_CONFIG", plainObject [("roles", .ref "USER_CONFIG.roles"),
        ("authentication", .ref "USER_CONFIG.authentication")]),
    ("USER_CONFIG.roles", plainObject [("super_admin", .ref "USER_CONFIG.roles.super_admin"),
        ("clinic_admin", .ref "USER_CONFIG.roles.clinic_admin"),
        ("doctor", .ref "USER_CONFIG.roles.doctor"),
        ("receptionist", .ref "USER_CONFIG.roles.receptionist"),
        ("accountant", .ref "USER_CONFIG.roles.accountant"),
        ("patient", .ref "USER_CONFIG.roles.patient")]),
    ("USER_CONFIG.roles.super_admin", plainObject [("id", .int 1), ("name", .text "المشرف العام"),
        ("description", .text "صلاحيات كاملة على النظام"), ("level", .int 100),
        ("permissions", .text "all")]),
    ("USER_CONFIG.roles.clinic_admin", plainObject [("id", .int 2), ("name", .text "مدير العيادة"),
        ("description", .text "إدارة العيادة والموظفين"), ("level", .int 90),
        ("permissions", .ref "USER_CONFIG.roles.clinic_admin.permissions")]),
    ("USER_CONFIG.roles.clinic_admin.permissions", arrayObject [("0", .text "clinic_management"),
        ("1", .text "user_management"), ("2", .text "financial_reports")]),
    ("USER_CONFIG.roles.doctor", plainObject [("id", .int 3), ("name", .text "طبيب"),
        ("description", .text "إدارة المرضى والمواعيد والروشتات"), ("level", .int 80),
        ("permissions", .ref "USER_CONFIG.roles.doctor.permissions")]),
    ("USER_CONFIG.roles.doctor.permissions", arrayObject [("0", .text "patient_management"),
        ("1", .text "appointments"), ("2", .text "prescriptions"), ("3", .text "medical_records")]),
    ("USER_CONFIG.roles.receptionist", plainObject [("id", .int 4), ("name", .text "موظف استقبال"),
        ("description", .text "إدارة الحجوزات والمرضى"), ("level", .int 70),
        ("permissions", .ref "USER_CONFIG.roles.receptionist.permissions")]),
    ("USER_CONFIG.roles.receptionist.permissions", arrayObject [("0", .text "appointment_booking"),
        ("1", .text "patient_registration"), ("2", .text "basic_reports")]),
    ("USER_CONFIG.roles.accountant", plainObject [("id", .int 5), ("name", .text "محاسب"),
        ("description", .text "إدارة الفواتير والمدفوعات"), ("level", .int 60),
        ("permissions", .ref "USER_CONFIG.roles.accountant.permissions")]),
    ("USER_CONFIG.roles.accountant.permissions", arrayObject [("0", .text "billing"),
        ("1", .text "payments"), ("2", .text "financial_reports")]),
    ("USER_CONFIG.roles.patient", plainObject [("id", .int 6), ("name", .text "مريض"),
        ("description", .text "الوصول إلى مواعيده وفواتيره"), ("level", .int 10),
        ("permissions", .ref "USER_CONFIG.roles.patient.permissions")]),
    ("USER_CONFIG.roles.patient.permissions", arrayObject [("0", .text "view_own_appointments"),
        ("1", .text "view_own_bills"), ("2", .text "book_appointments")]),
    ("USER_CONFIG.authentication", plainObject [("sessionTimeout", .int 30),
        ("maxLoginAttempts", .int 5), ("lockoutDuration", .int 15),
        ("passwordPolicy", .ref "USER_CONFIG.authentication.passwordPolicy"),
        ("twoFactorAuth", .ref "USER_CONFIG.authentication.twoFactorAuth")]),
    ("USER_CONFIG.authentication.passwordPolicy", plainObject [("minLength", .int 8),
        ("requireUppercase", .flag true), ("requireLowercase", .flag true),
        ("requireNumbers", .flag true), ("requireSpecialChars", .flag true),
        ("expiryDays", .int 90)]),
    ("USER_CONFIG.authentication.twoFactorAuth", plainObject [("enabled", .flag false),
        ("methods", .ref "USER_CONFIG.authentication.twoFactorAuth.methods"),
        ("defaultMethod", .text "sms")]),
    ("USER_CONFIG.authentication.twoFactorAuth.methods", arrayObject [("0", .text "sms"),
        ("1", .text "email"), ("2", .text "authenticator")]) ]

/-- The objects the literal `BUSINESS_CONFIG` creates, each under the place of its
literal in the source. -/
def BUSINESS_CONFIG : Heap :=
  [ ("BUSINESS_CONFIG", plainObject [("departments", .ref "BUSINESS_CONFIG.departments"),
        ("workingHours", .ref "BUSINESS_CONFIG.workingHours"),
        ("holidays", .ref "BUSINESS_CONFIG.holidays")]),
    ("BUSINESS_CONFIG.departments", arrayObject [("0", .ref "BUSINESS_CONFIG.departments.0"),
        ("1", .ref "BUSINESS_CONFIG.departments.1"), ("2", .ref "BUSINESS_CONFIG.departments.2"),
        ("3", .ref "BUSINESS_CONFIG.departments.3"), ("4", .ref "BUSINESS_CONFIG.departments.4"),
        ("5", .ref "BUSINESS_CONFIG.departments.5"), ("6", .ref "BUSINESS_CONFIG.departments.6"),
        ("7", .ref "BUSINESS_CONFIG.departments.7"), ("8", .ref "BUSINESS_CONFIG.departments.8"),
        ("9", .ref "BUSINESS_CONFIG.departments.9")]),
    ("BUSINESS_CONFIG.departments.0", plainObject [("id", .int 1), ("name", .text "الباطنة"),
        ("code", .text "INT"), ("active", .flag true), ("color", .text "#2D5BFF")]),
    ("BUSINESS_CONFIG.departments.1", plainObject [("id", .int 2), ("name", .text "الأطفال"),
        ("code", .text "PED"), ("active", .flag true), ("color", .text "#10B981")]),
    ("BUSINESS_CONFIG.departments.2", plainObject [("id", .int 3), ("name", .text "العظام"),
        ("code", .text "ORT"), ("active", .flag true), ("color", .text "#8B5CF6")]),
    ("BUSINESS_CONFIG.departments.3", plainObject [("id", .int 4), ("name", .text "الجلدية"),
        ("code", .text "DER"), ("active", .flag true), ("color", .text "#EC4899")]),
    ("BUSINESS_CONFIG.departments.4", plainObject [("id", .int 5),
        ("name", .text "النساء والتوليد"), ("code", .text "OBG"), ("active", .flag true),
        ("color", .text "#F472B6")]),
    ("BUSINESS_CONFIG.departments.5", plainObject [("id", .int 6), ("name", .text "العيون"),
        ("code", .text "OPH"), ("active", .flag true), ("color", .text "#06B6D4")]),
    ("BUSINESS_CONFIG.departments.6", plainObject [("id", .int 7),
        ("name", .text "الأنف والأذن والحنجرة"), ("code", .text "ENT"), ("active", .flag true),
        ("color", .text "#84CC16")]),
    ("BUSINESS_CONFIG.departments.7", plainObject [("id", .int 8), ("name", .text "القلب"),
        ("code", .text "CAR"), ("active", .flag true), ("color", .text "#EF4444")]),
    ("BUSINESS_CONFIG.departments.8", plainObject [("id", .int 9), ("name", .text "الأسنان"),
        ("code", .text "DEN"), ("active", .flag true), ("color", .text "#10B981")]),
    ("BUSINESS_CONFIG.departments.9", plainObject [("id", .int 10), ("name", .text "التجميل"),
        ("code", .text "COS"), ("active", .flag true), ("color", .text "#F59E0B")]),
    ("BUSINESS_CONFIG.workingHours", plainObject [("days", .ref "BUSINESS_CONFIG.workingHours.days"),
        ("timeSlots", .ref "BUSINESS_CONFIG.workingHours.timeSlots"),
        ("holidays", .ref "BUSINESS_CONFIG.workingHours.holidays")]),
    ("BUSINESS_CONFIG.workingHours.days", plainObject [("sunday", .ref "BUSINESS_CONFIG.workingHours.days.sunday"),
        ("monday", .ref "BUSINESS_CONFIG.workingHours.days.monday"),
        ("tuesday", .ref "BUSINESS_CONFIG.workingHours.days.tuesday"),
        ("wednesday", .ref "BUSINESS_CONFIG.workingHours.days.wednesday"),
        ("thursday", .ref "BUSINESS_CONFIG.workingHours.days.thursday"),
        ("friday", .ref "BUSINESS_CONFIG.workingHours.days.friday"),
        ("saturday", .ref "BUSINESS_CONFIG.workingHours.days.saturday")]),
    ("BUSINESS_CONFIG.workingHours.days.sunday", plainObject [("name", .text "الأحد"),
        ("working", .flag true), ("start", .text "08:00"), ("end", .text "17:00"),
        ("breaks", .ref "BUSINESS_CONFIG.workingHours.days.sunday.breaks")]),
    ("BUSINESS_CONFIG.workingHours.days.sunday.breaks", arrayObject [("0", .ref "BUSINESS_CONFIG.workingHours.days.sunday.breaks.0")]),
    ("BUSINESS_CONFIG.workingHours.days.sunday.breaks.0", plainObject [("start", .text "12:00"),
        ("end", .text "13:00")]),
    ("BUSINESS_CONFIG.workingHours.days.monday", plainObject [("name", .text "الاثنين"),
        ("working", .flag true), ("start", .text "08:00"), ("end", .text "17:00"),
        ("breaks", .ref "BUSINESS_CONFIG.workingHours.days.monday.breaks")]),
    ("BUSINESS_CONFIG.workingHours.days.monday.breaks", arrayObject [("0", .ref "BUSINESS_CONFIG.workingHours.days.monday.breaks.0")]),
    ("BUSINESS_CONFIG.workingHours.days.monday.breaks.0", plainObject [("start", .text "12:00"),
        ("end", .text "13:00")]),
    ("BUSINESS_CONFIG.workingHours.days.tuesday", plainObject [("name", .text "الثلاثاء"),
        ("working", .flag true), ("start", .text "08:00"), ("end", .text "17:00"),
        ("breaks", .ref "BUSINESS_CONFIG.workingHours.days.tuesday.breaks")]),
    ("BUSINESS_CONFIG.workingHours.days.tuesday.breaks", arrayObject [("0", .ref "BUSINESS_CONFIG.workingHours.days.tuesday.breaks.0")]),
    ("BUSINESS_CONFIG.workingHours.days.tuesday.breaks.0", plainObject [("start", .text "12:00"),
        ("end", .text "13:00")]),
    ("BUSINESS_CONFIG.workingHours.days.wednesday", plainObject [("name", .text "الأربعاء"),
        ("working", .flag true), ("start", .text "08:00"), ("end", .text "17:00"),
        ("breaks", .ref "BUSINESS_CONFIG.workingHours.days.wednesday.breaks")]),
    ("BUSINESS_CONFIG.workingHours.days.wednesday.breaks", arrayObject [("0", .ref "BUSINESS_CONFIG.workingHours.days.wednesday.breaks.0")]),
    ("BUSINESS_CONFIG.workingHours.days.wednesday.breaks.0", plainObject [("start", .text "12:00"),
        ("end", .text "13:00")]),
    ("BUSINESS_CONFIG.workingHours.days.thursday", plainObject [("name", .text "الخميس"),
        ("working", .flag true), ("start", .text "08:00"), ("end", .text "17:00"),
        ("breaks", .ref "BUSINESS_CONFIG.workingHours.days.thursday.breaks")]),
    ("BUSINESS_CONFIG.workingHours.days.thursday.breaks", arrayObject [("0", .ref "BUSINESS_CONFIG.workingHours.days.thursday.breaks.0")]),
    ("BUSINESS_CONFIG.workingHours.days.thursday.breaks.0", plainObject [("start", .text "12:00"),
        ("end", .text "13:00")]),
    ("BUSINESS_CONFIG.workingHours.days.friday", plainObject [("name", .text "الجمعة"),
        ("working", .flag false), ("start", .text "09:00"), ("end", .text "13:00"),
        ("breaks", .ref "BUSINESS_CONFIG.workingHours.days.friday.breaks")]),
    ("BUSINESS_CONFIG.workingHours.days.friday.breaks", arrayObject []),
    ("BUSINESS_CONFIG.workingHours.days.saturday", plainObject [("name", .text "السبت"),
        ("working", .flag false), ("start", .text "09:00"), ("end", .text "13:00"),
        ("breaks", .ref "BUSINESS_CONFIG.workingHours.days.saturday.breaks")]),
    ("BUSINESS_CONFIG.workingHours.days.saturday.breaks", arrayObject []),
    ("BUSINESS_CONFIG.workingHours.timeSlots", plainObject [("duration", .int 30),
        ("bufferBetweenSlots", .int 5), ("maxSlotsPerDay", .int 20)]),
    ("BUSINESS_CONFIG.workingHours.holidays", arrayObject [("0", .ref "BUSINESS_CONFIG.workingHours.holidays.0"),
        ("1", .ref "BUSINESS_CONFIG.workingHours.holidays.1"),
        ("2", .ref "BUSINESS_CONFIG.workingHours.holidays.2")]),
    ("BUSINESS_CONFIG.workingHours.holidays.0", plainObject [("date", .text "2024-09-23"),
        ("name", .text "اليوم الوطني السعودي")]),
    ("BUSINESS_CONFIG.workingHours.holidays.1", plainObject [("date", .text "2024-06-16"),
        ("name", .text "عيد الفطر")]),
    ("BUSINESS_CONFIG.workingHours.holidays.2", plainObject [("date", .text "2024-09-23"),
        ("name", .text "عيد الأضحى")]),
    ("BUSINESS_CONFIG.holidays", plainObject [("national", .ref "BUSINESS_CONFIG.holidays.national"),
        ("custom", .ref "BUSINESS_CONFIG.holidays.custom")]),
    ("BUSINESS_CONFIG.holidays.national", arrayObject [("0", .ref "BUSINESS_CONFIG.holidays.national.0"),
        ("1", .ref "BUSINESS_CONFIG.holidays.national.1"),
        ("2", .ref "BUSINESS_CONFIG.holidays.national.2")]),
    ("BUSINESS_CONFIG.holidays.national.0", plainObject [("id", .int 1),
        ("name", .text "عيد الفطر"), ("dateHijri", .text "01-10"), ("duration", .int 3),
        ("fixedDate", .flag false)]),
    ("BUSINESS_CONFIG.holidays.national.1", plainObject [("id", .int 2),
        ("name", .text "عيد الأضحى"), ("dateHijri", .text "10-12"), ("duration", .int 4),
        ("fixedDate", .flag false)]),
    ("BUSINESS_CONFIG.holidays.national.2", plainObject [("id", .int 3),
        ("name", .text "اليوم الوطني"), ("dateGregorian", .text "09-23"), ("duration", .int 1),
        ("fixedDate", .flag true)]),
    ("BUSINESS_CONFIG.holidays.custom", arrayObject []) ]

/-- The objects the literal `BILLING_CONFIG` creates, each under the place of its
literal in the source. -/
def BILLING_CONFIG : Heap :=
  [ ("BILLING_CONFIG", plainObject [("general", .ref "BILLING_CONFIG.general"),
        ("invoiceTypes", .ref "BILLING_CONFIG.invoiceTypes"),
        ("paymentMethods", .ref "BILLING_CONFIG.paymentMethods"),
        ("bankAccounts", .ref "BILLING_CONFIG.bankAccounts"),
        ("eInvoice", .ref "BILLING_CONFIG.eInvoice"),
        ("notifications", .ref "BILLING_CONFIG.notifications")]),
    ("BILLING_CONFIG.general", plainObject [("invoicePrefix", .text "INV"),
        ("invoiceNumberFormat", .text "\x7bprefix\x7d-\x7byear\x7d-\x7bsequence\x7d"),
        ("nextInvoiceNumber", .int 1), ("taxNumberLabel", .text "الرقم الضريبي"),
        ("taxRate", .int 15), ("discountLimit", .int 20), ("roundAmounts", .flag true),
        ("currencyFormat", .text "arabic")]),
    ("BILLING_CONFIG.invoiceTypes", arrayObject [("0", .ref "BILLING_CONFIG.invoiceTypes.0"),
        ("1", .ref "BILLING_CONFIG.invoiceTypes.1"), ("2", .ref "BILLING_CONFIG.invoiceTypes.2"),
        ("3", .ref "BILLING_CONFIG.invoiceTypes.3"), ("4", .ref "BILLING_CONFIG.invoiceTypes.4"),
        ("5", .ref "BILLING_CONFIG.invoiceTypes.5")]),
    ("BILLING_CONFIG.invoiceTypes.0", plainObject [("id", .int 1), ("code", .text "CONS"),
        ("name", .text "كشف"), ("color", .text "#3B82F6"), ("prefix", .text "CONS")]),
    ("BILLING_CONFIG.invoiceTypes.1", plainObject [("id", .int 2), ("code", .text "LAB"),
        ("name", .text "مختبر"), ("color", .text "#10B981"), ("prefix", .text "LAB")]),
    ("BILLING_CONFIG.invoiceTypes.2", plainObject [("id", .int 3), ("code", .text "RAD"),
        ("name", .text "أشعة"), ("color", .text "#8B5CF6"), ("prefix", .text "RAD")]),
    ("BILLING_CONFIG.invoiceTypes.3", plainObject [("id", .int 4), ("code", .text "MED"),
        ("name", .text "أدوية"), ("color", .text "#F59E0B"), ("prefix", .text "MED")]),
    ("BILLING_CONFIG.invoiceTypes.4", plainObject [("id", .int 5), ("code", .text "PKG"),
        ("name", .text "باقة"), ("color", .text "#EC4899"), ("prefix", .text "PKG")]),
    ("BILLING_CONFIG.invoiceTypes.5", plainObject [("id", .int 6), ("code", .text "OTH"),
        ("name", .text "أخرى"), ("color", .text "#6B7280"), ("prefix", .text "OTH")]),
    ("BILLING_CONFIG.paymentMethods", arrayObject [("0", .ref "BILLING_CONFIG.paymentMethods.0"),
        ("1", .ref "BILLING_CONFIG.paymentMethods.1"),
        ("2", .ref "BILLING_CONFIG.paymentMethods.2"),
        ("3", .ref "BILLING_CONFIG.paymentMethods.3"),
        ("4", .ref "BILLING_CONFIG.paymentMethods.4"),
        ("5", .ref "BILLING_CONFIG.paymentMethods.5"),
        ("6", .ref "BILLING_CONFIG.paymentMethods.6")]),
    ("BILLING_CONFIG.paymentMethods.0", plainObject [("id", .int 1), ("code", .text "CASH"),
        ("name", .text "نقدي"), ("icon", .text "💵"), ("enabled", .flag true)]),
    ("BILLING_CONFIG.paymentMethods.1", plainObject [("id", .int 2), ("code", .text "CARD"),
        ("name", .text "بطاقة ائتمان"), ("icon", .text "💳"), ("enabled", .flag true)]),
    ("BILLING_CONFIG.paymentMethods.2", plainObject [("id", .int 3), ("code", .text "MADA"),
        ("name", .text "مدى"), ("icon", .text "🏦"), ("enabled", .flag true)]),
    ("BILLING_CONFIG.paymentMethods.3", plainObject [("id", .int 4), ("code", .text "SADAD"),
        ("name", .text "سداد"), ("icon", .text "📱"), ("enabled", .flag true)]),
    ("BILLING_CONFIG.paymentMethods.4", plainObject [("id", .int 5), ("code", .text "BANK"),
        ("name", .text "تحويل بنكي"), ("icon", .text "🏛️"), ("enabled", .flag true)]),
    ("BILLING_CONFIG.paymentMethods.5", plainObject [("id", .int 6), ("code", .text "PAYPAL"),
        ("name", .text "بايبال"), ("icon", .text "🔗"), ("enabled", .flag true)]),
    ("BILLING_CONFIG.paymentMethods.6", plainObject [("id", .int 7), ("code", .text "WALLET"),
        ("name", .text "المحفظة"), ("icon", .text "👛"), ("enabled", .flag true)]),
    ("BILLING_CONFIG.bankAccounts", arrayObject [("0", .ref "BILLING_CONFIG.bankAccounts.0")]),
    ("BILLING_CONFIG.bankAccounts.0", plainObject [("id", .int 1),
        ("bankName", .text "البنك الأهلي السعودي"), ("accountName", .text "مركز العناية الطبية"),
        ("accountNumber", .text "SA4420000001234567890"),
        ("iban", .text "SA034200000001234567890"), ("currency", .text "SAR"),
        ("isDefault", .flag true)]),
    ("BILLING_CONFIG.eInvoice", plainObject [("enabled", .flag true),
        ("compliance", .ref "BILLING_CONFIG.eInvoice.compliance"),
        ("requirements", .ref "BILLING_CONFIG.eInvoice.requirements"),
        ("integration", .ref "BILLING_CONFIG.eInvoice.integration")]),
    ("BILLING_CONFIG.eInvoice.compliance", plainObject [("country", .text "SA"),
        ("standards", .ref "BILLING_CONFIG.eInvoice.compliance.standards"), ("phase", .text "2")]),
    ("BILLING_CONFIG.eInvoice.compliance.standards", arrayObject [("0", .text "ZATCA")]),
    ("BILLING_CONFIG.eInvoice.requirements", plainObject [("qrCode", .flag true),
        ("cryptographicStamp", .flag true), ("uuid", .flag true), ("invoiceHash", .flag true),
        ("previousInvoiceHash", .flag true)]),
    ("BILLING_CONFIG.eInvoice.integration", plainObject [("apiUrl", .text "https://zatca.gov.sa"),
        ("apiVersion", .text "v2"), ("productionMode", .flag false)]),
    ("BILLING_CONFIG.notifications", plainObject [("invoiceCreated", .flag true),
        ("paymentReceived", .flag true), ("overdueReminder", .flag true),
        ("lowBalance", .flag true), ("dailySummary", .flag true)]) ]

/-- The objects the literal `PAYMENT_CONFIG` creates, each under the place of its
literal in the source. -/
def PAYMENT_CONFIG : Heap :=
  [ ("PAYMENT_CONFIG", plainObject [("activeGateways", .ref "PAYMENT_CONFIG.activeGateways"),
        ("gateways", .ref "PAYMENT_CONFIG.gateways"), ("general", .ref "PAYMENT_CONFIG.general")]),
    ("PAYMENT_CONFIG.activeGateways", plainObject [("saudi", .ref "PAYMENT_CONFIG.activeGateways.saudi"),
        ("egypt", .ref "PAYMENT_CONFIG.activeGateways.egypt"),
        ("uae", .ref "PAYMENT_CONFIG.activeGateways.uae"),
        ("international", .ref "PAYMENT_CONFIG.activeGateways.international")]),
    ("PAYMENT_CONFIG.activeGateways.saudi", arrayObject [("0", .text "mada"), ("1", .text "sadad"),
        ("2", .text "applepay")]),
    ("PAYMENT_CONFIG.activeGateways.egypt", arrayObject [("0", .text "fawry"), ("1", .text "aman"),
        ("2", .text "paymob")]),
    ("PAYMENT_CONFIG.activeGateways.uae", arrayObject [("0", .text "knet"), ("1", .text "thawani"),
        ("2", .text "network")]),
    ("PAYMENT_CONFIG.activeGateways.international", arrayObject [("0", .text "paypal"),
        ("1", .text "stripe")]),
    ("PAYMENT_CONFIG.gateways", plainObject [("mada", .ref "PAYMENT_CONFIG.gateways.mada"),
        ("fawry", .ref "PAYMENT_CONFIG.gateways.fawry"),
        ("paypal", .ref "PAYMENT_CONFIG.gateways.paypal"),
        ("stripe", .ref "PAYMENT_CONFIG.gateways.stripe")]),
    ("PAYMENT_CONFIG.gateways.mada", plainObject [("name", .text "مدى"), ("enabled", .flag true),
        ("testMode", .flag true), ("merchantId", .text ""), ("terminalId", .text ""),
        ("apiKey", .text ""), ("callbackUrl", .text "/payment/mada/callback"),
        ("supportedCards", .ref "PAYMENT_CONFIG.gateways.mada.supportedCards"),
        ("fees", .ref "PAYMENT_CONFIG.gateways.mada.fees")]),
    ("PAYMENT_CONFIG.gateways.mada.supportedCards", arrayObject [("0", .text "mada"),
        ("1", .text "visa"), ("2", .text "mastercard")]),
    ("PAYMENT_CONFIG.gateways.mada.fees", plainObject [("percentage", .decimal 15 1),
        ("fixed", .int 0)]),
    ("PAYMENT_CONFIG.gateways.fawry", plainObject [("name", .text "فوري"), ("enabled", .flag true),
        ("testMode", .flag true), ("merchantCode", .text ""), ("securityKey", .text ""),
        ("merchantRefNumber", .text ""), ("paymentExpiry", .int 24),
        ("callbackUrl", .text "/payment/fawry/callback"),
        ("fees", .ref "PAYMENT_CONFIG.gateways.fawry.fees")]),
    ("PAYMENT_CONFIG.gateways.fawry.fees", plainObject [("percentage", .int 2), ("fixed", .int 0)]),
    ("PAYMENT_CONFIG.gateways.paypal", plainObject [("name", .text "PayPal"),
        ("enabled", .flag true), ("testMode", .flag true), ("clientId", .text ""),
        ("clientSecret", .text ""), ("environment", .text "sandbox"), ("currency", .text "USD"),
        ("callbackUrl", .text "/payment/paypal/callback"),
        ("fees", .ref "PAYMENT_CONFIG.gateways.paypal.fees")]),
    ("PAYMENT_CONFIG.gateways.paypal.fees", plainObject [("percentage", .decimal 29 1),
        ("fixed", .decimal 3 1)]),
    ("PAYMENT_CONFIG.gateways.stripe", plainObject [("name", .text "Stripe"),
        ("enabled", .flag false), ("testMode", .flag true), ("publishableKey", .text ""),
        ("secretKey", .text ""), ("webhookSecret", .text ""), ("currency", .text "USD"),
        ("callbackUrl", .text "/payment/stripe/callback"),
        ("fees", .ref "PAYMENT_CONFIG.gateways.stripe.fees")]),
    ("PAYMENT_CONFIG.gateways.stripe.fees", plainObject [("percentage", .decimal 29 1),
        ("fixed", .decimal 3 1)]),
    ("PAYMENT_CONFIG.general", plainObject [("defaultGateway", .text "mada"),
        ("autoCapture", .flag true), ("saveCards", .flag false),
        ("installmentPlans", .ref "PAYMENT_CONFIG.general.installmentPlans"),
        ("refundPolicy", .ref "PAYMENT_CONFIG.general.refundPolicy")]),
    ("PAYMENT_CONFIG.general.installmentPlans", plainObject [("enabled", .flag false),
        ("plans", .ref "PAYMENT_CONFIG.general.installmentPlans.plans")]),
    ("PAYMENT_CONFIG.general.installmentPlans.plans", arrayObject [("0", .int 3), ("1", .int 6),
        ("2", .int 12)]),
    ("PAYMENT_CONFIG.general.refundPolicy", plainObject [("allowed", .flag true),
        ("periodDays", .int 7), ("adminApproval", .flag true)]) ]

/-- The objects the literal `PRESCRIPTION_CONFIG` creates, each under the place of its
literal in the source. -/
def PRESCRIPTION_CONFIG : Heap :=
  [ ("PRESCRIPTION_CONFIG", plainObject [("general", .ref "PRESCRIPTION_CONFIG.general"),
        ("sections", .ref "PRESCRIPTION_CONFIG.sections"),
        ("templates", .ref "PRESCRIPTION_CONFIG.templates"),
        ("units", .ref "PRESCRIPTION_CONFIG.units")]),
    ("PRESCRIPTION_CONFIG.general", plainObject [("prescriptionPrefix", .text "RX"),
        ("prescriptionNumberFormat", .text "\x7bprefix\x7d-\x7byear\x7d-\x7bsequence\x7d"),
        ("nextPrescriptionNumber", .int 1), ("validityDays", .int 30), ("maxItems", .int 10),
        ("printHeader", .flag true), ("printFooter", .flag true), ("printDoctorStamp", .flag true),
        ("printClinicStamp", .flag true)]),
    ("PRESCRIPTION_CONFIG.sections", arrayObject [("0", .ref "PRESCRIPTION_CONFIG.sections.0"),
        ("1", .ref "PRESCRIPTION_CONFIG.sections.1"), ("2", .ref "PRESCRIPTION_CONFIG.sections.2"),
        ("3", .ref "PRESCRIPTION_CONFIG.sections.3"), ("4", .ref "PRESCRIPTION_CONFIG.sections.4"),
        ("5", .ref "PRESCRIPTION_CONFIG.sections.5")]),
    ("PRESCRIPTION_CONFIG.sections.0", plainObject [("id", .int 1), ("name", .text "تشخيص"),
        ("required", .flag true), ("order", .int 1)]),
    ("PRESCRIPTION_CONFIG.sections.1", plainObject [("id", .int 2), ("name", .text "الأدوية"),
        ("required", .flag true), ("order", .int 2)]),
    ("PRESCRIPTION_CONFIG.sections.2", plainObject [("id", .int 3), ("name", .text "التحاليل"),
        ("required", .flag false), ("order", .int 3)]),
    ("PRESCRIPTION_CONFIG.sections.3", plainObject [("id", .int 4), ("name", .text "الأشعة"),
        ("required", .flag false), ("order", .int 4)]),
    ("PRESCRIPTION_CONFIG.sections.4", plainObject [("id", .int 5), ("name", .text "التعليمات"),
        ("required", .flag false), ("order", .int 5)]),
    ("PRESCRIPTION_CONFIG.sections.5", plainObject [("id", .int 6), ("name", .text "المتابعة"),
        ("required", .flag false), ("order", .int 6)]),
    ("PRESCRIPTION_CONFIG.templates", plainObject [("diagnoses", .ref "PRESCRIPTION_CONFIG.templates.diagnoses"),
        ("instructions", .ref "PRESCRIPTION_CONFIG.templates.instructions"),
        ("warnings", .ref "PRESCRIPTION_CONFIG.templates.warnings")]),
    ("PRESCRIPTION_CONFIG.templates.diagnoses", arrayObject [("0", .text "التهاب رئوي"),
        ("1", .text "التهاب شعبي حاد"), ("2", .text "ارتفاع ضغط الدم"),
        ("3", .text "داء السكري النوع الثاني"), ("4", .text "فقر الدم"), ("5", .text "ربو شعبي"),
        ("6", .text "التهاب الجيوب الأنفية"), ("7", .text "التهاب اللوزتين")]),
    ("PRESCRIPTION_CONFIG.templates.instructions", arrayObject [("0", .text "تناول بعد الأكل"),
        ("1", .text "تناول قبل الأكل"), ("2", .text "مرة واحدة يومياً"),
        ("3", .text "مرتين يومياً"), ("4", .text "ثلاث مرات يومياً"), ("5", .text "عند اللزوم"),
        ("6", .text "دهان خارجي فقط"), ("7", .text "يخلط مع الماء")]),
    ("PRESCRIPTION_CONFIG.templates.warnings", arrayObject [("0", .text "يسبب نعاس - تجنب قيادة السيارة"),
        ("1", .text "يجب تناول مع الطعام"), ("2", .text "تجنب التعرض للشمس"),
        ("3", .text "يمنع للحوامل"), ("4", .text "يمنع للمرضع"),
        ("5", .text "يجب إجراء تحاليل دورية"), ("6", .text "يمنع تناول الكحول أثناء العلاج")]),
    ("PRESCRIPTION_CONFIG.units", plainObject [("time", .ref "PRESCRIPTION_CONFIG.units.time"),
        ("frequency", .ref "PRESCRIPTION_CONFIG.units.frequency"),
        ("duration", .ref "PRESCRIPTION_CONFIG.units.duration"),
        ("route", .ref "PRESCRIPTION_CONFIG.units.route")]),
    ("PRESCRIPTION_CONFIG.units.time", arrayObject [("0", .text "يوم"), ("1", .text "أسبوع"),
        ("2", .text "شهر"), ("3", .text "سنة")]),
    ("PRESCRIPTION_CONFIG.units.frequency", arrayObject [("0", .text "مرة واحدة"),
        ("1", .text "مرتين"), ("2", .text "ثلاث مرات"), ("3", .text "أربع مرات"),
        ("4", .text "كل 4 ساعات"), ("5", .text "كل 6 ساعات"), ("6", .text "كل 8 ساعات"),
        ("7", .text "كل 12 ساعة"), ("8", .text "عند اللزوم")]),
    ("PRESCRIPTION_CONFIG.units.duration", arrayObject [("0", .text "يوم"), ("1", .text "أسبوع"),
        ("2", .text "أسبوعين"), ("3", .text "شهر"), ("4", .text "شهرين"), ("5", .text "3 أشهر"),
        ("6", .text "6 أشهر"), ("7", .text "سنة"), ("8", .text "مستمر")]),
    ("PRESCRIPTION_CONFIG.units.route", arrayObject [("0", .text "فموي"), ("1", .text "حقن"),
        ("2", .text "موضعي"), ("3", .text "شرجي"), ("4", .text "تحاميل"), ("5", .text "بخاخ"),
        ("6", .text "قطرات")]) ]

/-- The objects the literal `HIJRI_CONFIG` creates, each under the place of its
literal in the source. -/
def HIJRI_CONFIG : Heap :=
  [ ("HIJRI_CONFIG", plainObject [("enabled", .flag true),
        ("calculationMethod", .text "ummalqura"), ("dateFormat", .text "dd/MM/yyyy هـ"),
        ("displayFormat", .text "gregorian-hijri"), ("holidaysBasedOn", .text "hijri"),
        ("conversion", .ref "HIJRI_CONFIG.conversion"), ("months", .ref "HIJRI_CONFIG.months"),
        ("days", .ref "HIJRI_CONFIG.days")]),
    ("HIJRI_CONFIG.conversion", plainObject [("adjustDays", .int 0),
        ("automaticConversion", .flag true)]),
    ("HIJRI_CONFIG.months", arrayObject [("0", .ref "HIJRI_CONFIG.months.0"),
        ("1", .ref "HIJRI_CONFIG.months.1"), ("2", .ref "HIJRI_CONFIG.months.2"),
        ("3", .ref "HIJRI_CONFIG.months.3"), ("4", .ref "HIJRI_CONFIG.months.4"),
        ("5", .ref "HIJRI_CONFIG.months.5"), ("6", .ref "HIJRI_CONFIG.months.6"),
        ("7", .ref "HIJRI_CONFIG.months.7"), ("8", .ref "HIJRI_CONFIG.months.8"),
        ("9", .ref "HIJRI_CONFIG.months.9"), ("10", .ref "HIJRI_CONFIG.months.10"),
        ("11", .ref "HIJRI_CONFIG.months.11")]),
    ("HIJRI_CONFIG.months.0", plainObject [("number", .int 1), ("arabic", .text "محرم"),
        ("english", .text "Muharram")]),
    ("HIJRI_CONFIG.months.1", plainObject [("number", .int 2), ("arabic", .text "صفر"),
        ("english", .text "Safar")]),
    ("HIJRI_CONFIG.months.2", plainObject [("number", .int 3), ("arabic", .text "ربيع الأول"),
        ("english", .text "Rabi' al-Awwal")]),
    ("HIJRI_CONFIG.months.3", plainObject [("number", .int 4), ("arabic", .text "ربيع الآخر"),
        ("english", .text "Rabi' al-Thani")]),
    ("HIJRI_CONFIG.months.4", plainObject [("number", .int 5), ("arabic", .text "جمادى الأولى"),
        ("english", .text "Jumada al-Awwal")]),
    ("HIJRI_CONFIG.months.5", plainObject [("number", .int 6), ("arabic", .text "جمادى الآخرة"),
        ("english", .text "Jumada al-Thani")]),
    ("HIJRI_CONFIG.months.6", plainObject [("number", .int 7), ("arabic", .text "رجب"),
        ("english", .text "Rajab")]),
    ("HIJRI_CONFIG.months.7", plainObject [("number", .int 8), ("arabic", .text "شعبان"),
        ("english", .text "Sha'ban")]),
    ("HIJRI_CONFIG.months.8", plainObject [("number", .int 9), ("arabic", .text "رمضان"),
        ("english", .text "Ramadan")]),
    ("HIJRI_CONFIG.months.9", plainObject [("number", .int 10), ("arabic", .text "شوال"),
        ("english", .text "Shawwal")]),
    ("HIJRI_CONFIG.months.10", plainObject [("number", .int 11), ("arabic", .text "ذو القعدة"),
        ("english", .text "Dhu al-Qi'dah")]),
    ("HIJRI_CONFIG.months.11", plainObject [("number", .int 12), ("arabic", .text "ذو الحجة"),
        ("english", .text "Dhu al-Hijjah")]),
    ("HIJRI_CONFIG.days", arrayObject [("0", .ref "HIJRI_CONFIG.days.0"),
        ("1", .ref "HIJRI_CONFIG.days.1"), ("2", .ref "HIJRI_CONFIG.days.2"),
        ("3", .ref "HIJRI_CONFIG.days.3"), ("4", .ref "HIJRI_CONFIG.days.4"),
        ("5", .ref "HIJRI_CONFIG.days.5"), ("6", .ref "HIJRI_CONFIG.days.6")]),
    ("HIJRI_CONFIG.days.0", plainObject [("number", .int 1), ("arabic", .text "الأحد"),
        ("english", .text "Sunday"), ("short", .text "أحد")]),
    ("HIJRI_CONFIG.days.1", plainObject [("number", .int 2), ("arabic", .text "الاثنين"),
        ("english", .text "Monday"), ("short", .text "إثنين")]),
    ("HIJRI_CONFIG.days.2", plainObject [("number", .int 3), ("arabic", .text "الثلاثاء"),
        ("english", .text "Tuesday"), ("short", .text "ثلاثاء")]),
    ("HIJRI_CONFIG.days.3", plainObject [("number", .int 4), ("arabic", .text "الأربعاء"),
        ("english", .text "Wednesday"), ("short", .text "أربعاء")]),
    ("HIJRI_CONFIG.days.4", plainObject [("number", .int 5), ("arabic", .text "الخميس"),
        ("english", .text "Thursday"), ("short", .text "خميس")]),
    ("HIJRI_CONFIG.days.5", plainObject [("number", .int 6), ("arabic", .text "الجمعة"),
        ("english", .text "Friday"), ("short", .text "جمعة")]),
    ("HIJRI_CONFIG.days.6", plainObject [("number", .int 7), ("arabic", .text "السبت"),
        ("english", .text "Saturday"), ("short", .text "سبت")]) ]

/-- The objects the literal `MEDIA_CONFIG` creates, each under the place of its
literal in the source. -/
def MEDIA_CONFIG : Heap :=
  [ ("MEDIA_CONFIG", plainObject [("images", .ref "MEDIA_CONFIG.images"),
        ("upload", .ref "MEDIA_CONFIG.upload"), ("fonts", .ref "MEDIA_CONFIG.fonts")]),
    ("MEDIA_CONFIG.images", plainObject [("logo", .ref "MEDIA_CONFIG.images.logo"),
        ("favicon", .text "/assets/icons/favicon.ico"),
        ("clinicLogo", .text "/assets/images/clinic-logo.png"),
        ("defaultDoctorImage", .text "/assets/images/doctors/default-avatar.png"),
        ("defaultPatientImage", .text "/assets/images/patients/default-avatar.png"),
        ("loginBackground", .text "/assets/images/backgrounds/login-bg.jpg"),
        ("dashboardBackground", .text "/assets/images/backgrounds/dashboard-bg.jpg")]),
    ("MEDIA_CONFIG.images.logo", plainObject [("url", .text "/assets/images/logo.png"),
        ("darkUrl", .text "/assets/images/logo-dark.png"), ("alt", .text "مركز العناية الطبية"),
        ("width", .int 180), ("height", .int 60)]),
    ("MEDIA_CONFIG.upload", plainObject [("allowedTypes", .ref "MEDIA_CONFIG.upload.allowedTypes"),
        ("maxSize", .int 5242880), ("maxFiles", .int 10), ("storagePath", .text "/uploads/"),
        ("namingConvention", .text "\x7btimestamp\x7d_\x7brandom\x7d_\x7boriginal\x7d"),
        ("compressImages", .flag true), ("quality", .int 85)]),
    ("MEDIA_CONFIG.upload.allowedTypes", arrayObject [("0", .text "image/jpeg"),
        ("1", .text "image/png"), ("2", .text "image/gif"), ("3", .text "application/pdf")]),
    ("MEDIA_CONFIG.fonts", plainObject [("primaryArabic", .text "Cairo"),
        ("secondaryArabic", .text "Tajawal"), ("primaryEnglish", .text "Inter"),
        ("secondaryEnglish", .text "Roboto"), ("cdn", .ref "MEDIA_CONFIG.fonts.cdn")]),
    ("MEDIA_CONFIG.fonts.cdn", plainObject [("google", .flag true), ("local", .flag true)]) ]

/-- The objects the literal `BACKUP_CONFIG` creates, each under the place of its
literal in the source. -/
def BACKUP_CONFIG : Heap :=
  [ ("BACKUP_CONFIG", plainObject [("enabled", .flag true),
        ("autoBackup", .ref "BACKUP_CONFIG.autoBackup"),
        ("manualBackup", .ref "BACKUP_CONFIG.manualBackup"),
        ("storage", .ref "BACKUP_CONFIG.storage"), ("restore", .ref "BACKUP_CONFIG.restore")]),
    ("BACKUP_CONFIG.autoBackup", plainObject [("enabled", .flag true),
        ("frequency", .text "daily"), ("time", .text "02:00"), ("keepCopies", .int 7)]),
    ("BACKUP_CONFIG.manualBackup", plainObject [("maxSize", .int 52428800),
        ("includeMedia", .flag true), ("includeDatabase", .flag true),
        ("includeSettings", .flag true)]),
    ("BACKUP_CONFIG.storage", plainObject [("local", .flag true), ("cloud", .flag false),
        ("cloudServices", .ref "BACKUP_CONFIG.storage.cloudServices"),
        ("encryption", .ref "BACKUP_CONFIG.storage.encryption")]),
    ("BACKUP_CONFIG.storage.cloudServices", plainObject [("googleDrive", .flag false),
        ("dropbox", .flag false), ("oneDrive", .flag false)]),
    ("BACKUP_CONFIG.storage.encryption", plainObject [("enabled", .flag true),
        ("algorithm", .text "aes-256-gcm")]),
    ("BACKUP_CONFIG.restore", plainObject [("validation", .flag true), ("dryRun", .flag true),
        ("backupBeforeRestore", .flag true)]) ]

/-- The objects the literal `ADDITIONAL_CONFIG` creates, each under the place of its
literal in the source. -/
def ADDITIONAL_CONFIG : Heap :=
  [ ("ADDITIONAL_CONFIG", plainObject [("locations", .ref "ADDITIONAL_CONFIG.locations"),
        ("idTypes", .ref "ADDITIONAL_CONFIG.idTypes"),
        ("relationshipTypes", .ref "ADDITIONAL_CONFIG.relationshipTypes"),
        ("bloodTypes", .ref "ADDITIONAL_CONFIG.bloodTypes"),
        ("patientStatuses", .ref "ADDITIONAL_CONFIG.patientStatuses")]),
    ("ADDITIONAL_CONFIG.locations", plainObject [("countries", .ref "ADDITIONAL_CONFIG.locations.countries"),
        ("saudiCities", .ref "ADDITIONAL_CONFIG.locations.saudiCities"),
        ("egyptCities", .ref "ADDITIONAL_CONFIG.locations.egyptCities")]),
    ("ADDITIONAL_CONFIG.locations.countries", arrayObject [("0", .ref "ADDITIONAL_CONFIG.locations.countries.0"),
        ("1", .ref "ADDITIONAL_CONFIG.locations.countries.1"),
        ("2", .ref "ADDITIONAL_CONFIG.locations.countries.2"),
        ("3", .ref "ADDITIONAL_CONFIG.locations.countries.3"),
        ("4", .ref "ADDITIONAL_CONFIG.locations.countries.4"),
        ("5", .ref "ADDITIONAL_CONFIG.locations.countries.5"),
        ("6", .ref "ADDITIONAL_CONFIG.locations.countries.6"),
        ("7", .ref "ADDITIONAL_CONFIG.locations.countries.7")]),
    ("ADDITIONAL_CONFIG.locations.countries.0", plainObject [("code", .text "SA"),
        ("name", .text "المملكة العربية السعودية"), ("phoneCode", .text "+966")]),
    ("ADDITIONAL_CONFIG.locations.countries.1", plainObject [("code", .text "EG"),
        ("name", .text "مصر"), ("phoneCode", .text "+20")]),
    ("ADDITIONAL_CONFIG.locations.countries.2", plainObject [("code", .text "AE"),
        ("name", .text "الإمارات العربية المتحدة"), ("phoneCode", .text "+971")]),
    ("ADDITIONAL_CONFIG.locations.countries.3", plainObject [("code", .text "KW"),
        ("name", .text "الكويت"), ("phoneCode", .text "+965")]),
    ("ADDITIONAL_CONFIG.locations.countries.4", plainObject [("code", .text "QA"),
        ("name", .text "قطر"), ("phoneCode", .text "+974")]),
    ("ADDITIONAL_CONFIG.locations.countries.5", plainObject [("code", .text "BH"),
        ("name", .text "البحرين"), ("phoneCode", .text "+973")]),
    ("ADDITIONAL_CONFIG.locations.countries.6", plainObject [("code", .text "OM"),
        ("name", .text "عمان"), ("phoneCode", .text "+968")]),
    ("ADDITIONAL_CONFIG.locations.countries.7", plainObject [("code", .text "JO"),
        ("name", .text "الأردن"), ("phoneCode", .text "+962")]),
    ("ADDITIONAL_CONFIG.locations.saudiCities", arrayObject [("0", .text "الرياض"),
        ("1", .text "جدة"), ("2", .text "مكة المكرمة"), ("3", .text "المدينة المنورة"),
        ("4", .text "الدمام"), ("5", .text "الخبر"), ("6", .text "الطائف"), ("7", .text "بريدة"),
        ("8", .text "تبوك"), ("9", .text "أبها"), ("10", .text "حائل"), ("11", .text "جازان"),
        ("12", .text "نجران"), ("13", .text "الجبيل"), ("14", .text "ينبع")]),
    ("ADDITIONAL_CONFIG.locations.egyptCities", arrayObject [("0", .text "القاهرة"),
        ("1", .text "الإسكندرية"), ("2", .text "الجيزة"), ("3", .text "شبرا الخيمة"),
        ("4", .text "بورسعيد"), ("5", .text "السويس"), ("6", .text "الأقصر"), ("7", .text "أسوان"),
        ("8", .text "دمياط"), ("9", .text "المنصورة")]),
    ("ADDITIONAL_CONFIG.idTypes", arrayObject [("0", .ref "ADDITIONAL_CONFIG.idTypes.0"),
        ("1", .ref "ADDITIONAL_CONFIG.idTypes.1"), ("2", .ref "ADDITIONAL_CONFIG.idTypes.2"),
        ("3", .ref "ADDITIONAL_CONFIG.idTypes.3"), ("4", .ref "ADDITIONAL_CONFIG.idTypes.4"),
        ("5", .ref "ADDITIONAL_CONFIG.idTypes.5")]),
    ("ADDITIONAL_CONFIG.idTypes.0", plainObject [("id", .int 1), ("code", .text "NATIONAL_ID"),
        ("name", .text "هوية وطنية"), ("country", .text "SA"), ("length", .int 10)]),
    ("ADDITIONAL_CONFIG.idTypes.1", plainObject [("id", .int 2), ("code", .text "IQAMA"),
        ("name", .text "إقامة"), ("country", .text "SA"), ("length", .int 10)]),
    ("ADDITIONAL_CONFIG.idTypes.2", plainObject [("id", .int 3), ("code", .text "PASSPORT"),
        ("name", .text "جواز سفر"), ("country", .text "ALL"), ("length", .int 9)]),
    ("ADDITIONAL_CONFIG.idTypes.3", plainObject [("id", .int 4), ("code", .text "DRIVING_LICENSE"),
        ("name", .text "رخصة قيادة"), ("country", .text "ALL"), ("length", .int 10)]),
    ("ADDITIONAL_CONFIG.idTypes.4", plainObject [("id", .int 5), ("code", .text "EG_NATIONAL_ID"),
        ("name", .text "رقم قومي"), ("country", .text "EG"), ("length", .int 14)]),
    ("ADDITIONAL_CONFIG.idTypes.5", plainObject [("id", .int 6),
        ("code", .text "BIRTH_CERTIFICATE"), ("name", .text "شهادة ميلاد"),
        ("country", .text "ALL"), ("length", .null)]),
    ("ADDITIONAL_CONFIG.relationshipTypes", arrayObject [("0", .text "زوج/زوجة"),
        ("1", .text "أب"), ("2", .text "أم"), ("3", .text "ابن"), ("4", .text "ابنة"),
        ("5", .text "أخ"), ("6", .text "أخت"), ("7", .text "جد"), ("8", .text "جدة"),
        ("9", .text "حفيد"), ("10", .text "حفيدة"), ("11", .text "عم"), ("12", .text "عمة"),
        ("13", .text "خال"), ("14", .text "خالة"), ("15", .text "وصي"), ("16", .text "كفيل"),
        ("17", .text "صديق"), ("18", .text "آخر")]),
    ("ADDITIONAL_CONFIG.bloodTypes", arrayObject [("0", .text "A+"), ("1", .text "A-"),
        ("2", .text "B+"), ("3", .text "B-"), ("4", .text "AB+"), ("5", .text "AB-"),
        ("6", .text "O+"), ("7", .text "O-"), ("8", .text "غير معروف")]),
    ("ADDITIONAL_CONFIG.patientStatuses", arrayObject [("0", .ref "ADDITIONAL_CONFIG.patientStatuses.0"),
        ("1", .ref "ADDITIONAL_CONFIG.patientStatuses.1"),
        ("2", .ref "ADDITIONAL_CONFIG.patientStatuses.2"),
        ("3", .ref "ADDITIONAL_CONFIG.patientStatuses.3")]),
    ("ADDITIONAL_CONFIG.patientStatuses.0", plainObject [("id", .int 1), ("code", .text "ACTIVE"),
        ("name", .text "نشط"), ("color", .text "#10B981")]),
    ("ADDITIONAL_CONFIG.patientStatuses.1", plainObject [("id", .int 2),
        ("code", .text "INACTIVE"), ("name", .text "غير نشط"), ("color", .text "#6B7280")]),
    ("ADDITIONAL_CONFIG.patientStatuses.2", plainObject [("id", .int 3), ("code", .text "BLOCKED"),
        ("name", .text "محظور"), ("color", .text "#EF4444")]),
    ("ADDITIONAL_CONFIG.patientStatuses.3", plainObject [("id", .int 4),
        ("code", .text "DECEASED"), ("name", .text "متوفى"), ("color", .text "#1F2937")]) ]

/-- The objects that exist once the twelve constants of the module have been
evaluated. A member expression inside a literal, such as
`CLINIC_CONFIG.basicInfo.name`, has been replaced by the string it evaluates to,
and a product of numbers by its value. -/
def moduleConstants : Heap :=
  SYSTEM_CONFIG ++ CLINIC_CONFIG ++ THEME_CONFIG ++ USER_CONFIG ++ BUSINESS_CONFIG ++
    BILLING_CONFIG ++ PAYMENT_CONFIG ++ PRESCRIPTION_CONFIG ++ HIJRI_CONFIG ++ MEDIA_CONFIG ++
    BACKUP_CONFIG ++ ADDITIONAL_CONFIG

/-- Whether a value is truthy. -/
def Val.truthy : Val → Bool
  | .prim p => p.truthy
  | _ => true

/-- The test `value === undefined`. -/
def Val.isUndefined : Val → Bool
  | .prim .undefined => true
  | _ => false

/-- What `Object.prototype` holds under `key`, as a value of the module. -/
def inheritedFromObject (key : String) : Val :=
  if key ∈ objectPrototypeKeys then
    if key = "__proto__" then .objectPrototype else .fn key
  else Val.undefined

/-- The expression `value[key]` on a truthy value: an own property of the object
referred to, the length of an array, or an inherited property. What the
prototypes of arrays, strings, numbers, booleans and functions hold depends on
the engine and is given by `builtin`. -/
def Heap.member (h : Heap) (builtin : Val → String → Val) (value : Val) (key : String) : Val :=
  match value with
  | .ref site =>
    match h.lookup site with
    | none => Val.undefined
    | some object =>
      match object.props.lookup key with
      | some found => found
      | none =>
        if object.array then
          if key = "length" then .int object.props.length else builtin value key
        else inheritedFromObject key
  | .objectPrototype =>
    if key = "__proto__" then Val.null
    else if key ∈ objectPrototypeKeys then .fn key
    else Val.undefined
  | other => builtin other key

/-- Reading the objects of the module. -/
def Heap.reader (h : Heap) (builtin : Val → String → Val) : Reader Val :=
  { undefined := Val.undefined, truthy := Val.truthy, isUndefined := Val.isUndefined,
    member := h.member builtin }

/-- The heap with the object at `site` replaced. -/
def Heap.put (h : Heap) (site : String) (object : HeapObject) : Heap :=
  mapSet h site object

/-- The own enumerable properties a spread or `Object.assign` copies from a
value: those of the object referred to, none of a primitive or a function. -/
def Heap.ownProperties (h : Heap) : Val → List (String × Val)
  | .ref site => ((h.lookup site).map HeapObject.props).getD []
  | _ => []

/-- The expression `{ ...source }` evaluated at `site`: a new object with the
own properties of `source`, the values as they are, references included. -/
def Heap.spread (h : Heap) (site : String) (source : Val) : Val × Heap :=
  (.ref site, h.put site (plainObject (h.ownProperties source)))

/-- The call `Object.seal(value)`. -/
def Heap.seal (h : Heap) : Val → Val × Heap
  | .ref site =>
    match h.lookup site with
    | some object => (.ref site, h.put site { object with extensible := false })
    | none => (.ref site, h)
  | other => (other, h)

/-- The call `Object.freeze(value)`: the object itself is frozen, the objects its
properties refer to are not. -/
def Heap.freeze (h : Heap) : Val → Val × Heap
  | .ref site =>
    match h.lookup site with
    | some object => (.ref site, h.put site { object with extensible := false, frozen := true })
    | none => (.ref site, h)
  | other => (other, h)

/-- The assignment `target[key] = value` in strict mode, as module code is. A
frozen object and a new property on an object that is not extensible raise;
writes to arrays, to functions, to `Object.prototype` and to a prototype link
are where the model stops. -/
def Heap.assign (h : Heap) (target : Val) (key : String) (value : Val) : Written Heap :=
  match target with
  | .ref site =>
    match h.lookup site with
    | none => .leavesModel
    | some object =>
      if object.array then .leavesModel
      else if (object.props.lookup key).isSome then
        if object.frozen then
          .raised (typeError ("Cannot assign to read only property '" ++ key ++ "' of object"))
        else .returned (h.put site { object with props := mapSet object.props key value })
      else if key = "__proto__" then
        match value with
        | .prim .null => .leavesModel
        | .prim _ => .returned h
        | _ => .leavesModel
      else if object.extensible then
        .returned (h.put site { object with props := mapSet object.props key value })
      else .raised (typeError ("Cannot add property " ++ key ++ ", object is not extensible"))
  | .prim .undefined =>
    .raised (typeError ("Cannot set properties of undefined (setting '" ++ key ++ "')"))
  | .prim .null =>
    .raised (typeError ("Cannot set properties of null (setting '" ++ key ++ "')"))
  | .prim _ => .raised (typeError ("Cannot create property '" ++ key ++ "' on a primitive"))
  | _ => .leavesModel

/-- The loop of `Object.assign(target, source)` over the own properties of
`source`. -/
def Heap.assignAll (h : Heap) (target : Val) : List (String × Val) → Written Heap
  | [] => .returned h
  | (key, value) :: rest =>
    match h.assign target key value with
    | .returned h' => Heap.assignAll h' target rest
    | .raised e => .raised e
    | .leavesModel => .leavesModel

/-- The call `Object.assign(target, source)`. -/
def Heap.objectAssign (h : Heap) (target source : Val) : Written Heap :=
  match target with
  | .prim .undefined => .raised (typeError "Cannot convert undefined or null to object")
  | .prim .null => .raised (typeError "Cannot convert undefined or null to object")
  | .prim _ => .returned h
  | _ => h.assignAll target (h.ownProperties source)

/-- The names of the objects `defaultSections` of `resetConfigSection` maps the
nine sections to. -/
def defaultSections : List (String × Val) :=
  [ ("clinic", .ref "CLINIC_CONFIG"), ("theme", .ref "THEME_CONFIG"),
    ("business", .ref "BUSINESS_CONFIG"), ("billing", .ref "BILLING_CONFIG"),
    ("payments", .ref "PAYMENT_CONFIG"), ("prescriptions", .ref "PRESCRIPTION_CONFIG"),
    ("hijri", .ref "HIJRI_CONFIG"), ("media", .ref "MEDIA_CONFIG"),
    ("backup", .ref "BACKUP_CONFIG") ]

/-- The function `resetConfigSection(config, section)`, the section `name` being a
string or, as `none`, `null`: what it returns and the objects afterwards. The object
literal `defaultSections`, built anew by every call and dropped, is not kept among
the objects. -/
def resetConfigSection (builtin : Val → String → Val) (h : Heap) (config : Val)
    (name : Option String) : Written (Bool × Heap) :=
  match name with
  | none => .returned (false, h)
  | some key =>
    let default :=
      match defaultSections.lookup key with
      | some found => found
      | none => inheritedFromObject key
    if key ≠ "" ∧ default.truthy then
      (h.objectAssign (h.member builtin config key) default).map fun h' => (true, h')
    else .returned (false, h)

/-- The function `initializeSystemConfig()`: the object it returns and the
objects afterwards. `now` is the value of `new Date().toISOString()` and
`checksum` that of `generateConfigChecksum()`. -/
def initializeSystemConfig (builtin : Val → String → Val) (now checksum : String) (h : Heap) :
    Val × Heap :=
  let copy (h : Heap) (site : String) (source : Val) (protect : Heap → Val → Val × Heap) :=
    (protect (h.spread site source).2 (h.spread site source).1).2
  let h := copy h "ClinicProConfig.system"
    (h.member builtin (.ref "SYSTEM_CONFIG") "system") Heap.freeze
  let h := copy h "ClinicProConfig.licensing"
    (h.member builtin (.ref "SYSTEM_CONFIG") "licensing") Heap.freeze
  let h := copy h "ClinicProConfig.clinic" (.ref "CLINIC_CONFIG") Heap.seal
  let h := copy h "ClinicProConfig.theme" (.ref "THEME_CONFIG") Heap.seal
  let h := copy h "ClinicProConfig.business" (.ref "BUSINESS_CONFIG") Heap.seal
  let h := copy h "ClinicProConfig.users" (.ref "USER_CONFIG") Heap.freeze
  let h := copy h "ClinicProConfig.billing" (.ref "BILLING_CONFIG") Heap.seal
  let h := copy h "ClinicProConfig.payments" (.ref "PAYMENT_CONFIG") Heap.seal
  let h := copy h "ClinicProConfig.prescriptions" (.ref "PRESCRIPTION_CONFIG") Heap.seal
  let h := copy h "ClinicProConfig.hijri" (.ref "HIJRI_CONFIG") Heap.seal
  let h := copy h "ClinicProConfig.media" (.ref "MEDIA_CONFIG") Heap.seal
  let h := copy h "ClinicProConfig.backup" (.ref "BACKUP_CONFIG") Heap.seal
  let h := copy h "ClinicProConfig.additional" (.ref "ADDITIONAL_CONFIG") Heap.freeze
  let environment :=
    h.member builtin (h.member builtin (.ref "SYSTEM_CONFIG") "system") "environment"
  let h := h.put "ClinicProConfig.metadata" (plainObject
    [ ("configVersion", .text "1.0.0"), ("lastModified", .text now),
      ("checksum", .text checksum), ("environment", environment) ])
  let h := h.put "ClinicProConfig.utils" (plainObject
    [ ("getConfigValue", .fn "getConfigValue"), ("updateConfig", .fn "updateConfig"),
      ("exportConfig", .fn "exportConfig"), ("resetToDefaults", .fn "resetToDefaults") ])
  let h := h.put "ClinicProConfig" (plainObject
    [ ("system", .ref "ClinicProConfig.system"), ("licensing", .ref "ClinicProConfig.licensing"),
      ("clinic", .ref "ClinicProConfig.clinic"), ("theme", .ref "ClinicProConfig.theme"),
      ("business", .ref "ClinicProConfig.business"), ("users", .ref "ClinicProConfig.users"),
      ("billing", .ref "ClinicProConfig.billing"), ("payments", .ref "ClinicProConfig.payments"),
      ("prescriptions", .ref "ClinicProConfig.prescriptions"),
      ("hijri", .ref "ClinicProConfig.hijri"), ("media", .ref "ClinicProConfig.media"),
      ("backup", .ref "ClinicProConfig.backup"),
      ("additional", .ref "ClinicProConfig.additional"),
      ("metadata", .ref "ClinicProConfig.metadata"), ("utils", .ref "ClinicProConfig.utils") ])
  h.freeze (.ref "ClinicProConfig")

/-- The statements `const ClinicProConfig = initializeSystemConfig();
Object.freeze(ClinicProConfig);` run on the constants of the module: the exported
object, and the objects of the module once it is loaded. -/
def ClinicProConfig (builtin : Val → String → Val) (now checksum : String) : Val × Heap :=
  (initializeSystemConfig builtin now checksum moduleConstants).2.freeze
    (initializeSystemConfig builtin now checksum moduleConstants).1

/-- The method `getConfigValue(path)` of `utils`, `this` being the object the
method is called on. -/
def getConfigValue (builtin : Val → String → Val) (h : Heap) (this : Val) (path : String) : Val :=
  getNestedValue (h.reader builtin) this path

/-- The expression `ClinicProConfig.utils.getConfigValue(path)`, evaluated once
the module is loaded: the method is called on `ClinicProConfig.utils`. -/
def utilsGetConfigValue (builtin : Val → String → Val) (now checksum : String) (path : String) :
    Val :=
  getConfigValue builtin (ClinicProConfig builtin now checksum).2
    ((ClinicProConfig builtin now checksum).2.member builtin
      (ClinicProConfig builtin now checksum).1 "utils") path

/-- An engine whose prototypes of arrays, strings, numbers, booleans and
functions hold nothing. -/
def noBuiltins : Val → String → Val := fun _ _ => Val.undefined

/-- The exported configuration object and the objects of the module after it was
loaded. -/
def sampleLoaded : Val × Heap :=
  ClinicProConfig noBuiltins "2024-01-01T00:00:00.000Z" "1a2b3c"

/-- The expression `ClinicProConfig.<path>` once the module is loaded, in the
objects `h`. -/
def readConfig (h : Heap) (path : String) : Val :=
  getNestedValue (h.reader noBuiltins) sampleLoaded.1 path

/-- The statement `ClinicProConfig.clinic.basicInfo.name = 'Al Noor'` after the
module is loaded. -/
def sampleRenamed : Written Heap :=
  sampleLoaded.2.assign (readConfig sampleLoaded.2 "clinic.basicInfo") "name" (.text "Al Noor")

/-- The statement `ClinicProConfig.backup.enabled = false` after the module is
loaded. -/
def sampleDisabled : Written Heap :=
  sampleLoaded.2.assign (readConfig sampleLoaded.2 "backup") "enabled" (.flag false)

/-- The call `resetConfigSection(ClinicProConfig, name)` in the objects `h`: what
it returns and, afterwards, the value of `ClinicProConfig.<path>`. -/
def resetThenRead (h : Heap) (name path : String) : Option (Bool × Val) :=
  (resetConfigSection noBuiltins h sampleLoaded.1 (some name)).result?.map fun out =>
    (out.1, readConfig out.2 path)

/-! # Properties

## Evaluation of method bodies -/

@[simp] theorem bind_eq {α β : Type} (m : Method α) (f : α → Method β) :
    (m >>= f) = Method.bind m f := rfl

@[simp] theorem pure_eq {α : Type} (x : α) : (pure x : Method α) = Method.pure x := rfl

@[simp] theorem Method.pure_apply {α : Type} (x : α) (a : App) :
    Method.pure x a = (.ok x, a) := rfl

@[simp] theorem raise_apply {α : Type} (e : JSError) (a : App) :
    (raise e : Method α) a = (.error e, a) := rfl

@[simp] theorem getThis_apply (a : App) : getThis a = (.ok a, a) := rfl

@[simp] theorem assign_apply (f : App → App) (a : App) : assign f a = (.ok (), f a) := rfl

@[simp] theorem observe_apply (e : Effect) (a : App) :
    observe e a = (.ok (), { a with trace := a.trace ++ [e] }) := rfl

@[simp] theorem call_none (a : App) : call none a = (.ok (), a) := rfl

@[simp] theorem call_some (e : JSError) (a : App) : call (some e) a = (.error e, a) := rfl

theorem Method.bind_ok {α β : Type} {m : Method α} {f : α → Method β} {a a' : App} {x : α}
    (h : m a = (.ok x, a')) : Method.bind m f a = f x a' := by
  simp [Method.bind, h]

theorem Method.bind_error {α β : Type} {m : Method α} {f : α → Method β} {a a' : App}
    {e : JSError} (h : m a = (.error e, a')) : Method.bind m f a = (.error e, a') := by
  simp [Method.bind, h]

theorem tryCatch_ok {α : Type} {m : Method α} {h : JSError → Method α} {a a' : App} {x : α}
    (hm : m a = (.ok x, a')) : tryCatch m h a = (.ok x, a') := by
  simp [tryCatch, hm]

theorem tryCatch_error {α : Type} {m : Method α} {h : JSError → Method α} {a a' : App}
    {e : JSError} (hm : m a = (.error e, a')) : tryCatch m h a = h e a' := by
  simp [tryCatch, hm]

theorem getItem_apply {α : Type} (env : Env) (key : String) (read : Store → Option α) (a : App) :
    getItem env key read a =
      if a.storage then
        match env.getItemError key with
        | none => (.ok (read a.store), a)
        | some e => (.error e, a)
      else (.error (typeError "Cannot read properties of undefined (reading 'getItem')"), a) := by
  cases hs : a.storage <;> cases he : env.getItemError key <;>
    simp [getItem, Method.bind, hs, he]

theorem setItem_apply (env : Env) (key : String) (write : Store → Store) (a : App) :
    setItem env key write a =
      if a.storage then
        match env.setItemError key with
        | none => (.ok (), { a with store := write a.store })
        | some e => (.error e, a)
      else (.error (typeError "Cannot read properties of undefined (reading 'setItem')"), a) := by
  cases hs : a.storage <;> cases he : env.setItemError key <;>
    simp [setItem, Method.bind, hs, he]

theorem stateUpdate_apply (w : StateWrite) (a : App) :
    stateUpdate w a =
      match a.state with
      | none => (.error (typeError "Cannot read properties of null (reading 'update')"), a)
      | some st => (.ok (), { a with state := some (st.update w) }) := by
  cases hs : a.state <;> simp [stateUpdate, Method.bind, hs]


theorem preserves_of_refl {R : App → App → Prop} (hr : ∀ a, R a a) {α : Type} {m : Method α}
    (h : ∀ a, (m a).2 = a) : Preserves R m := by
  intro a
  rw [h a]
  exact hr a

theorem preserves_bind {R : App → App → Prop} (ht : ∀ a b c, R a b → R b c → R a c)
    {α β : Type} {m : Method α} {f : α → Method β}
    (hm : Preserves R m) (hf : ∀ x, Preserves R (f x)) : Preserves R (Method.bind m f) := by
  intro a
  have h1 := hm a
  unfold Method.bind
  rcases hres : m a with ⟨r, a'⟩
  rw [hres] at h1
  cases r with
  | ok x => exact ht _ _ _ h1 (hf x a')
  | error e => exact h1

theorem preserves_tryCatch {R : App → App → Prop} (ht : ∀ a b c, R a b → R b c → R a c)
    {α : Type} {m : Method α} {h : JSError → Method α}
    (hm : Preserves R m) (hh : ∀ e, Preserves R (h e)) : Preserves R (tryCatch m h) := by
  intro a
  have h1 := hm a
  unfold tryCatch
  rcases hres : m a with ⟨r, a'⟩
  rw [hres] at h1
  cases r with
  | ok x => exact h1
  | error e => exact ht _ _ _ h1 (hh e a')

theorem preserves_forEach {R : App → App → Prop} (hr : ∀ a, R a a)
    (ht : ∀ a b c, R a b → R b c → R a c) {α : Type} (xs : List α) {body : α → Method Unit}
    (hb : ∀ x, Preserves R (body x)) : Preserves R (forEach xs body) := by
  induction xs with
  | nil => intro a; exact hr a
  | cons x rest ih =>
    unfold forEach
    exact preserves_bind ht (hb x) fun _ => ih

theorem total_bind {α β : Type} {m : Method α} {f : α → Method β}
    (hm : Total m) (hf : ∀ x, Total (f x)) : Total (Method.bind m f) := by
  intro a
  obtain ⟨x, hx⟩ := hm a
  unfold Method.bind
  rcases hres : m a with ⟨r, a'⟩
  rw [hres] at hx
  simp only at hx
  subst hx
  exact hf x a'

theorem total_tryCatch {α : Type} {m : Method α} {h : JSError → Method α}
    (hh : ∀ e, Total (h e)) : Total (tryCatch m h) := by
  intro a
  unfold tryCatch
  rcases hres : m a with ⟨r, a'⟩
  cases r with
  | ok x => exact ⟨x, rfl⟩
  | error e => exact hh e a'

theorem total_forEach {α : Type} (xs : List α) {body : α → Method Unit}
    (hb : ∀ x, Total (body x)) : Total (forEach xs body) := by
  induction xs with
  | nil => intro a; exact ⟨(), rfl⟩
  | cons x rest ih =>
    unfold forEach
    exact total_bind (hb x) fun _ => ih

theorem total_observe (e : Effect) : Total (observe e) := fun _ => ⟨(), rfl⟩

theorem total_apply_eq {m : Method Unit} (h : Total m) (a : App) : m a = (.ok (), (m a).2) := by
  obtain ⟨x, hx⟩ := h a
  exact Prod.ext hx rfl

@[simp] theorem phasesEntered_append (t u : List Effect) :
    phasesEntered (t ++ u) = phasesEntered t ++ phasesEntered u := by
  simp [phasesEntered]

@[simp] theorem criticalErrors_append (t u : List Effect) :
    criticalErrors (t ++ u) = criticalErrors t ++ criticalErrors u := by
  simp [criticalErrors]

@[simp] theorem emitted_append (t u : List Effect) :
    emitted (t ++ u) = emitted t ++ emitted u := by
  simp [emitted]

theorem quiet_refl (a : App) : Quiet a a :=
  ⟨rfl, id, rfl, rfl, rfl, rfl, rfl, rfl, rfl, rfl, rfl, rfl, rfl, rfl⟩

theorem quiet_trans (a b c : App) (h1 : Quiet a b) (h2 : Quiet b c) : Quiet a c :=
  ⟨h2.storage.trans h1.storage, fun h => h2.state (h1.state h), h2.events.trans h1.events,
    h2.notifications.trans h1.notifications, h2.auth.trans h1.auth, h2.router.trans h1.router,
    h2.isInitialized.trans h1.isInitialized, h2.windowListeners.trans h1.windowListeners,
    h2.pending.trans h1.pending, h2.phases.trans h1.phases, h2.criticals.trans h1.criticals,
    h2.ui.trans h1.ui, h2.emits.trans h1.emits, h2.timers.trans h1.timers⟩

theorem keepsCache_refl (a : App) : KeepsCache a a := ⟨rfl, rfl⟩

theorem keepsCache_trans (a b c : App) (h1 : KeepsCache a b) (h2 : KeepsCache b c) :
    KeepsCache a c :=
  ⟨h2.1.trans h1.1, h2.2.trans h1.2⟩

theorem quiet_getItem {α : Type} (env : Env) (key : String) (read : Store → Option α) :
    Preserves Quiet (getItem env key read) := by
  apply preserves_of_refl quiet_refl
  intro a
  rw [getItem_apply]
  split
  · split <;> rfl
  · rfl

theorem quiet_setItem (env : Env) (key : String) (write : Store → Store) :
    Preserves Quiet (setItem env key write) := by
  intro a
  rw [setItem_apply]
  split
  · split
    · exact ⟨rfl, id, rfl, rfl, rfl, rfl, rfl, rfl, rfl, rfl, rfl, rfl, rfl, rfl⟩
    · exact quiet_refl a
  · exact quiet_refl a

theorem quiet_stateUpdate (w : StateWrite) (h : ∀ st : StateManager, (st.update w).ui = st.ui) :
    Preserves Quiet (stateUpdate w) := by
  intro a
  rw [stateUpdate_apply]
  split
  · exact quiet_refl a
  · rename_i st hst
    exact ⟨rfl, fun _ => rfl, rfl, rfl, rfl, rfl, rfl, rfl, rfl, rfl, rfl,
      by simp [hst, h st], rfl, rfl⟩

theorem quiet_warn (text : String) (e : JSError) : Preserves Quiet (observe (.warn text e)) := by
  intro a
  exact ⟨rfl, id, rfl, rfl, rfl, rfl, rfl, rfl, rfl, by simp [phasesEntered],
    by simp [criticalErrors], rfl, by simp [emitted], rfl⟩

theorem quiet_pure {α : Type} (x : α) : Preserves Quiet (Method.pure x) :=
  preserves_of_refl quiet_refl fun _ => rfl

theorem quiet_call (o : Option JSError) : Preserves Quiet (call o) := by
  cases o <;> exact preserves_of_refl quiet_refl fun _ => rfl

theorem quiet_raise {α : Type} (e : JSError) : Preserves Quiet (raise e : Method α) :=
  preserves_of_refl quiet_refl fun _ => rfl

theorem quiet_observe (e : Effect) (h1 : phasesEntered [e] = []) (h2 : criticalErrors [e] = [])
    (h3 : emitted [e] = []) : Preserves Quiet (observe e) := by
  intro a
  exact ⟨rfl, id, rfl, rfl, rfl, rfl, rfl, rfl, rfl, by simp [h1], by simp [h2], rfl,
    by simp [h3], rfl⟩

theorem quiet_assign_cache (b : Bool) (u : Option User) :
    Preserves Quiet (assign fun a => { a with isAuthenticated := b, currentUser := u }) :=
  fun _ => ⟨rfl, id, rfl, rfl, rfl, rfl, rfl, rfl, rfl, rfl, rfl, rfl, rfl, rfl⟩

theorem quiet_assign_services (f : App → List (String × String)) :
    Preserves Quiet (assign fun a => { a with services := f a }) :=
  fun _ => ⟨rfl, id, rfl, rfl, rfl, rfl, rfl, rfl, rfl, rfl, rfl, rfl, rfl, rfl⟩

theorem quiet_assign_modules (f : App → List (String × ModuleInstance)) :
    Preserves Quiet (assign fun a => { a with modules := f a }) :=
  fun _ => ⟨rfl, id, rfl, rfl, rfl, rfl, rfl, rfl, rfl, rfl, rfl, rfl, rfl, rfl⟩

theorem quiet_loadReferenceData (env : Env) : Preserves Quiet (loadReferenceData env) :=
  quiet_setItem _ _ _

theorem keepsCache_getItem {α : Type} (env : Env) (key : String) (read : Store → Option α) :
    Preserves KeepsCache (getItem env key read) := by
  apply preserves_of_refl keepsCache_refl
  intro a
  rw [getItem_apply]
  split
  · split <;> rfl
  · rfl

theorem keepsCache_setItem (env : Env) (key : String) (write : Store → Store) :
    Preserves KeepsCache (setItem env key write) := by
  intro a
  rw [setItem_apply]
  split
  · split
    · exact ⟨rfl, rfl⟩
    · exact keepsCache_refl a
  · exact keepsCache_refl a

theorem keepsCache_stateUpdate (w : StateWrite) : Preserves KeepsCache (stateUpdate w) := by
  intro a
  rw [stateUpdate_apply]
  split
  · exact keepsCache_refl a
  · exact ⟨rfl, rfl⟩

theorem keepsCache_stateGet {α : Type} (region : StateManager → α) :
    Preserves KeepsCache (stateGet region) := by
  intro a
  cases hs : a.state <;> simp [stateGet, Method.bind, hs, KeepsCache]

theorem quiet_stateGet {α : Type} (region : StateManager → α) :
    Preserves Quiet (stateGet region) := by
  apply preserves_of_refl quiet_refl
  intro a
  cases hs : a.state <;> simp [stateGet, Method.bind, hs]

theorem keepsCache_pure {α : Type} (x : α) : Preserves KeepsCache (Method.pure x) :=
  fun _ => ⟨rfl, rfl⟩

theorem keepsCache_call (o : Option JSError) : Preserves KeepsCache (call o) := by
  cases o <;> exact fun _ => ⟨rfl, rfl⟩

theorem keepsCache_raise {α : Type} (e : JSError) : Preserves KeepsCache (raise e : Method α) :=
  fun _ => ⟨rfl, rfl⟩

theorem keepsCache_observe (e : Effect) : Preserves KeepsCache (observe e) :=
  fun _ => ⟨rfl, rfl⟩

theorem keepsCache_assign_services (f : App → List (String × String)) :
    Preserves KeepsCache (assign fun a => { a with services := f a }) :=
  fun _ => ⟨rfl, rfl⟩

theorem keepsCache_assign_modules (f : App → List (String × ModuleInstance)) :
    Preserves KeepsCache (assign fun a => { a with modules := f a }) :=
  fun _ => ⟨rfl, rfl⟩

/-! ## The fault-tolerant parts of startup -/

theorem loadInitialData_total (env : Env) : Total (loadInitialData env) := by
  unfold loadInitialData
  simp only [bind_eq]
  exact total_bind (total_observe _) fun _ => total_tryCatch fun _ => total_observe _

theorem loadInitialData_quiet (env : Env) (a : App) :
    Quiet { a with trace := a.trace ++ [.enter .loadInitialData] } (loadInitialData env a).2 := by
  have h : Preserves Quiet (tryCatch
      (do
        let savedSettings ← getItem env "user_settings" Store.userSettings
        match savedSettings with
        | some settings => stateUpdate (.app settings)
        | none => Method.pure ()
        let savedSession ← getItem env "auth_session" Store.authSession
        match savedSession with
        | some session =>
          stateUpdate (.authSession session)
          assign fun a => { a with isAuthenticated := session.isAuthenticated,
                                   currentUser := session.user }
        | none => Method.pure ()
        loadReferenceData env)
      (fun e => observe (.warn "Failed to load initial data" e))) := by
    simp only [bind_eq]
    repeat' first
      | exact quiet_getItem _ _ _
      | exact quiet_stateUpdate _ (fun _ => rfl)
      | exact quiet_observe _ rfl rfl rfl
      | exact quiet_pure _
      | exact quiet_assign_cache _ _
      | exact quiet_loadReferenceData _
      | apply preserves_bind quiet_trans
      | apply preserves_tryCatch quiet_trans
      | split
      | intro _
  exact h _

theorem initializeServices_total (env : Env) : Total (initializeServices env) := by
  unfold initializeServices
  simp only [bind_eq]
  exact total_bind (total_observe _) fun _ =>
    total_forEach _ fun _ => total_tryCatch fun _ => total_observe _

theorem initializeServices_quiet (env : Env) (a : App) :
    Quiet { a with trace := a.trace ++ [.enter .initializeServices] }
      (initializeServices env a).2 := by
  have h : Preserves Quiet (forEach services fun service =>
      tryCatch
        (do
          observe (.dynamicImport service.2)
          call (env.serviceLoad service.2)
          assign fun a => { a with services := mapSet a.services service.1 service.2 }
          observe (.loaded service.1))
        (fun e => observe (.warn ("Failed to load service: " ++ service.1) e))) := by
    simp only [bind_eq]
    repeat' first
      | exact quiet_observe _ rfl rfl rfl
      | exact quiet_call _
      | exact quiet_assign_services _
      | apply preserves_bind quiet_trans
      | apply preserves_tryCatch quiet_trans
      | apply preserves_forEach quiet_refl quiet_trans
      | intro _
  exact h _

theorem initializeServices_keepsCache (env : Env) : Preserves KeepsCache (initializeServices env) := by
  unfold initializeServices
  simp only [bind_eq]
  repeat' first
    | exact keepsCache_observe _
    | exact keepsCache_call _
    | exact keepsCache_assign_services _
    | apply preserves_bind keepsCache_trans
    | apply preserves_tryCatch keepsCache_trans
    | apply preserves_forEach keepsCache_refl keepsCache_trans
    | intro _

theorem loadModule_total (env : Env) (d : ModuleDescriptor) : Total (loadModule env d) :=
  total_tryCatch fun _ => total_observe _

theorem loadModules_total (env : Env) (ds : List ModuleDescriptor) : Total (loadModules env ds) :=
  total_forEach _ (loadModule_total env)

theorem loadModules_quiet (env : Env) (ds : List ModuleDescriptor) :
    Preserves Quiet (loadModules env ds) := by
  unfold loadModules loadModule
  simp only [bind_eq]
  repeat' first
    | exact quiet_observe _ rfl rfl rfl
    | exact quiet_call _
    | exact quiet_assign_modules _
    | apply preserves_bind quiet_trans
    | apply preserves_tryCatch quiet_trans
    | apply preserves_forEach quiet_refl quiet_trans
    | intro _

theorem loadModules_keepsCache (env : Env) (ds : List ModuleDescriptor) :
    Preserves KeepsCache (loadModules env ds) := by
  unfold loadModules loadModule
  simp only [bind_eq]
  repeat' first
    | exact keepsCache_observe _
    | exact keepsCache_call _
    | exact keepsCache_assign_modules _
    | apply preserves_bind keepsCache_trans
    | apply preserves_tryCatch keepsCache_trans
    | apply preserves_forEach keepsCache_refl keepsCache_trans
    | intro _

theorem saveApplicationState_total (env : Env) : Total (saveApplicationState env) :=
  total_tryCatch fun _ => total_observe _

theorem saveApplicationState_quiet (env : Env) : Preserves Quiet (saveApplicationState env) := by
  unfold saveApplicationState
  simp only [bind_eq]
  repeat' first
    | exact quiet_observe _ rfl rfl rfl
    | exact quiet_stateGet _
    | exact quiet_setItem _ _ _
    | apply preserves_bind quiet_trans
    | apply preserves_tryCatch quiet_trans
    | intro _

theorem saveApplicationState_keepsCache (env : Env) :
    Preserves KeepsCache (saveApplicationState env) := by
  unfold saveApplicationState
  simp only [bind_eq]
  repeat' first
    | exact keepsCache_observe _
    | exact keepsCache_stateGet _
    | exact keepsCache_setItem _ _ _
    | apply preserves_bind keepsCache_trans
    | apply preserves_tryCatch keepsCache_trans
    | intro _

/-! ## The phases of startup, one by one -/

theorem checkBrowserCompatibility_apply (env : Env) (a : App) :
    checkBrowserCompatibility env a =
      (.ok env.compatibility,
        { a with trace := a.trace ++ [.enter .checkBrowserCompatibility] }) := rfl

theorem setupGlobalErrorHandling_apply (a : App) :
    setupGlobalErrorHandling a =
      (.ok (), { a with windowListeners := a.windowListeners ++ ["error"],
                        trace := a.trace ++ [.enter .setupGlobalErrorHandling] }) := rfl

theorem setupPerformanceTracking_apply (a : App) :
    setupPerformanceTracking a =
      (.ok (), { a with trace := a.trace ++ [.enter .setupPerformanceTracking] }) := rfl

theorem initializeCoreComponents_ok (env : Env) (a : App) (h : env.storageInit = none) :
    initializeCoreComponents env a =
      (.ok (), { a with storage := true, state := some (initialState env), events := some [],
                        notifications := true,
                        trace := a.trace ++ [.enter .initializeCoreComponents] }) := by
  simp [initializeCoreComponents, Method.bind, h]

theorem initializeCoreComponents_error (env : Env) (a : App) (e : JSError)
    (h : env.storageInit = some e) :
    initializeCoreComponents env a =
      (.error e, { a with storage := true,
                          trace := a.trace ++ [.enter .initializeCoreComponents] }) := by
  simp [initializeCoreComponents, Method.bind, h]

theorem initializeAuthentication_ok (env : Env) (a : App) (s : Session)
    (h1 : env.authInit = none) (h2 : env.checkCurrentSession = .ok s) :
    initializeAuthentication env a =
      (.ok (), { a with auth := true, isAuthenticated := s.isAuthenticated,
                        currentUser := s.user,
                        trace := a.trace ++ [.enter .initializeAuthentication] }) := by
  simp [initializeAuthentication, Method.bind, h1, h2]

theorem initializeAuthentication_error (env : Env) (a : App) (e : JSError)
    (h : env.authInit = some e ∨ (env.authInit = none ∧ env.checkCurrentSession = .error e)) :
    initializeAuthentication env a =
      (.error e, { a with auth := true,
                          trace := a.trace ++ [.enter .initializeAuthentication] }) := by
  rcases h with h | ⟨h1, h2⟩
  · simp [initializeAuthentication, Method.bind, h]
  · simp [initializeAuthentication, Method.bind, h1, h2]

theorem setupTheme_apply (env : Env) (a : App) (st : StateManager)
    (hs : a.storage = true) (hst : a.state = some st) (hg : env.getItemError "user_theme" = none) :
    setupTheme env a =
      (.ok (), { a with state := some (st.update (.appTheme (orLight a.store.userTheme))) }) := by
  simp [setupTheme, Method.bind, getItem_apply, stateUpdate_apply, hs, hst, hg]

theorem initializeUI_ok (env : Env) (a : App) (st : StateManager)
    (hc : env.loadCSS = none) (hs : a.storage = true) (hst : a.state = some st)
    (hg : env.getItemError "user_theme" = none) :
    initializeUI env a =
      (.ok (), { a with state := some (st.update (.appTheme (orLight a.store.userTheme))),
                        trace := a.trace ++ [.enter .initializeUI] }) := by
  have h := setupTheme_apply env { a with trace := a.trace ++ [.enter .initializeUI] } st hs hst hg
  simp [initializeUI, Method.bind, hc, loadFonts, setupLanguage, createLoadingScreen, h]

theorem initializeUI_error (env : Env) (a : App) (e : JSError)
    (h : env.loadCSS = some e ∨
      (env.loadCSS = none ∧ a.storage = true ∧ env.getItemError "user_theme" = some e)) :
    initializeUI env a =
      (.error e, { a with trace := a.trace ++ [.enter .initializeUI] }) := by
  rcases h with h | ⟨h1, h2, h3⟩
  · simp [initializeUI, Method.bind, h]
  · simp [initializeUI, Method.bind, h1, loadFonts, setupTheme, getItem_apply, h2, h3]

theorem handleRouteChange_apply (change : RouteChange) (a : App) (st : StateManager)
    (hst : a.state = some st) :
    handleRouteChange change a =
      (.ok (), { a with currentRoute := some change.route,
                        state := some (st.update (.uiCurrentRoute change.recorded)) }) := by
  simp [handleRouteChange, stateUpdate, Method.bind, hst, RouteChange.recorded]

theorem routeChanged_apply (change : RouteChange) (a : App) (st : StateManager)
    (r : RouterEngine) (hst : a.state = some st) (hr : a.router = some r) :
    routeChanged change a =
      (.ok (), { a with currentRoute := some change.route,
                        state := some (st.update (.uiCurrentRoute change.recorded)) }) := by
  obtain ⟨callback, defaultRoute⟩ := r
  cases callback
  simp [routeChanged, Callback.run, handleRouteChange, stateUpdate, Method.bind, hst, hr,
    RouteChange.recorded]

theorem routeReported_ui (st st' : StateManager) (report : Option RouteChange)
    (h : st.ui = st'.ui) : (st.routeReported report).ui = (st'.routeReported report).ui := by
  cases report <;> simp [StateManager.routeReported, StateManager.update, h]

theorem initializeRouting_ok (env : Env) (a : App) (st : StateManager) (hst : a.state = some st)
    (h : env.routerInit = none) :
    initializeRouting env a =
      (.ok (), { a with router := some { onRouteChange := .handleRouteChange,
                                         defaultRoute := getDefaultRoute a },
                        currentRoute :=
                          (env.routerInitRoute.map RouteChange.route).orElse fun _ => a.currentRoute,
                        state := some (st.routeReported env.routerInitRoute),
                        trace := a.trace ++ [.enter .initializeRouting] }) := by
  cases hc : env.routerInitRoute <;>
    simp [initializeRouting, routeChanged, Callback.run, handleRouteChange, stateUpdate,
      Method.bind, h, hc, hst, getDefaultRoute, StateManager.routeReported, RouteChange.recorded]

theorem initializeRouting_error (env : Env) (a : App) (st : StateManager)
    (hst : a.state = some st) (e : JSError) (h : env.routerInit = some e) :
    initializeRouting env a =
      (.error e, { a with router := some { onRouteChange := .handleRouteChange,
                                           defaultRoute := getDefaultRoute a },
                          currentRoute :=
                            (env.routerInitRoute.map RouteChange.route).orElse fun _ => a.currentRoute,
                          state := some (st.routeReported env.routerInitRoute),
                          trace := a.trace ++ [.enter .initializeRouting] }) := by
  cases hc : env.routerInitRoute <;>
    simp [initializeRouting, routeChanged, Callback.run, handleRouteChange, stateUpdate,
      Method.bind, h, hc, hst, getDefaultRoute, StateManager.routeReported, RouteChange.recorded]

theorem setupSystemEvents_ok (a : App) (ls : List Listener) (h : a.events = some ls) :
    setupSystemEvents a =
      (.ok (), { a with
          events := some (ls ++ [.authLogin, .authLogout, .languageChanged, .themeChanged]),
          windowListeners := a.windowListeners ++ ["online", "offline"],
          trace := a.trace ++ [.enter .setupSystemEvents] }) := by
  simp [setupSystemEvents, Method.bind, eventsOn, h]

theorem loaderPrologue_none (a : App) (hu : a.currentUser = none) :
    loaderPrologue a =
      (.ok [], { a with trace := a.trace ++ [.enter .loadUserSpecificModules] }) := by
  simp [loaderPrologue, Method.bind, hu]

theorem loaderPrologue_descriptors (a : App) (u : User) (ds : List ModuleDescriptor)
    (hu : a.currentUser = some u) (hds : getModulesForRole u.role = .descriptors ds) :
    loaderPrologue a =
      (.ok ds, { a with trace := a.trace ++
        [.enter .loadUserSpecificModules, .loadingModulesFor u.role] }) := by
  simp [loaderPrologue, Method.bind, hu, hds]

theorem loaderPrologue_inherited (a : App) (u : User) (key : String)
    (hu : a.currentUser = some u) (hk : getModulesForRole u.role = .inherited key) :
    loaderPrologue a =
      (.error (typeError "modules is not iterable"), { a with trace := a.trace ++
        [.enter .loadUserSpecificModules, .loadingModulesFor u.role] }) := by
  simp [loaderPrologue, Method.bind, hu, hk]

theorem markAsInitialized_ok (env : Env) (a : App) (st : StateManager) (ls : List Listener)
    (hst : a.state = some st) (he : a.events = some ls) :
    markAsInitialized env a =
      (.ok (), { a with isInitialized := true, state := some (st.update (.appInitialized true)),
                        trace := a.trace ++ [.enter .markAsInitialized,
                          .emit "app:initialized" (.initialized env.now a.currentUser)] }) := by
  simp [markAsInitialized, Method.bind, stateUpdate_apply, eventsEmit, hst, he]

theorem handleCriticalError_spec (env : Env) (error : JSError) (a : App) :
    ∃ a', handleCriticalError env error a = (.ok (), a') ∧
      Quiet { a with trace := a.trace ++ [.handleCriticalError error, .showCriticalErrorScreen] } a' ∧
      KeepsCache a a' := by
  have ht : Total (detached (saveApplicationState env)) := total_tryCatch fun _ => total_observe _
  have hq : Preserves Quiet (detached (saveApplicationState env)) :=
    preserves_tryCatch quiet_trans (saveApplicationState_quiet env) fun _ => quiet_observe _ rfl rfl rfl
  have hk : Preserves KeepsCache (detached (saveApplicationState env)) :=
    preserves_tryCatch keepsCache_trans (saveApplicationState_keepsCache env)
      fun _ => keepsCache_observe _
  refine ⟨(detached (saveApplicationState env)
    { a with trace := a.trace ++ [.handleCriticalError error, .showCriticalErrorScreen] }).2,
    ?_, ?_, ?_⟩
  · have h := total_apply_eq ht
      { a with trace := a.trace ++ [.handleCriticalError error, .showCriticalErrorScreen] }
    simpa [handleCriticalError, showCriticalErrorScreen, Method.bind] using h
  · simpa using hq { a with trace := a.trace ++ [.handleCriticalError error, .showCriticalErrorScreen] }
  · exact hk { a with trace := a.trace ++ [.handleCriticalError error, .showCriticalErrorScreen] }

theorem tryCatch_error_eq {α : Type} {m : Method α} {h : JSError → Method α} {a a' : App}
    {e : JSError} {r : Except JSError α × App} (hm : m a = (.error e, a')) (hh : h e a' = r) :
    tryCatch m h a = r := by
  rw [tryCatch_error hm, hh]

theorem loadInitialData_spec (env : Env) (a : App) :
    ∃ a', loadInitialData env a = (.ok (), a') ∧
      Quiet { a with trace := a.trace ++ [.enter .loadInitialData] } a' :=
  ⟨_, total_apply_eq (loadInitialData_total env) a, loadInitialData_quiet env a⟩

theorem initializeServices_spec (env : Env) (a : App) :
    ∃ a', initializeServices env a = (.ok (), a') ∧
      Quiet { a with trace := a.trace ++ [.enter .initializeServices] } a' ∧ KeepsCache a a' :=
  ⟨_, total_apply_eq (initializeServices_total env) a, initializeServices_quiet env a,
    initializeServices_keepsCache env a⟩

theorem loadModules_spec (env : Env) (ds : List ModuleDescriptor) (a : App) :
    ∃ a', loadModules env ds a = (.ok (), a') ∧ Quiet a a' ∧ KeepsCache a a' :=
  ⟨_, total_apply_eq (loadModules_total env ds) a, loadModules_quiet env ds a,
    loadModules_keepsCache env ds a⟩

theorem loadUserSpecificModules_spec (env : Env) (a : App)
    (h : ∀ u, a.currentUser = some u → ∃ ds, getModulesForRole u.role = .descriptors ds) :
    ∃ a', loadUserSpecificModules env a = (.ok (), a') ∧
      Quiet { a with trace := a.trace ++ [.enter .loadUserSpecificModules] } a' ∧
      KeepsCache a a' := by
  unfold loadUserSpecificModules
  simp only [bind_eq]
  obtain hu | ⟨u, hu⟩ : a.currentUser = none ∨ ∃ u, a.currentUser = some u := by
    cases a.currentUser <;> simp
  · have hp := loaderPrologue_none a hu
    obtain ⟨a', h1, h2, h3⟩ := loadModules_spec env []
      { a with trace := a.trace ++ [.enter .loadUserSpecificModules] }
    exact ⟨a', by rw [Method.bind_ok hp, h1], h2, h3⟩
  · obtain ⟨ds, hds⟩ := h u hu
    have hp := loaderPrologue_descriptors a u ds hu hds
    obtain ⟨a', h1, h2, h3⟩ := loadModules_spec env ds
      { a with trace := a.trace ++ [.enter .loadUserSpecificModules, .loadingModulesFor u.role] }
    refine ⟨a', by rw [Method.bind_ok hp, h1], ?_, h3⟩
    refine quiet_trans _ _ _ ?_ h2
    exact ⟨rfl, id, rfl, rfl, rfl, rfl, rfl, rfl, rfl, by simp [phasesEntered],
      by simp [criticalErrors], rfl, by simp [emitted], rfl⟩

theorem loadUserSpecificModules_error (env : Env) (a : App) (u : User) (key : String)
    (hu : a.currentUser = some u) (hk : getModulesForRole u.role = .inherited key) :
    loadUserSpecificModules env a =
      (.error (typeError "modules is not iterable"), { a with trace := a.trace ++
        [.enter .loadUserSpecificModules, .loadingModulesFor u.role] }) := by
  unfold loadUserSpecificModules
  simp only [bind_eq]
  exact Method.bind_error (loaderPrologue_inherited a u key hu hk)

/-! ## Composing the phases -/

theorem exists_bind_of_eq {α β : Type} {m : Method α} {f : α → Method β} {a a' : App} {y : α}
    {r : Except JSError β} {Q : App → Prop} (h : m a = (.ok y, a'))
    (hk : ∃ b, f y a' = (r, b) ∧ Q b) : ∃ b, Method.bind m f a = (r, b) ∧ Q b := by
  rw [Method.bind_ok h]
  exact hk

theorem exists_bind_of_spec {α β : Type} {m : Method α} {f : α → Method β} {a : App} {y : α}
    {r : Except JSError β} {R Q : App → Prop} (h : ∃ a', m a = (.ok y, a') ∧ R a')
    (hk : ∀ a', R a' → ∃ b, f y a' = (r, b) ∧ Q b) : ∃ b, Method.bind m f a = (r, b) ∧ Q b := by
  obtain ⟨a', h1, h2⟩ := h
  rw [Method.bind_ok h1]
  exact hk a' h2

theorem exists_bind_of_error {α β : Type} {m : Method α} {f : α → Method β} {a a' : App}
    {e : JSError} {Q : App → Prop} (h : m a = (.error e, a')) (hq : Q a') :
    ∃ b, Method.bind m f a = (.error e, b) ∧ Q b :=
  ⟨a', Method.bind_error h, hq⟩

theorem exists_tryCatch_of_ok {α : Type} {m : Method α} {h : JSError → Method α} {a : App}
    {x : α} {Q : App → Prop} (hm : ∃ b, m a = (.ok x, b) ∧ Q b) :
    ∃ b, tryCatch m h a = (.ok x, b) ∧ Q b := by
  obtain ⟨b, h1, h2⟩ := hm
  exact ⟨b, tryCatch_ok h1, h2⟩

theorem exists_tryCatch_of_error {α : Type} {m : Method α} {h : JSError → Method α} {a : App}
    {e : JSError} {r : Except JSError α} {Q : App → Prop}
    (hm : ∃ a', m a = (.error e, a') ∧ ∃ b, h e a' = (r, b) ∧ Q b) :
    ∃ b, tryCatch m h a = (r, b) ∧ Q b := by
  obtain ⟨a', h1, b, h2, h3⟩ := hm
  exact ⟨b, by rw [tryCatch_error h1, h2], h3⟩

theorem startup_succeeds (env : Env) (a : App) (s : Session)
    (hc : env.compatibility.supported = true) (hs : env.storageInit = none)
    (ha : env.authInit = none) (hsess : env.checkCurrentSession = .ok s)
    (hrole : ∀ u, s.user = some u → ∃ ds, getModulesForRole u.role = .descriptors ds)
    (hcss : env.loadCSS = none) (htheme : env.getItemError "user_theme" = none)
    (hr : env.routerInit = none) :
    ∃ a', ClinicProApp.initialize env a = (.ok true, a') ∧ (a'.isInitialized = true ∧
      a'.storage = true ∧ a'.state.isSome = true ∧
      a'.events = some [.authLogin, .authLogout, .languageChanged, .themeChanged] ∧
      a'.notifications = true ∧ a'.router.isSome = true ∧
      a'.isAuthenticated = s.isAuthenticated ∧ a'.currentUser = s.user ∧
      phasesEntered a'.trace = phasesEntered a.trace ++
        [.checkBrowserCompatibility, .setupGlobalErrorHandling, .setupPerformanceTracking,
         .initializeCoreComponents, .loadInitialData, .initializeAuthentication, .initializeUI,
         .initializeRouting, .setupSystemEvents, .initializeServices, .loadUserSpecificModules,
         .markAsInitialized] ∧
      criticalErrors a'.trace = criticalErrors a.trace ∧
      a'.state.map StateManager.ui =
        some ((initialState env).routeReported env.routerInitRoute).ui ∧
      emitted a'.trace = emitted a.trace ++
        [("app:initialized", .initialized env.now s.user)] ∧
      a'.timers = a.timers ∧
      a'.state.map (fun st => st.app.initialized) = some true) := by
  unfold ClinicProApp.initialize
  simp only [bind_eq, pure_eq]
  refine exists_tryCatch_of_ok ?_
  refine exists_bind_of_eq (checkBrowserCompatibility_apply env a) ?_
  simp only [hc, Bool.not_true, Bool.false_eq_true, if_false]
  refine exists_bind_of_eq (Method.pure_apply _ _) ?_
  refine exists_bind_of_eq (setupGlobalErrorHandling_apply _) ?_
  refine exists_bind_of_eq (setupPerformanceTracking_apply _) ?_
  refine exists_bind_of_eq (initializeCoreComponents_ok env _ hs) ?_
  refine exists_bind_of_spec (loadInitialData_spec env _) fun a4 q4 => ?_
  obtain ⟨st4, hst4⟩ := Option.isSome_iff_exists.mp (q4.state rfl)
  refine exists_bind_of_eq (initializeAuthentication_ok env _ s ha hsess) ?_
  refine exists_bind_of_eq (initializeUI_ok env _ st4 hcss q4.storage hst4 htheme) ?_
  refine exists_bind_of_eq (initializeRouting_ok env _ _ rfl hr) ?_
  refine exists_bind_of_eq (setupSystemEvents_ok _ [] q4.events) ?_
  refine exists_bind_of_spec (initializeServices_spec env _) fun a9 q9 => ?_
  refine exists_bind_of_spec (loadUserSpecificModules_spec env a9 ?_) fun a10 q10 => ?_
  · intro u hu
    exact hrole u (by rw [← hu, q9.2.2])
  obtain ⟨st10, hst10⟩ := Option.isSome_iff_exists.mp (q10.1.state (q9.1.state rfl))
  refine exists_bind_of_eq (markAsInitialized_ok env _ st10 _ hst10
    (q10.1.events.trans q9.1.events)) ?_
  refine ⟨_, rfl, rfl, ?_, rfl, ?_, ?_, ?_, ?_, ?_, ?_, ?_, ?_, ?_, ?_, rfl⟩
  · exact (q10.1.storage.trans q9.1.storage).trans q4.storage
  · exact (q10.1.events.trans q9.1.events)
  · exact (q10.1.notifications.trans q9.1.notifications).trans q4.notifications
  · exact (congrArg Option.isSome (q10.1.router.trans q9.1.router)).trans rfl
  · exact q10.2.1.trans q9.2.1
  · exact q10.2.2.trans q9.2.2
  · have h1 := q10.1.phases
    have h2 := q9.1.phases
    have h3 := q4.phases
    simp [phasesEntered] at h1 h2 h3 ⊢
    simp [h1, h2, h3]
  · have h1 := q10.1.criticals
    have h2 := q9.1.criticals
    have h3 := q4.criticals
    simp [criticalErrors] at h1 h2 h3 ⊢
    simp [h1, h2, h3]
  · have h1 := q10.1.ui
    have h2 := q9.1.ui
    have h3 := q4.ui
    simp only [hst10, hst4, Option.map_some'] at h1 h2 h3 ⊢
    have h5 : (st10.update (.appInitialized true)).ui = st10.ui := rfl
    have h6 : (st4.update (.appTheme (orLight a4.store.userTheme))).ui = st4.ui := rfl
    rw [h5, h1, h2]
    exact congrArg some (routeReported_ui _ _ _ (h6.trans (Option.some.inj h3)))
  · have h1 := q10.1.emits
    have h2 := q9.1.emits
    have h3 := q4.emits
    have h4 : a10.currentUser = s.user := q10.2.2.trans q9.2.2
    simp [emitted] at h1 h2 h3 ⊢
    simp [h1, h2, h3, h4]
  · exact (q10.1.timers.trans q9.1.timers).trans q4.timers

theorem critical_handler (env : Env) (e : JSError) (a : App) {Q : App → Prop}
    (hQ : ∀ b, Quiet { a with trace := a.trace ++
      [.handleCriticalError e, .showCriticalErrorScreen] } b → KeepsCache a b → Q b) :
    ∃ b, (Method.bind (handleCriticalError env e) fun _ => Method.pure false) a = (.ok false, b)
      ∧ Q b := by
  obtain ⟨b, h1, h2, h3⟩ := handleCriticalError_spec env e a
  exact ⟨b, by rw [Method.bind_ok h1]; rfl, hQ b h2 h3⟩

theorem startup_fails_at_core (env : Env) (a : App) (e : JSError)
    (hc : env.compatibility.supported = true) (hs : env.storageInit = some e) :
    ∃ a', ClinicProApp.initialize env a = (.ok false, a') ∧
      (criticalErrors a'.trace = criticalErrors a.trace ++ [e] ∧
       phasesEntered a'.trace = phasesEntered a.trace ++
        [.checkBrowserCompatibility, .setupGlobalErrorHandling, .setupPerformanceTracking,
         .initializeCoreComponents] ∧
       a'.isInitialized = a.isInitialized ∧
       emitted a'.trace = emitted a.trace) := by
  unfold ClinicProApp.initialize
  simp only [bind_eq, pure_eq]
  refine exists_tryCatch_of_error (e := e) ?_
  refine exists_bind_of_eq (checkBrowserCompatibility_apply env a) ?_
  simp only [hc, Bool.not_true, Bool.false_eq_true, if_false]
  refine exists_bind_of_eq (Method.pure_apply _ _) ?_
  refine exists_bind_of_eq (setupGlobalErrorHandling_apply _) ?_
  refine exists_bind_of_eq (setupPerformanceTracking_apply _) ?_
  refine exists_bind_of_error (initializeCoreComponents_error env _ e hs) ?_
  refine critical_handler env e _ fun b qb _ => ⟨?_, ?_, qb.isInitialized, ?_⟩
  · simpa [criticalErrors] using qb.criticals
  · simpa [phasesEntered] using qb.phases
  · simpa [emitted] using qb.emits

theorem startup_fails_at_authentication (env : Env) (a : App) (e : JSError)
    (hc : env.compatibility.supported = true) (hs : env.storageInit = none)
    (ha : env.authInit = some e ∨ (env.authInit = none ∧ env.checkCurrentSession = .error e)) :
    ∃ a', ClinicProApp.initialize env a = (.ok false, a') ∧
      (criticalErrors a'.trace = criticalErrors a.trace ++ [e] ∧
       phasesEntered a'.trace = phasesEntered a.trace ++
        [.checkBrowserCompatibility, .setupGlobalErrorHandling, .setupPerformanceTracking,
         .initializeCoreComponents, .loadInitialData, .initializeAuthentication] ∧
       a'.isInitialized = a.isInitialized ∧
       emitted a'.trace = emitted a.trace) := by
  unfold ClinicProApp.initialize
  simp only [bind_eq, pure_eq]
  refine exists_tryCatch_of_error (e := e) ?_
  refine exists_bind_of_eq (checkBrowserCompatibility_apply env a) ?_
  simp only [hc, Bool.not_true, Bool.false_eq_true, if_false]
  refine exists_bind_of_eq (Method.pure_apply _ _) ?_
  refine exists_bind_of_eq (setupGlobalErrorHandling_apply _) ?_
  refine exists_bind_of_eq (setupPerformanceTracking_apply _) ?_
  refine exists_bind_of_eq (initializeCoreComponents_ok env _ hs) ?_
  refine exists_bind_of_spec (loadInitialData_spec env _) fun a4 q4 => ?_
  refine exists_bind_of_error (initializeAuthentication_error env _ e ha) ?_
  refine critical_handler env e _ fun b qb _ =>
    ⟨?_, ?_, qb.isInitialized.trans q4.isInitialized, ?_⟩
  · have h1 := qb.criticals
    have h2 := q4.criticals
    simp [criticalErrors] at h1 h2 ⊢
    simp [h1, h2]
  · have h1 := qb.phases
    have h2 := q4.phases
    simp [phasesEntered] at h1 h2 ⊢
    simp [h1, h2]
  · have h1 := qb.emits
    have h2 := q4.emits
    simp [emitted] at h1 h2 ⊢
    simp [h1, h2]

theorem startup_fails_at_ui (env : Env) (a : App) (s : Session) (e : JSError)
    (hc : env.compatibility.supported = true) (hs : env.storageInit = none)
    (ha : env.authInit = none) (hsess : env.checkCurrentSession = .ok s)
    (hui : env.loadCSS = some e ∨ (env.loadCSS = none ∧ env.getItemError "user_theme" = some e)) :
    ∃ a', ClinicProApp.initialize env a = (.ok false, a') ∧
      (criticalErrors a'.trace = criticalErrors a.trace ++ [e] ∧
       phasesEntered a'.trace = phasesEntered a.trace ++
        [.checkBrowserCompatibility, .setupGlobalErrorHandling, .setupPerformanceTracking,
         .initializeCoreComponents, .loadInitialData, .initializeAuthentication, .initializeUI] ∧
       a'.isInitialized = a.isInitialized ∧
       emitted a'.trace = emitted a.trace) := by
  unfold ClinicProApp.initialize
  simp only [bind_eq, pure_eq]
  refine exists_tryCatch_of_error (e := e) ?_
  refine exists_bind_of_eq (checkBrowserCompatibility_apply env a) ?_
  simp only [hc, Bool.not_true, Bool.false_eq_true, if_false]
  refine exists_bind_of_eq (Method.pure_apply _ _) ?_
  refine exists_bind_of_eq (setupGlobalErrorHandling_apply _) ?_
  refine exists_bind_of_eq (setupPerformanceTracking_apply _) ?_
  refine exists_bind_of_eq (initializeCoreComponents_ok env _ hs) ?_
  refine exists_bind_of_spec (loadInitialData_spec env _) fun a4 q4 => ?_
  refine exists_bind_of_eq (initializeAuthentication_ok env _ s ha hsess) ?_
  refine exists_bind_of_error (initializeUI_error env _ e ?_) ?_
  · rcases hui with h | ⟨h1, h2⟩
    · exact Or.inl h
    · exact Or.inr ⟨h1, q4.storage, h2⟩
  refine critical_handler env e _ fun b qb _ =>
    ⟨?_, ?_, qb.isInitialized.trans q4.isInitialized, ?_⟩
  · have h1 := qb.criticals
    have h2 := q4.criticals
    simp [criticalErrors] at h1 h2 ⊢
    simp [h1, h2]
  · have h1 := qb.phases
    have h2 := q4.phases
    simp [phasesEntered] at h1 h2 ⊢
    simp [h1, h2]
  · have h1 := qb.emits
    have h2 := q4.emits
    simp [emitted] at h1 h2 ⊢
    simp [h1, h2]

theorem startup_fails_at_routing (env : Env) (a : App) (s : Session) (e : JSError)
    (hc : env.compatibility.supported = true) (hs : env.storageInit = none)
    (ha : env.authInit = none) (hsess : env.checkCurrentSession = .ok s)
    (hcss : env.loadCSS = none) (htheme : env.getItemError "user_theme" = none)
    (hr : env.routerInit = some e) :
    ∃ a', ClinicProApp.initialize env a = (.ok false, a') ∧
      (criticalErrors a'.trace = criticalErrors a.trace ++ [e] ∧
       phasesEntered a'.trace = phasesEntered a.trace ++
        [.checkBrowserCompatibility, .setupGlobalErrorHandling, .setupPerformanceTracking,
         .initializeCoreComponents, .loadInitialData, .initializeAuthentication, .initializeUI,
         .initializeRouting] ∧
       a'.isInitialized = a.isInitialized ∧
       emitted a'.trace = emitted a.trace) := by
  unfold ClinicProApp.initialize
  simp only [bind_eq, pure_eq]
  refine exists_tryCatch_of_error (e := e) ?_
  refine exists_bind_of_eq (checkBrowserCompatibility_apply env a) ?_
  simp only [hc, Bool.not_true, Bool.false_eq_true, if_false]
  refine exists_bind_of_eq (Method.pure_apply _ _) ?_
  refine exists_bind_of_eq (setupGlobalErrorHandling_apply _) ?_
  refine exists_bind_of_eq (setupPerformanceTracking_apply _) ?_
  refine exists_bind_of_eq (initializeCoreComponents_ok env _ hs) ?_
  refine exists_bind_of_spec (loadInitialData_spec env _) fun a4 q4 => ?_
  obtain ⟨st4, hst4⟩ := Option.isSome_iff_exists.mp (q4.state rfl)
  refine exists_bind_of_eq (initializeAuthentication_ok env _ s ha hsess) ?_
  refine exists_bind_of_eq (initializeUI_ok env _ st4 hcss q4.storage hst4 htheme) ?_
  refine exists_bind_of_error (initializeRouting_error env _ _ rfl e hr) ?_
  refine critical_handler env e _ fun b qb _ =>
    ⟨?_, ?_, qb.isInitialized.trans q4.isInitialized, ?_⟩
  · have h1 := qb.criticals
    have h2 := q4.criticals
    simp [criticalErrors] at h1 h2 ⊢
    simp [h1, h2]
  · have h1 := qb.phases
    have h2 := q4.phases
    simp [phasesEntered] at h1 h2 ⊢
    simp [h1, h2]
  · have h1 := qb.emits
    have h2 := q4.emits
    simp [emitted] at h1 h2 ⊢
    simp [h1, h2]

theorem startup_fails_at_modules (env : Env) (a : App) (s : Session) (u : User) (key : String)
    (hc : env.compatibility.supported = true) (hs : env.storageInit = none)
    (ha : env.authInit = none) (hsess : env.checkCurrentSession = .ok s)
    (hu : s.user = some u) (hk : getModulesForRole u.role = .inherited key)
    (hcss : env.loadCSS = none) (htheme : env.getItemError "user_theme" = none)
    (hr : env.routerInit = none) :
    ∃ a', ClinicProApp.initialize env a = (.ok false, a') ∧
      (criticalErrors a'.trace = criticalErrors a.trace ++ [typeError "modules is not iterable"] ∧
       phasesEntered a'.trace = phasesEntered a.trace ++
        [.checkBrowserCompatibility, .setupGlobalErrorHandling, .setupPerformanceTracking,
         .initializeCoreComponents, .loadInitialData, .initializeAuthentication, .initializeUI,
         .initializeRouting, .setupSystemEvents, .initializeServices, .loadUserSpecificModules] ∧
       a'.isInitialized = a.isInitialized ∧
       emitted a'.trace = emitted a.trace) := by
  unfold ClinicProApp.initialize
  simp only [bind_eq, pure_eq]
  refine exists_tryCatch_of_error (e := typeError "modules is not iterable") ?_
  refine exists_bind_of_eq (checkBrowserCompatibility_apply env a) ?_
  simp only [hc, Bool.not_true, Bool.false_eq_true, if_false]
  refine exists_bind_of_eq (Method.pure_apply _ _) ?_
  refine exists_bind_of_eq (setupGlobalErrorHandling_apply _) ?_
  refine exists_bind_of_eq (setupPerformanceTracking_apply _) ?_
  refine exists_bind_of_eq (initializeCoreComponents_ok env _ hs) ?_
  refine exists_bind_of_spec (loadInitialData_spec env _) fun a4 q4 => ?_
  obtain ⟨st4, hst4⟩ := Option.isSome_iff_exists.mp (q4.state rfl)
  refine exists_bind_of_eq (initializeAuthentication_ok env _ s ha hsess) ?_
  refine exists_bind_of_eq (initializeUI_ok env _ st4 hcss q4.storage hst4 htheme) ?_
  refine exists_bind_of_eq (initializeRouting_ok env _ _ rfl hr) ?_
  refine exists_bind_of_eq (setupSystemEvents_ok _ [] q4.events) ?_
  refine exists_bind_of_spec (initializeServices_spec env _) fun a9 q9 => ?_
  refine exists_bind_of_error (loadUserSpecificModules_error env a9 u key
    (q9.2.2.trans hu) hk) ?_
  refine critical_handler env _ _ fun b qb _ =>
    ⟨?_, ?_, (qb.isInitialized.trans q9.1.isInitialized).trans q4.isInitialized, ?_⟩
  · have h1 := qb.criticals
    have h2 := q9.1.criticals
    have h3 := q4.criticals
    simp [criticalErrors] at h1 h2 h3 ⊢
    simp [h1, h2, h3]
  · have h1 := qb.phases
    have h2 := q9.1.phases
    have h3 := q4.phases
    simp [phasesEntered] at h1 h2 h3 ⊢
    simp [h1, h2, h3]
  · have h1 := qb.emits
    have h2 := q9.1.emits
    have h3 := q4.emits
    simp [emitted] at h1 h2 h3 ⊢
    simp [h1, h2, h3]

/-! ## The module loader, item by item -/

@[simp] theorem importsAttempted_append (t u : List Effect) :
    importsAttempted (t ++ u) = importsAttempted t ++ importsAttempted u := by
  simp [importsAttempted]

@[simp] theorem navigations_append (t u : List Effect) :
    navigations (t ++ u) = navigations t ++ navigations u := by
  simp [navigations]

theorem mapSet_of_not_mem {β : Type} (m : List (String × β)) (key : String) (value : β)
    (h : key ∉ mapKeys m) : mapSet m key value = m ++ [(key, value)] := by
  have hany : (m.any fun kv => kv.1 == key) = false := by
    rw [Bool.eq_false_iff]
    intro hc
    rw [List.any_eq_true] at hc
    obtain ⟨kv, hkv, hk⟩ := hc
    exact h (List.mem_map.mpr ⟨kv, hkv, by simpa using hk⟩)
  simp [mapSet, hany]

theorem mapKeys_append {β : Type} (m n : List (String × β)) :
    mapKeys (m ++ n) = mapKeys m ++ mapKeys n := by
  simp [mapKeys]

/-- One turn of the loader loop, by the outcome of the import and of the
module's own `initialize`. -/
theorem loadModule_apply (env : Env) (d : ModuleDescriptor) (a : App) :
    loadModule env d a =
      match env.moduleLoad d.path, env.moduleInit d.path with
      | some e, _ =>
        (.ok (), { a with trace := a.trace ++
          [.dynamicImport ("./modules/" ++ d.path ++ ".js"),
           .warn ("Failed to load module: " ++ d.name) e] })
      | none, some e =>
        (.ok (), { a with
          modules := mapSet a.modules d.name ⟨d.path, a.currentUser⟩,
          trace := a.trace ++
            [.dynamicImport ("./modules/" ++ d.path ++ ".js"),
             .warn ("Failed to load module: " ++ d.name) e] })
      | none, none =>
        (.ok (), { a with
          modules := mapSet a.modules d.name ⟨d.path, a.currentUser⟩,
          trace := a.trace ++
            [.dynamicImport ("./modules/" ++ d.path ++ ".js"), .loaded d.name] }) := by
  cases h1 : env.moduleLoad d.path <;> cases h2 : env.moduleInit d.path <;>
    simp [loadModule, tryCatch, Method.bind, h1, h2]

theorem loadModule_keys (env : Env) (d : ModuleDescriptor) (a : App)
    (h : d.name ∉ mapKeys a.modules) :
    mapKeys (loadModule env d a).2.modules =
      mapKeys a.modules ++ if (env.moduleLoad d.path).isNone then [d.name] else [] := by
  rw [loadModule_apply]
  cases h1 : env.moduleLoad d.path <;> cases h2 : env.moduleInit d.path <;>
    simp [mapSet_of_not_mem _ _ _ h, mapKeys]

theorem loadModule_imports (env : Env) (d : ModuleDescriptor) (a : App) :
    importsAttempted (loadModule env d a).2.trace =
      importsAttempted a.trace ++ ["./modules/" ++ d.path ++ ".js"] := by
  rw [loadModule_apply]
  cases h1 : env.moduleLoad d.path <;> cases h2 : env.moduleInit d.path <;>
    simp [importsAttempted]

theorem loadModules_cons (env : Env) (d : ModuleDescriptor) (ds : List ModuleDescriptor)
    (a : App) : loadModules env (d :: ds) a = loadModules env ds (loadModule env d a).2 := by
  have h := total_apply_eq (loadModule_total env d) a
  show Method.bind (loadModule env d) (fun _ => forEach ds (loadModule env)) a = _
  rw [Method.bind_ok h]
  rfl

theorem loadModules_keys (env : Env) (ds : List ModuleDescriptor) :
    ∀ a : App, (ds.map ModuleDescriptor.name).Nodup →
      (∀ d ∈ ds, d.name ∉ mapKeys a.modules) →
      mapKeys (loadModules env ds a).2.modules =
        mapKeys a.modules ++
          (ds.filter fun d => (env.moduleLoad d.path).isNone).map ModuleDescriptor.name := by
  induction ds with
  | nil => intro a _ _; simp [loadModules, forEach]
  | cons d ds ih =>
    intro a hnd hfresh
    rw [loadModules_cons]
    have hd : d.name ∉ mapKeys a.modules := hfresh d (List.mem_cons_self _ _)
    have hkeys := loadModule_keys env d a hd
    rw [List.map_cons, List.nodup_cons] at hnd
    rw [ih _ hnd.2, hkeys]
    · cases h1 : (env.moduleLoad d.path).isNone <;> simp [List.filter, h1]
    · intro d' hd' hmem
      rw [hkeys] at hmem
      rcases List.mem_append.mp hmem with hmem | hmem
      · exact hfresh d' (List.mem_cons_of_mem _ hd') hmem
      · split at hmem
        · simp at hmem
          exact hnd.1 (hmem ▸ List.mem_map_of_mem _ hd')
        · simp at hmem

theorem loadModules_imports (env : Env) (ds : List ModuleDescriptor) :
    ∀ a : App, importsAttempted (loadModules env ds a).2.trace =
      importsAttempted a.trace ++ ds.map fun d => "./modules/" ++ d.path ++ ".js" := by
  induction ds with
  | nil => intro a; simp [loadModules, forEach]
  | cons d ds ih =>
    intro a
    rw [loadModules_cons, ih, loadModule_imports]
    simp

theorem table_names_nodup (role : String) (ds : List ModuleDescriptor)
    (h : modulesMap.lookup role = some ds) : (ds.map ModuleDescriptor.name).Nodup := by
  simp only [modulesMap, List.lookup] at h
  repeat' split at h
  all_goals first
    | (cases h; decide)
    | simp at h

theorem getModulesForRole_of_lookup (role : String) (ds : List ModuleDescriptor)
    (h : modulesMap.lookup role = some ds) : getModulesForRole (some role) = .descriptors ds := by
  simp [getModulesForRole, propertyKey, h]

/-! ## The authentication events -/

theorem startModuleLoader_descriptors (a : App) (u : User) (ds : List ModuleDescriptor)
    (hu : a.currentUser = some u) (hds : getModulesForRole u.role = .descriptors ds) :
    startModuleLoader a =
      (.ok (), { a with pending := a.pending ++ [ds],
                        trace := a.trace ++
                          [.enter .loadUserSpecificModules, .loadingModulesFor u.role] }) := by
  unfold startModuleLoader detached
  simp only [bind_eq]
  refine tryCatch_ok ?_
  rw [Method.bind_ok (loaderPrologue_descriptors a u ds hu hds)]
  rfl

theorem startModuleLoader_inherited (a : App) (u : User) (key : String)
    (hu : a.currentUser = some u) (hk : getModulesForRole u.role = .inherited key) :
    startModuleLoader a =
      (.ok (), { a with trace := a.trace ++
        [.enter .loadUserSpecificModules, .loadingModulesFor u.role,
         .unhandledRejection (typeError "modules is not iterable")] }) := by
  unfold startModuleLoader detached
  simp only [bind_eq]
  rw [tryCatch_error (Method.bind_error (loaderPrologue_inherited a u key hu hk))]
  simp

theorem forEach_singleton {α : Type} (x : α) (body : α → Method Unit) (a : App) :
    forEach [x] body a = body x a := by
  simp only [forEach, Method.bind]
  rcases body x a with ⟨r, a'⟩
  cases r <;> rfl

theorem stateUpdate_ok (w : StateWrite) (a : App) (st : StateManager) (h : a.state = some st) :
    stateUpdate w a = (.ok (), { a with state := some (st.update w) }) := by
  rw [stateUpdate_apply]
  simp only [h]

theorem routerNavigate_ok (path : String) (a : App) (r : RouterEngine) (h : a.router = some r) :
    routerNavigate path a = (.ok (), { a with trace := a.trace ++ [.navigate path] }) := by
  simp [routerNavigate, Method.bind, h]

theorem handleAuthStateChange_login (a : App) (u : User) (st : StateManager) (r : RouterEngine)
    (hst : a.state = some st) (hr : a.router = some r) :
    handleAuthStateChange { isAuthenticated := true, user := some u } a =
      (.ok (), { a with
        isAuthenticated := true, currentUser := some u,
        state := some (st.update (.auth true (some u) (u.permissions.getD []))),
        pending := match getModulesForRole u.role with
          | .descriptors ds => a.pending ++ [ds]
          | .inherited _ => a.pending,
        trace := a.trace ++ [.enter .loadUserSpecificModules, .loadingModulesFor u.role] ++
          (match getModulesForRole u.role with
            | .descriptors _ => []
            | .inherited _ => [.unhandledRejection (typeError "modules is not iterable")]) ++
          [.navigate "/"] }) := by
  unfold handleAuthStateChange
  simp only [bind_eq, pure_eq]
  rw [Method.bind_ok (assign_apply _ a)]
  rw [Method.bind_ok (stateUpdate_ok _
    { a with isAuthenticated := true, currentUser := some u } st hst)]
  simp only [if_true, Option.bind_some]
  rw [Method.bind_ok (Method.pure_apply _ _)]
  cases hm : getModulesForRole u.role with
  | descriptors ds =>
    rw [Method.bind_ok (startModuleLoader_descriptors _ u ds (by rfl) hm)]
    rw [Method.bind_ok (getThis_apply _)]
    refine (routerNavigate_ok _ _ r ?_).trans ?_
    · exact hr
    · simp [getDefaultRoute]
  | inherited key =>
    rw [Method.bind_ok (startModuleLoader_inherited _ u key (by rfl) hm)]
    rw [Method.bind_ok (getThis_apply _)]
    refine (routerNavigate_ok _ _ r ?_).trans ?_
    · exact hr
    · simp [getDefaultRoute]

theorem handleAuthStateChange_logout (a : App) (st : StateManager) (r : RouterEngine)
    (hst : a.state = some st) (hr : a.router = some r) :
    handleAuthStateChange { isAuthenticated := false, user := none } a =
      (.ok (), { a with
        isAuthenticated := false, currentUser := none,
        state := some (st.update (.auth false none [])),
        modules := [],
        trace := a.trace ++ [.navigate "/login"] }) := by
  unfold handleAuthStateChange
  simp only [bind_eq, pure_eq]
  rw [Method.bind_ok (assign_apply _ a)]
  rw [Method.bind_ok (stateUpdate_ok _
    { a with isAuthenticated := false, currentUser := none } st hst)]
  simp only [Bool.false_eq_true, if_false]
  rw [Method.bind_ok (assign_apply _ _)]
  exact routerNavigate_ok _ _ r hr

theorem publish_login (env : Env) (a : App) (u : User)
    (hev : a.events = some [.authLogin, .authLogout, .languageChanged, .themeChanged]) :
    publish env "auth:login" (.user u) a =
      handleAuthStateChange { isAuthenticated := true, user := some u }
        { a with trace := a.trace ++ [.emit "auth:login" (.user u)] } := by
  unfold publish
  simp only [bind_eq]
  rw [Method.bind_ok (getThis_apply a)]
  simp only [hev]
  rw [Method.bind_ok (observe_apply _ _)]
  have hf : ([Listener.authLogin, .authLogout, .languageChanged, .themeChanged].filter
      fun l => decide (l.event = "auth:login")) = [.authLogin] := by decide
  rw [hf, forEach_singleton, hev]
  rfl

theorem publish_logout (env : Env) (a : App) (data : Payload)
    (hev : a.events = some [.authLogin, .authLogout, .languageChanged, .themeChanged]) :
    publish env "auth:logout" data a =
      handleAuthStateChange { isAuthenticated := false, user := none }
        { a with trace := a.trace ++ [.emit "auth:logout" data] } := by
  unfold publish
  simp only [bind_eq]
  rw [Method.bind_ok (getThis_apply a)]
  simp only [hev]
  rw [Method.bind_ok (observe_apply _ _)]
  have hf : ([Listener.authLogin, .authLogout, .languageChanged, .themeChanged].filter
      fun l => decide (l.event = "auth:logout")) = [.authLogout] := by decide
  rw [hf, forEach_singleton, hev]
  cases data <;> rfl

/-! ## What a completed startup leaves behind -/

theorem startup_unsupported (env : Env) (a : App) (hc : env.compatibility.supported = false) :
    ClinicProApp.initialize env a =
      (.ok false, { a with trace := a.trace ++ [.enter .checkBrowserCompatibility,
        .showCompatibilityWarning env.compatibility.issues] }) := by
  unfold ClinicProApp.initialize
  simp only [bind_eq, pure_eq]
  refine tryCatch_ok ?_
  rw [Method.bind_ok (checkBrowserCompatibility_apply env a)]
  simp [hc, Method.bind, showCompatibilityWarning]

/-- What holds of the orchestrator whenever `initialize()` has resolved to `true`. -/
theorem startup_true_inv (env : Env) (a a' : App)
    (h : ClinicProApp.initialize env a = (.ok true, a')) :
    a'.isInitialized = true ∧ a'.storage = true ∧ a'.state.isSome = true ∧
      a'.events = some [.authLogin, .authLogout, .languageChanged, .themeChanged] ∧
      a'.notifications = true ∧ a'.router.isSome = true ∧
      (∃ s, env.checkCurrentSession = .ok s ∧ a'.isAuthenticated = s.isAuthenticated ∧
        a'.currentUser = s.user) ∧
      phasesEntered a'.trace = phasesEntered a.trace ++
        [.checkBrowserCompatibility, .setupGlobalErrorHandling, .setupPerformanceTracking,
         .initializeCoreComponents, .loadInitialData, .initializeAuthentication, .initializeUI,
         .initializeRouting, .setupSystemEvents, .initializeServices, .loadUserSpecificModules,
         .markAsInitialized] ∧
      criticalErrors a'.trace = criticalErrors a.trace ∧
      a'.state.map StateManager.ui =
        some ((initialState env).routeReported env.routerInitRoute).ui ∧
      (∃ s, env.checkCurrentSession = .ok s ∧ emitted a'.trace = emitted a.trace ++
        [("app:initialized", .initialized env.now s.user)]) ∧
      a'.timers = a.timers ∧
      a'.state.map (fun st => st.app.initialized) = some true := by
  have absurd_of : ∀ {P : App → Prop},
      (∃ b, ClinicProApp.initialize env a = (.ok false, b) ∧ P b) → False := by
    intro P ⟨b, hb, _⟩
    rw [hb] at h
    simp at h
  cases hc : env.compatibility.supported with
  | false =>
    rw [startup_unsupported env a hc] at h
    simp at h
  | true =>
  cases hs : env.storageInit with
  | some e => exact (absurd_of (startup_fails_at_core env a e hc hs)).elim
  | none =>
  cases ha : env.authInit with
  | some e => exact (absurd_of (startup_fails_at_authentication env a e hc hs (Or.inl ha))).elim
  | none =>
  cases hsess : env.checkCurrentSession with
  | error e =>
    exact (absurd_of (startup_fails_at_authentication env a e hc hs (Or.inr ⟨ha, hsess⟩))).elim
  | ok s =>
  cases hcss : env.loadCSS with
  | some e => exact (absurd_of (startup_fails_at_ui env a s e hc hs ha hsess (Or.inl hcss))).elim
  | none =>
  cases htheme : env.getItemError "user_theme" with
  | some e =>
    exact (absurd_of (startup_fails_at_ui env a s e hc hs ha hsess (Or.inr ⟨hcss, htheme⟩))).elim
  | none =>
  cases hr : env.routerInit with
  | some e =>
    exact (absurd_of (startup_fails_at_routing env a s e hc hs ha hsess hcss htheme hr)).elim
  | none =>
  by_cases hrole : ∀ u, s.user = some u → ∃ ds, getModulesForRole u.role = .descriptors ds
  · obtain ⟨b, hb, h1, h2, h3, h4, h5, h6, h7, h8, h9, h10, h11, h12, h13, h14⟩ :=
      startup_succeeds env a s hc hs ha hsess hrole hcss htheme hr
    rw [hb] at h
    cases h
    exact ⟨h1, h2, h3, h4, h5, h6, ⟨s, rfl, h7, h8⟩, h9, h10, h11, ⟨s, rfl, h12⟩, h13, h14⟩
  · push_neg at hrole
    obtain ⟨u, hu, hnot⟩ := hrole
    cases hk : getModulesForRole u.role with
    | descriptors ds => exact (hnot ds hk).elim
    | inherited key =>
      exact (absurd_of
        (startup_fails_at_modules env a s u key hc hs ha hsess hu hk hcss htheme hr)).elim

/-! ## The startup sequence: which failures abort it -/

/-- C1: when the compatibility check reports supported and `storage.initialize()`
raises inside `initializeCoreComponents`, `initialize()` resolves to `false`,
`handleCriticalError` is called with that error, and the only startup methods
entered are the four up to `initializeCoreComponents`: `loadInitialData`,
`initializeAuthentication`, `initializeUI`, `initializeRouting`,
`setupSystemEvents`, `initializeServices`, `loadUserSpecificModules` and
`markAsInitialized` do not run, and `isInitialized` is left as it was. -/
theorem store_failure_aborts_startup (env : Env) (a : App) (e : JSError)
    (hc : env.compatibility.supported = true) (hs : env.storageInit = some e) :
    ∃ a', ClinicProApp.initialize env a = (.ok false, a') ∧
      criticalErrors a'.trace = criticalErrors a.trace ++ [e] ∧
      phasesEntered a'.trace = phasesEntered a.trace ++
        [.checkBrowserCompatibility, .setupGlobalErrorHandling, .setupPerformanceTracking,
         .initializeCoreComponents] ∧
      a'.isInitialized = a.isInitialized := by
  obtain ⟨a', h, hcrit, hphases, hinit, -⟩ := startup_fails_at_core env a e hc hs
  exact ⟨a', h, hcrit, hphases, hinit⟩

/-- Witness of C1: a start on a new orchestrator whose store cannot be opened. -/
theorem store_failure_aborts_startup_witness :
    ∃ a', ClinicProApp.initialize Env.storeFails (ClinicProApp.new Store.empty) = (.ok false, a') ∧
      criticalErrors a'.trace = criticalErrors (ClinicProApp.new Store.empty).trace ++
        [⟨"InvalidStateError", "database unavailable"⟩] ∧
      phasesEntered a'.trace = phasesEntered (ClinicProApp.new Store.empty).trace ++
        [.checkBrowserCompatibility, .setupGlobalErrorHandling, .setupPerformanceTracking,
         .initializeCoreComponents] ∧
      a'.isInitialized = (ClinicProApp.new Store.empty).isInitialized :=
  store_failure_aborts_startup Env.storeFails (ClinicProApp.new Store.empty)
    ⟨"InvalidStateError", "database unavailable"⟩ rfl rfl

/-- C2, as stated, fails for `initializeUI`: when only `loadCSS` raises, on a new
orchestrator, `initialize()` resolves to `false`, `handleCriticalError` is called
with the error of `loadCSS`, no startup method after `initializeUI` is entered and
`isInitialized` stays `false`. -/
theorem stylesheet_failure_aborts_startup :
    ( ClinicProApp.initialize Env.stylesheetFails (ClinicProApp.new Store.empty)).1 = .ok false ∧
    criticalErrors ( ClinicProApp.initialize Env.stylesheetFails
      (ClinicProApp.new Store.empty)).2.trace = [⟨"Error", "Failed to load CSS"⟩] ∧
    phasesEntered ( ClinicProApp.initialize Env.stylesheetFails
      (ClinicProApp.new Store.empty)).2.trace =
        [.checkBrowserCompatibility, .setupGlobalErrorHandling, .setupPerformanceTracking,
         .initializeCoreComponents, .loadInitialData, .initializeAuthentication,
         .initializeUI] ∧
    ( ClinicProApp.initialize Env.stylesheetFails
      (ClinicProApp.new Store.empty)).2.isInitialized = false :=
  ⟨rfl, by decide, by decide, rfl⟩

/-- C2, amended: let the compatibility check, the core components, the session
manager and the route engine succeed and the role of the user have a module list.
If `initializeUI` succeeds too, then whatever `storage.getItem` and
`storage.setItem` do in `loadInitialData`, whichever services fail to load and
whichever modules fail to load or to start, `initialize()` resolves to `true` with
`isInitialized` set, all twelve startup methods are entered in order and
`handleCriticalError` is not called. If `loadCSS` or the theme read of `setupTheme`
raises in `initializeUI`, the error is not caught there: `initialize()` resolves to
`false`, `handleCriticalError` is called with it and no later method is entered. -/
theorem degraded_phases_do_not_abort_startup (env : Env) (a : App) (s : Session)
    (hc : env.compatibility.supported = true) (hs : env.storageInit = none)
    (ha : env.authInit = none) (hsess : env.checkCurrentSession = .ok s)
    (hrole : ∀ u, s.user = some u → ∃ ds, getModulesForRole u.role = .descriptors ds)
    (hr : env.routerInit = none) :
    (env.loadCSS = none → env.getItemError "user_theme" = none →
      ∃ a', ClinicProApp.initialize env a = (.ok true, a') ∧ a'.isInitialized = true ∧
        phasesEntered a'.trace = phasesEntered a.trace ++
          [.checkBrowserCompatibility, .setupGlobalErrorHandling, .setupPerformanceTracking,
           .initializeCoreComponents, .loadInitialData, .initializeAuthentication,
           .initializeUI, .initializeRouting, .setupSystemEvents, .initializeServices,
           .loadUserSpecificModules, .markAsInitialized] ∧
        criticalErrors a'.trace = criticalErrors a.trace) ∧
    (∀ e, (env.loadCSS = some e ∨
        (env.loadCSS = none ∧ env.getItemError "user_theme" = some e)) →
      ∃ a', ClinicProApp.initialize env a = (.ok false, a') ∧
        criticalErrors a'.trace = criticalErrors a.trace ++ [e] ∧
        phasesEntered a'.trace = phasesEntered a.trace ++
          [.checkBrowserCompatibility, .setupGlobalErrorHandling, .setupPerformanceTracking,
           .initializeCoreComponents, .loadInitialData, .initializeAuthentication,
           .initializeUI] ∧
        a'.isInitialized = a.isInitialized) := by
  constructor
  · intro hcss htheme
    obtain ⟨a', h, hi, -, -, -, -, -, -, -, hp, hcrit, -⟩ :=
      startup_succeeds env a s hc hs ha hsess hrole hcss htheme hr
    exact ⟨a', h, hi, hp, hcrit⟩
  · intro e hui
    obtain ⟨a', h, hcrit, hp, hi, -⟩ := startup_fails_at_ui env a s e hc hs ha hsess hui
    exact ⟨a', h, hcrit, hp, hi⟩

/-- Witness of C2, amended: a start in which every store access of
`loadInitialData`, every service and two modules fail, and a start in which the
style sheets fail to load. -/
theorem degraded_phases_do_not_abort_startup_witness :
    (∃ a', ClinicProApp.initialize Env.degraded (ClinicProApp.new Store.empty) = (.ok true, a') ∧
        a'.isInitialized = true ∧
        phasesEntered a'.trace = phasesEntered (ClinicProApp.new Store.empty).trace ++
          [.checkBrowserCompatibility, .setupGlobalErrorHandling, .setupPerformanceTracking,
           .initializeCoreComponents, .loadInitialData, .initializeAuthentication,
           .initializeUI, .initializeRouting, .setupSystemEvents, .initializeServices,
           .loadUserSpecificModules, .markAsInitialized] ∧
        criticalErrors a'.trace = criticalErrors (ClinicProApp.new Store.empty).trace) ∧
    (∃ a', ClinicProApp.initialize Env.stylesheetFails (ClinicProApp.new Store.empty) =
        (.ok false, a') ∧
        criticalErrors a'.trace = criticalErrors (ClinicProApp.new Store.empty).trace ++
          [⟨"Error", "Failed to load CSS"⟩] ∧
        phasesEntered a'.trace = phasesEntered (ClinicProApp.new Store.empty).trace ++
          [.checkBrowserCompatibility, .setupGlobalErrorHandling, .setupPerformanceTracking,
           .initializeCoreComponents, .loadInitialData, .initializeAuthentication,
           .initializeUI] ∧
        a'.isInitialized = (ClinicProApp.new Store.empty).isInitialized) :=
  ⟨(degraded_phases_do_not_abort_startup Env.degraded (ClinicProApp.new Store.empty)
      { isAuthenticated := true, user := some sampleDoctor } rfl rfl rfl rfl
      (fun u hu => by cases hu; exact ⟨_, rfl⟩) rfl).1 rfl rfl,
   (degraded_phases_do_not_abort_startup Env.stylesheetFails (ClinicProApp.new Store.empty)
      { isAuthenticated := false, user := none } rfl rfl rfl rfl
      (fun u hu => by cases hu) rfl).2 ⟨"Error", "Failed to load CSS"⟩ (Or.inl rfl)⟩

/-- C3, as stated, fails: when only `auth.initialize()` raises, on a new
orchestrator, `initialize()` resolves to `false` and `handleCriticalError` is
called with that error; and likewise when only `router.initialize()` raises. -/
theorem session_manager_failure_aborts_startup :
    (( ClinicProApp.initialize Env.sessionManagerFails (ClinicProApp.new Store.empty)).1 =
        .ok false ∧
      criticalErrors ( ClinicProApp.initialize Env.sessionManagerFails
        (ClinicProApp.new Store.empty)).2.trace = [⟨"Error", "auth unavailable"⟩]) ∧
    (( ClinicProApp.initialize Env.routerFails (ClinicProApp.new Store.empty)).1 = .ok false ∧
      criticalErrors ( ClinicProApp.initialize Env.routerFails
        (ClinicProApp.new Store.empty)).2.trace = [⟨"Error", "no route table"⟩]) :=
  ⟨⟨rfl, by decide⟩, ⟨rfl, by decide⟩⟩

/-- C3, amended: with the compatibility check and the core components
succeeding, an error raised by `auth.initialize()` or by
`auth.checkCurrentSession()` is not caught in `initializeAuthentication`, and,
with the phases before it succeeding, an error raised by `router.initialize()` is
not caught in `initializeRouting`: it reaches the `catch` of `initialize()`, so
`handleCriticalError` is called with it, no later startup method is entered and
`initialize()` resolves to `false`. -/
theorem session_manager_and_router_failures_abort_startup (env : Env) (a : App) (e : JSError)
    (hc : env.compatibility.supported = true) (hs : env.storageInit = none) :
    ((env.authInit = some e ∨ (env.authInit = none ∧ env.checkCurrentSession = .error e)) →
      ∃ a', ClinicProApp.initialize env a = (.ok false, a') ∧
        criticalErrors a'.trace = criticalErrors a.trace ++ [e] ∧
        phasesEntered a'.trace = phasesEntered a.trace ++
          [.checkBrowserCompatibility, .setupGlobalErrorHandling, .setupPerformanceTracking,
           .initializeCoreComponents, .loadInitialData, .initializeAuthentication] ∧
        a'.isInitialized = a.isInitialized) ∧
    (∀ s, env.authInit = none → env.checkCurrentSession = .ok s → env.loadCSS = none →
      env.getItemError "user_theme" = none → env.routerInit = some e →
      ∃ a', ClinicProApp.initialize env a = (.ok false, a') ∧
        criticalErrors a'.trace = criticalErrors a.trace ++ [e] ∧
        phasesEntered a'.trace = phasesEntered a.trace ++
          [.checkBrowserCompatibility, .setupGlobalErrorHandling, .setupPerformanceTracking,
           .initializeCoreComponents, .loadInitialData, .initializeAuthentication,
           .initializeUI, .initializeRouting] ∧
        a'.isInitialized = a.isInitialized) := by
  constructor
  · intro ha
    obtain ⟨a', h, hcrit, hp, hi, -⟩ := startup_fails_at_authentication env a e hc hs ha
    exact ⟨a', h, hcrit, hp, hi⟩
  · intro s ha hsess hcss htheme hr
    obtain ⟨a', h, hcrit, hp, hi, -⟩ :=
      startup_fails_at_routing env a s e hc hs ha hsess hcss htheme hr
    exact ⟨a', h, hcrit, hp, hi⟩

/-- Witness of C3, amended: a start whose session manager cannot be started, and
a start whose route engine cannot be started. -/
theorem session_manager_and_router_failures_abort_startup_witness :
    (∃ a', ClinicProApp.initialize Env.sessionManagerFails (ClinicProApp.new Store.empty) =
        (.ok false, a') ∧
        criticalErrors a'.trace = criticalErrors (ClinicProApp.new Store.empty).trace ++
          [⟨"Error", "auth unavailable"⟩] ∧
        phasesEntered a'.trace = phasesEntered (ClinicProApp.new Store.empty).trace ++
          [.checkBrowserCompatibility, .setupGlobalErrorHandling, .setupPerformanceTracking,
           .initializeCoreComponents, .loadInitialData, .initializeAuthentication] ∧
        a'.isInitialized = (ClinicProApp.new Store.empty).isInitialized) ∧
    (∃ a', ClinicProApp.initialize Env.routerFails (ClinicProApp.new Store.empty) =
        (.ok false, a') ∧
        criticalErrors a'.trace = criticalErrors (ClinicProApp.new Store.empty).trace ++
          [⟨"Error", "no route table"⟩] ∧
        phasesEntered a'.trace = phasesEntered (ClinicProApp.new Store.empty).trace ++
          [.checkBrowserCompatibility, .setupGlobalErrorHandling, .setupPerformanceTracking,
           .initializeCoreComponents, .loadInitialData, .initializeAuthentication,
           .initializeUI, .initializeRouting] ∧
        a'.isInitialized = (ClinicProApp.new Store.empty).isInitialized) :=
  ⟨(session_manager_and_router_failures_abort_startup Env.sessionManagerFails
      (ClinicProApp.new Store.empty) ⟨"Error", "auth unavailable"⟩ rfl rfl).1 (Or.inl rfl),
   (session_manager_and_router_failures_abort_startup Env.routerFails
      (ClinicProApp.new Store.empty) ⟨"Error", "no route table"⟩ rfl rfl).2
      { isAuthenticated := false, user := none } rfl rfl rfl rfl rfl⟩

/-! ## The role table and the module loader -/

/-- C4 at its failing input: the dashboard module of a doctor resolves and
constructs, and its own `initialize` raises. After `loadUserSpecificModules` the
name `doctor-dashboard` is still a key of the module registry, although the loader
logged `Failed to load module: doctor-dashboard` and never `Module loaded:
doctor-dashboard`. -/
theorem module_failing_to_start_stays_registered :
    mapKeys ( loadUserSpecificModules Env.dashboardFails sampleSignedIn).2.modules =
      ["doctor-dashboard", "prescription-manager", "patient-manager"] ∧
    Effect.warn "Failed to load module: doctor-dashboard" ⟨"Error", "dashboard failed"⟩ ∈
      ( loadUserSpecificModules Env.dashboardFails sampleSignedIn).2.trace ∧
    Effect.loaded "doctor-dashboard" ∉
      ( loadUserSpecificModules Env.dashboardFails sampleSignedIn).2.trace := by
  decide

/-- C5: for a user whose role is one of the six roles of the table, whichever
descriptors fail to resolve, `loadUserSpecificModules` started on an empty module
registry completes without raising, calls `import` for every descriptor of the
role in table order, and leaves a registry whose keys are the names of the
descriptors that resolved, in table order; for role `doctor` with
`prescription-manager` failing these are `doctor-dashboard` and
`patient-manager`. -/
theorem module_loader_isolates_load_failures (env : Env) (a : App) (u : User) (role : String)
    (ds : List ModuleDescriptor) (hu : a.currentUser = some u) (hr : u.role = some role)
    (ht : modulesMap.lookup role = some ds) (hm : a.modules = []) :
    ∃ a', loadUserSpecificModules env a = (.ok (), a') ∧
      importsAttempted a'.trace =
        importsAttempted a.trace ++ ds.map (fun d => "./modules/" ++ d.path ++ ".js") ∧
      mapKeys a'.modules =
        (ds.filter fun d => (env.moduleLoad d.path).isNone).map ModuleDescriptor.name ∧
      (role = "doctor" → (env.moduleLoad "medical/doctor-dashboard").isNone = true →
        (env.moduleLoad "prescriptions/prescription-manager").isNone = false →
        (env.moduleLoad "medical/patients/patient-manager").isNone = true →
        mapKeys a'.modules = ["doctor-dashboard", "patient-manager"]) := by
  have hds : getModulesForRole u.role = .descriptors ds := by
    rw [hr]
    exact getModulesForRole_of_lookup role ds ht
  obtain ⟨A, hA⟩ : ∃ A : App, A = { a with trace := a.trace ++
      [.enter .loadUserSpecificModules, .loadingModulesFor u.role] } := ⟨_, rfl⟩
  have hAm : mapKeys A.modules = [] := by rw [hA]; simp [hm, mapKeys]
  have hAt : importsAttempted A.trace = importsAttempted a.trace := by
    rw [hA]
    simp [importsAttempted]
  have hp : loaderPrologue a = (.ok ds, A) := by
    rw [hA]
    exact loaderPrologue_descriptors a u ds hu hds
  have hrun : loadUserSpecificModules env a = loadModules env ds A := by
    unfold loadUserSpecificModules
    simp only [bind_eq]
    rw [Method.bind_ok hp]
  have hkeys := loadModules_keys env ds A (table_names_nodup role ds ht)
    (by intro d _; rw [hAm]; simp)
  rw [hAm, List.nil_append] at hkeys
  refine ⟨_, hrun.trans (total_apply_eq (loadModules_total env ds) A), ?_, hkeys, ?_⟩
  · rw [loadModules_imports, hAt]
  · intro hrole h1 h2 h3
    subst hrole
    have hd : ds = [⟨"doctor-dashboard", "medical/doctor-dashboard"⟩,
        ⟨"prescription-manager", "prescriptions/prescription-manager"⟩,
        ⟨"patient-manager", "medical/patients/patient-manager"⟩] := by
      have hl : modulesMap.lookup "doctor" =
          some [⟨"doctor-dashboard", "medical/doctor-dashboard"⟩,
            ⟨"prescription-manager", "prescriptions/prescription-manager"⟩,
            ⟨"patient-manager", "medical/patients/patient-manager"⟩] := by decide
      rw [hl] at ht
      exact (Option.some.inj ht).symm
    rw [hkeys, hd]
    simp [List.filter, h1, h2, h3]

/-- Witness of C5: a doctor whose prescription module cannot be resolved. -/
theorem module_loader_isolates_load_failures_witness :
    ∃ a', loadUserSpecificModules Env.prescriptionMissing sampleSignedIn = (.ok (), a') ∧
      importsAttempted a'.trace = importsAttempted sampleSignedIn.trace ++
        ["./modules/medical/doctor-dashboard.js",
         "./modules/prescriptions/prescription-manager.js",
         "./modules/medical/patients/patient-manager.js"] ∧
      mapKeys a'.modules = ["doctor-dashboard", "patient-manager"] := by
  obtain ⟨a', h1, h2, -, h4⟩ := module_loader_isolates_load_failures Env.prescriptionMissing
    sampleSignedIn sampleDoctor "doctor" _ rfl rfl rfl rfl
  exact ⟨a', h1, h2.trans (by decide), h4 rfl rfl rfl rfl⟩

/-- C9 at its failing input: for the role `constructor`, which is none of the
six roles of the table, `modulesMap[role]` is the function inherited from
`Object.prototype`, so `getModulesForRole` does not return an empty list and the
loop of the module loader raises a `TypeError`; the same holds of every other
property name of `Object.prototype`. -/
theorem inherited_role_name_is_not_an_empty_list :
    getModulesForRole (some "constructor") = .inherited "constructor" ∧
    getModulesForRole (some "constructor") ≠ .descriptors [] ∧
    ( loadUserSpecificModules Env.nominal
      { ClinicProApp.new Store.empty with currentUser := some sampleOddRole }).1 =
        .error (typeError "modules is not iterable") ∧
    ∀ key ∈ objectPrototypeKeys, getModulesForRole (some key) = .inherited key := by
  refine ⟨by decide, by decide, rfl, by decide⟩

/-- C10: `getModulesForRole('doctor')` returns exactly three descriptors, named
`doctor-dashboard`, `prescription-manager` and `patient-manager`, in that order. -/
theorem doctor_modules_in_table_order :
    ∃ ds, getModulesForRole (some "doctor") = .descriptors ds ∧ ds.length = 3 ∧
      ds.map ModuleDescriptor.name =
        ["doctor-dashboard", "prescription-manager", "patient-manager"] :=
  ⟨_, rfl, rfl, rfl⟩

/-! ## The cached pair `(isAuthenticated, currentUser)` -/

theorem cacheFromStore_refl (a : App) : CacheFromStore a a := ⟨rfl, Or.inl ⟨rfl, rfl⟩⟩

theorem cacheFromStore_trans (a b c : App) (h1 : CacheFromStore a b) (h2 : CacheFromStore b c) :
    CacheFromStore a c := by
  refine ⟨h2.1.trans h1.1, ?_⟩
  rcases h2.2 with ⟨h3, h4⟩ | ⟨s, hs, h3, h4⟩
  · rcases h1.2 with ⟨h5, h6⟩ | ⟨s, hs, h5, h6⟩
    · exact Or.inl ⟨h3.trans h5, h4.trans h6⟩
    · exact Or.inr ⟨s, hs, h3.trans h5, h4.trans h6⟩
  · exact Or.inr ⟨s, h1.1 ▸ hs, h3, h4⟩

theorem cacheFromStore_of_same (a b : App) (h1 : b.store.authSession = a.store.authSession)
    (h2 : b.isAuthenticated = a.isAuthenticated) (h3 : b.currentUser = a.currentUser) :
    CacheFromStore a b := ⟨h1, Or.inl ⟨h2, h3⟩⟩

theorem cacheFromStore_getItem {α : Type} (env : Env) (key : String) (read : Store → Option α) :
    Preserves CacheFromStore (getItem env key read) := by
  apply preserves_of_refl cacheFromStore_refl
  intro a
  rw [getItem_apply]
  split
  · split <;> rfl
  · rfl

theorem cacheFromStore_stateUpdate (w : StateWrite) :
    Preserves CacheFromStore (stateUpdate w) := by
  intro a
  rw [stateUpdate_apply]
  split
  · exact cacheFromStore_refl a
  · exact cacheFromStore_of_same _ _ rfl rfl rfl

theorem cacheFromStore_pure {α : Type} (x : α) : Preserves CacheFromStore (Method.pure x) :=
  fun a => cacheFromStore_refl a

theorem cacheFromStore_observe (e : Effect) : Preserves CacheFromStore (observe e) :=
  fun _ => cacheFromStore_of_same _ _ rfl rfl rfl

theorem cacheFromStore_loadReferenceData (env : Env) :
    Preserves CacheFromStore (loadReferenceData env) := by
  intro a
  unfold loadReferenceData
  rw [setItem_apply]
  split
  · split
    · exact cacheFromStore_of_same _ _ rfl rfl rfl
    · exact cacheFromStore_refl a
  · exact cacheFromStore_refl a

theorem cacheFromStore_session_block (env : Env) :
    Preserves CacheFromStore (do
      let savedSession ← getItem env "auth_session" Store.authSession
      match savedSession with
      | some session =>
        stateUpdate (.authSession session)
        assign fun a => { a with isAuthenticated := session.isAuthenticated,
                                 currentUser := session.user }
      | none => Method.pure ()
      loadReferenceData env) := by
  intro a
  simp only [bind_eq]
  unfold Method.bind
  rw [getItem_apply]
  cases hs : a.storage with
  | false => exact cacheFromStore_refl a
  | true =>
    cases hg : env.getItemError "auth_session" with
    | some e => exact cacheFromStore_refl a
    | none =>
      cases hsess : a.store.authSession with
      | none =>
        simp only [if_true, Method.pure_apply]
        exact cacheFromStore_loadReferenceData env a
      | some s =>
        simp only [if_true]
        rw [stateUpdate_apply]
        cases hst : a.state with
        | none => exact cacheFromStore_refl a
        | some st =>
          simp only [assign_apply]
          refine cacheFromStore_trans _ _ _ ?_ (cacheFromStore_loadReferenceData env _)
          exact ⟨rfl, Or.inr ⟨s, hsess, rfl, rfl⟩⟩

theorem loadInitialData_cacheFromStore (env : Env) (a : App) :
    CacheFromStore a (loadInitialData env a).2 := by
  have h : Preserves CacheFromStore (loadInitialData env) := by
    unfold loadInitialData
    have hb := cacheFromStore_session_block env
    simp only [bind_eq] at hb ⊢
    repeat' first
      | exact hb
      | exact cacheFromStore_getItem _ _ _
      | exact cacheFromStore_stateUpdate _
      | exact cacheFromStore_observe _
      | exact cacheFromStore_pure _
      | apply preserves_bind cacheFromStore_trans
      | apply preserves_tryCatch cacheFromStore_trans
      | split
      | intro _
  exact h a

theorem keepsCache_getThis : Preserves KeepsCache getThis := fun _ => ⟨rfl, rfl⟩

theorem keepsCache_assign_pending (f : App → List (List ModuleDescriptor)) :
    Preserves KeepsCache (assign fun a => { a with pending := f a }) :=
  fun _ => ⟨rfl, rfl⟩

theorem keepsCache_startModuleLoader : Preserves KeepsCache startModuleLoader := by
  unfold startModuleLoader detached loaderPrologue
  simp only [bind_eq, pure_eq]
  repeat' first
    | exact keepsCache_observe _
    | exact keepsCache_getThis
    | exact keepsCache_pure _
    | exact keepsCache_raise _
    | exact keepsCache_assign_pending _
    | apply preserves_bind keepsCache_trans
    | apply preserves_tryCatch keepsCache_trans
    | split
    | intro _

theorem keepsCache_routerNavigate (path : String) : Preserves KeepsCache (routerNavigate path) := by
  unfold routerNavigate
  simp only [bind_eq]
  repeat' first
    | exact keepsCache_observe _
    | exact keepsCache_getThis
    | exact keepsCache_raise _
    | apply preserves_bind keepsCache_trans
    | split
    | intro _

theorem handleAuthStateChange_cache (change : Session) (a : App) :
    (handleAuthStateChange change a).2.isAuthenticated = change.isAuthenticated ∧
      (handleAuthStateChange change a).2.currentUser = change.user := by
  have key : ∀ (m : Method Unit), Preserves KeepsCache m → ∀ A : App,
      (m A).2.isAuthenticated = A.isAuthenticated ∧ (m A).2.currentUser = A.currentUser :=
    fun m h A => h A
  unfold handleAuthStateChange
  simp only [bind_eq, pure_eq]
  rw [Method.bind_ok (assign_apply _ a)]
  refine key _ ?_ _
  repeat' first
    | exact keepsCache_stateUpdate _
    | exact keepsCache_startModuleLoader
    | exact keepsCache_routerNavigate _
    | exact keepsCache_getThis
    | exact keepsCache_pure _
    | exact keepsCache_raise _
    | exact keepsCache_assign_modules _
    | apply preserves_bind keepsCache_trans
    | split
    | intro _

/-! ## Login and logout events -/

/-- C6: on an orchestrator that holds its state tree, its router and the four
closures registered by `setupSystemEvents` (as after a startup), publishing
`auth:login` with `{ user: u }` completes, sets the cached pair to `(true, u)`,
calls `state.update('auth', ...)` with `isAuthenticated = true`, `user = u` and
`permissions = u.permissions` when present and `[]` otherwise, starts one run of
the module loader for `u.role` (its loop over the descriptors of that role is
left pending) and calls `router.navigate` once, with `/`. -/
theorem login_event_signs_in_and_navigates_home (env : Env) (a : App) (u : User)
    (st : StateManager) (r : RouterEngine)
    (hev : a.events = some [.authLogin, .authLogout, .languageChanged, .themeChanged])
    (hst : a.state = some st) (hr : a.router = some r) :
    ∃ a', publish env "auth:login" (.user u) a = (.ok (), a') ∧
      a'.isAuthenticated = true ∧ a'.currentUser = some u ∧
      a'.state = some (st.update (.auth true (some u) (u.permissions.getD []))) ∧
      (st.update (.auth true (some u) (u.permissions.getD []))).auth =
        { st.auth with isAuthenticated := true, user := some u,
                       permissions := u.permissions.getD [] } ∧
      a'.pending = (match getModulesForRole u.role with
        | .descriptors ds => a.pending ++ [ds]
        | .inherited _ => a.pending) ∧
      a'.trace = a.trace ++ [.emit "auth:login" (.user u)] ++
        [.enter .loadUserSpecificModules, .loadingModulesFor u.role] ++
        (match getModulesForRole u.role with
          | .descriptors _ => []
          | .inherited _ => [.unhandledRejection (typeError "modules is not iterable")]) ++
        [.navigate "/"] ∧
      navigations a'.trace = navigations a.trace ++ ["/"] ∧
      a'.events = a.events ∧ a'.router = a.router := by
  refine ⟨_, (publish_login env a u hev).trans
    (handleAuthStateChange_login _ u st r hst hr), rfl, rfl, rfl, rfl, rfl, rfl, ?_, rfl, rfl⟩
  cases getModulesForRole u.role <;> simp [navigations]

/-- Witness of C6: the doctor signs in after a startup without a session. -/
theorem login_event_signs_in_and_navigates_home_witness :
    ∃ a', publish Env.nominal "auth:login" (.user sampleDoctor) sampleStarted = (.ok (), a') ∧
      a'.isAuthenticated = true ∧ a'.currentUser = some sampleDoctor ∧
      a'.state.map (fun st => st.auth) = some
        { isAuthenticated := true, user := some sampleDoctor, token := none,
          permissions := ["patient_management"] } ∧
      a'.pending = [[⟨"doctor-dashboard", "medical/doctor-dashboard"⟩,
        ⟨"prescription-manager", "prescriptions/prescription-manager"⟩,
        ⟨"patient-manager", "medical/patients/patient-manager"⟩]] ∧
      navigations a'.trace = ["/"] := by
  obtain ⟨a', h1, h2, h3, h4, -, h6, -, h8, -, -⟩ :=
    login_event_signs_in_and_navigates_home Env.nominal sampleStarted sampleDoctor _ _
      rfl rfl rfl
  exact ⟨a', h1, h2, h3, by rw [h4]; rfl, h6, h8⟩

/-- C7: on an orchestrator that holds its state tree, its router and the four
closures registered by `setupSystemEvents`, publishing `auth:logout` completes,
sets the cached pair to `(false, null)`, calls `state.update('auth', ...)` with
`isAuthenticated = false`, `user = null` and `permissions = []`, leaves the module
registry empty whatever it held, and calls `router.navigate` once, with `/login`. -/
theorem logout_event_signs_out_and_navigates_to_login (env : Env) (a : App) (data : Payload)
    (st : StateManager) (r : RouterEngine)
    (hev : a.events = some [.authLogin, .authLogout, .languageChanged, .themeChanged])
    (hst : a.state = some st) (hr : a.router = some r) :
    ∃ a', publish env "auth:logout" data a = (.ok (), a') ∧
      a'.isAuthenticated = false ∧ a'.currentUser = none ∧
      a'.state = some (st.update (.auth false none [])) ∧
      (st.update (.auth false none [])).auth =
        { st.auth with isAuthenticated := false, user := none, permissions := [] } ∧
      a'.modules = [] ∧
      a'.trace = a.trace ++ [.emit "auth:logout" data] ++ [.navigate "/login"] ∧
      navigations a'.trace = navigations a.trace ++ ["/login"] ∧
      a'.events = a.events ∧ a'.router = a.router := by
  refine ⟨_, (publish_logout env a data hev).trans
    (handleAuthStateChange_logout _ st r hst hr), rfl, rfl, rfl, rfl, rfl, rfl, ?_, rfl, rfl⟩
  simp [navigations]

/-- Witness of C7: logout after a startup in which the doctor was signed in and
the three modules of the role were registered. -/
theorem logout_event_signs_out_and_navigates_to_login_witness :
    mapKeys sampleDoctorStarted.modules =
      ["doctor-dashboard", "prescription-manager", "patient-manager"] ∧
    ∃ a', publish Env.doctor "auth:logout" .absent sampleDoctorStarted = (.ok (), a') ∧
      a'.isAuthenticated = false ∧ a'.currentUser = none ∧
      a'.state.map (fun st => st.auth) = some
        { isAuthenticated := false, user := none, token := none, permissions := [] } ∧
      a'.modules = [] ∧
      navigations a'.trace = ["/login"] := by
  refine ⟨by decide, ?_⟩
  obtain ⟨a', h1, h2, h3, h4, -, h6, -, h8, -, -⟩ :=
    logout_event_signs_out_and_navigates_to_login Env.doctor sampleDoctorStarted .absent _ _
      rfl rfl rfl
  exact ⟨a', h1, h2, h3, by rw [h4]; rfl, h6, h8⟩

/-- C8, as stated, fails: `loadInitialData` writes the cached pair from the
persistent store. On a store holding a saved session of the doctor and with a
session manager that cannot be started, the run of `initialize()` ends with the
cache `(true, doctor)`, the value of the store entry `auth_session`, although the
session manager returned nothing and would report no session. -/
theorem cache_is_written_from_the_store :
    Store.withSession.authSession = some { isAuthenticated := true, user := some sampleDoctor } ∧
    Env.sessionManagerFails.checkCurrentSession = .ok { isAuthenticated := false, user := none } ∧
    ( ClinicProApp.initialize Env.sessionManagerFails
      (ClinicProApp.new Store.withSession)).2.isAuthenticated = true ∧
    ( ClinicProApp.initialize Env.sessionManagerFails
      (ClinicProApp.new Store.withSession)).2.currentUser = some sampleDoctor ∧
    navigations ( ClinicProApp.initialize Env.sessionManagerFails
      (ClinicProApp.new Store.withSession)).2.trace = [] :=
  ⟨rfl, rfl, rfl, rfl, by decide⟩

/-- C8, amended: the cached pair is written in three places. `loadInitialData`
leaves it as it was or sets it to the session saved in the persistent store under
`auth_session`; `initializeAuthentication`, when it completes, sets it to the
result of `checkCurrentSession`; `handleAuthStateChange` sets it to the pair it
is called with. Whenever `initialize()` resolves to `true` the cache is the result
of `checkCurrentSession`, and after a login or logout event it is the pair of
that event. -/
theorem cache_writes_come_from_store_or_session_manager (env : Env) (a : App) (s : Session)
    (change : Session) :
    CacheFromStore a (loadInitialData env a).2 ∧
    (env.authInit = none → env.checkCurrentSession = .ok s →
      (initializeAuthentication env a).2.isAuthenticated = s.isAuthenticated ∧
      (initializeAuthentication env a).2.currentUser = s.user) ∧
    ((handleAuthStateChange change a).2.isAuthenticated = change.isAuthenticated ∧
      (handleAuthStateChange change a).2.currentUser = change.user) ∧
    (∀ a', ClinicProApp.initialize env a = (.ok true, a') →
      ∃ s', env.checkCurrentSession = .ok s' ∧ a'.isAuthenticated = s'.isAuthenticated ∧
        a'.currentUser = s'.user) := by
  refine ⟨loadInitialData_cacheFromStore env a, ?_, handleAuthStateChange_cache change a, ?_⟩
  · intro h1 h2
    rw [initializeAuthentication_ok env a s h1 h2]
    exact ⟨rfl, rfl⟩
  · intro a' h
    exact (startup_true_inv env a a' h).2.2.2.2.2.2.1

/-- Witness of C8, amended: a startup over a store that holds a saved session of
the doctor, with a session manager that reports no session. -/
theorem cache_writes_come_from_store_or_session_manager_witness :
    CacheFromStore (ClinicProApp.new Store.withSession)
      (loadInitialData Env.nominal (ClinicProApp.new Store.withSession)).2 ∧
    ((initializeAuthentication Env.nominal (ClinicProApp.new Store.withSession)).2.isAuthenticated
        = false ∧
      (initializeAuthentication Env.nominal (ClinicProApp.new Store.withSession)).2.currentUser
        = none) ∧
    (∃ s', Env.nominal.checkCurrentSession = .ok s' ∧
      ( ClinicProApp.initialize Env.nominal
        (ClinicProApp.new Store.withSession)).2.isAuthenticated = s'.isAuthenticated ∧
      ( ClinicProApp.initialize Env.nominal
        (ClinicProApp.new Store.withSession)).2.currentUser = s'.user) :=
  have h := cache_writes_come_from_store_or_session_manager Env.nominal
    (ClinicProApp.new Store.withSession) { isAuthenticated := false, user := none }
    { isAuthenticated := false, user := none }
  ⟨h.1, h.2.1 rfl rfl, h.2.2.2 _ rfl⟩

/-! ## Frames: what a run leaves as it was -/

theorem keeps_refl {β : Type} (f : App → β) (a : App) : Keeps f a a := rfl

theorem keeps_trans {β : Type} (f : App → β) (a b c : App) (h1 : Keeps f a b)
    (h2 : Keeps f b c) : Keeps f a c :=
  Eq.trans h2 h1

theorem keeps_assign {β : Type} (f : App → β) (g : App → App) (h : ∀ a, f (g a) = f a) :
    Preserves (Keeps f) (assign g) :=
  fun a => h a

theorem keeps_observe {β : Type} (f : App → β) (e : Effect)
    (h : ∀ a : App, f { a with trace := a.trace ++ [e] } = f a) :
    Preserves (Keeps f) (observe e) :=
  fun a => h a

theorem keeps_pure {α β : Type} (f : App → β) (x : α) : Preserves (Keeps f) (Method.pure x) :=
  fun _ => rfl

theorem keeps_raise {α β : Type} (f : App → β) (e : JSError) :
    Preserves (Keeps f) (raise e : Method α) :=
  fun _ => rfl

theorem keeps_getThis {β : Type} (f : App → β) : Preserves (Keeps f) getThis :=
  fun _ => rfl

theorem keeps_call {β : Type} (f : App → β) (o : Option JSError) :
    Preserves (Keeps f) (call o) := by
  cases o <;> exact fun _ => rfl

theorem checkBrowserCompatibility_keeps_snapshot (env : Env) :
    Preserves (Keeps fun a => a.store.recoveryState) (checkBrowserCompatibility env) := by
  unfold checkBrowserCompatibility
  try simp only [bind_eq, pure_eq]
  repeat' first
    | exact keeps_assign _ _ (fun _ => rfl)
    | exact keeps_observe _ _ (fun _ => rfl)
    | exact keeps_pure _ _
    | exact keeps_raise _ _
    | exact keeps_getThis _
    | exact keeps_call _ _
    | apply preserves_bind (keeps_trans _)
    | apply preserves_tryCatch (keeps_trans _)
    | apply preserves_forEach (keeps_refl _) (keeps_trans _)
    | split
    | intro _

theorem showCompatibilityWarning_keeps_snapshot (c : Compatibility) :
    Preserves (Keeps fun a => a.store.recoveryState) (showCompatibilityWarning c) := by
  unfold showCompatibilityWarning
  try simp only [bind_eq, pure_eq]
  repeat' first
    | exact keeps_assign _ _ (fun _ => rfl)
    | exact keeps_observe _ _ (fun _ => rfl)
    | exact keeps_pure _ _
    | exact keeps_raise _ _
    | exact keeps_getThis _
    | exact keeps_call _ _
    | apply preserves_bind (keeps_trans _)
    | apply preserves_tryCatch (keeps_trans _)
    | apply preserves_forEach (keeps_refl _) (keeps_trans _)
    | split
    | intro _

theorem setupGlobalErrorHandling_keeps_snapshot :
    Preserves (Keeps fun a => a.store.recoveryState) (setupGlobalErrorHandling) := by
  unfold setupGlobalErrorHandling
  try simp only [bind_eq, pure_eq]
  repeat' first
    | exact keeps_assign _ _ (fun _ => rfl)
    | exact keeps_observe _ _ (fun _ => rfl)
    | exact keeps_pure _ _
    | exact keeps_raise _ _
    | exact keeps_getThis _
    | exact keeps_call _ _
    | apply preserves_bind (keeps_trans _)
    | apply preserves_tryCatch (keeps_trans _)
    | apply preserves_forEach (keeps_refl _) (keeps_trans _)
    | split
    | intro _

theorem setupPerformanceTracking_keeps_snapshot :
    Preserves (Keeps fun a => a.store.recoveryState) (setupPerformanceTracking) := by
  unfold setupPerformanceTracking
  try simp only [bind_eq, pure_eq]
  repeat' first
    | exact keeps_assign _ _ (fun _ => rfl)
    | exact keeps_observe _ _ (fun _ => rfl)
    | exact keeps_pure _ _
    | exact keeps_raise _ _
    | exact keeps_getThis _
    | exact keeps_call _ _
    | apply preserves_bind (keeps_trans _)
    | apply preserves_tryCatch (keeps_trans _)
    | apply preserves_forEach (keeps_refl _) (keeps_trans _)
    | split
    | intro _

theorem initializeCoreComponents_keeps_snapshot (env : Env) :
    Preserves (Keeps fun a => a.store.recoveryState) (initializeCoreComponents env) := by
  unfold initializeCoreComponents
  try simp only [bind_eq, pure_eq]
  repeat' first
    | exact keeps_assign _ _ (fun _ => rfl)
    | exact keeps_observe _ _ (fun _ => rfl)
    | exact keeps_pure _ _
    | exact keeps_raise _ _
    | exact keeps_getThis _
    | exact keeps_call _ _
    | apply preserves_bind (keeps_trans _)
    | apply preserves_tryCatch (keeps_trans _)
    | apply preserves_forEach (keeps_refl _) (keeps_trans _)
    | split
    | intro _

theorem loadInitialData_keeps_snapshot (env : Env) :
    Preserves (Keeps fun a => a.store.recoveryState) (loadInitialData env) := by
  unfold loadInitialData loadReferenceData getItem setItem stateUpdate
  try simp only [bind_eq, pure_eq]
  repeat' first
    | exact keeps_assign _ _ (fun _ => rfl)
    | exact keeps_observe _ _ (fun _ => rfl)
    | exact keeps_pure _ _
    | exact keeps_raise _ _
    | exact keeps_getThis _
    | exact keeps_call _ _
    | apply preserves_bind (keeps_trans _)
    | apply preserves_tryCatch (keeps_trans _)
    | apply preserves_forEach (keeps_refl _) (keeps_trans _)
    | split
    | intro _

theorem initializeAuthentication_keeps_snapshot (env : Env) :
    Preserves (Keeps fun a => a.store.recoveryState) (initializeAuthentication env) := by
  unfold initializeAuthentication
  try simp only [bind_eq, pure_eq]
  repeat' first
    | exact keeps_assign _ _ (fun _ => rfl)
    | exact keeps_observe _ _ (fun _ => rfl)
    | exact keeps_pure _ _
    | exact keeps_raise _ _
    | exact keeps_getThis _
    | exact keeps_call _ _
    | apply preserves_bind (keeps_trans _)
    | apply preserves_tryCatch (keeps_trans _)
    | apply preserves_forEach (keeps_refl _) (keeps_trans _)
    | split
    | intro _

theorem initializeUI_keeps_snapshot (env : Env) :
    Preserves (Keeps fun a => a.store.recoveryState) (initializeUI env) := by
  unfold initializeUI loadFonts setupTheme setupLanguage createLoadingScreen
  try simp only [bind_eq, pure_eq]
  repeat' first
    | exact keeps_assign _ _ (fun _ => rfl)
    | exact keeps_observe _ _ (fun _ => rfl)
    | exact keeps_pure _ _
    | exact keeps_raise _ _
    | exact keeps_getThis _
    | exact keeps_call _ _
    | apply preserves_bind (keeps_trans _)
    | apply preserves_tryCatch (keeps_trans _)
    | apply preserves_forEach (keeps_refl _) (keeps_trans _)
    | split
    | intro _

theorem initializeRouting_keeps_snapshot (env : Env) :
    Preserves (Keeps fun a => a.store.recoveryState) (initializeRouting env) := by
  unfold initializeRouting
  try simp only [bind_eq, pure_eq]
  repeat' first
    | exact keeps_assign _ _ (fun _ => rfl)
    | exact keeps_observe _ _ (fun _ => rfl)
    | exact keeps_pure _ _
    | exact keeps_raise _ _
    | exact keeps_getThis _
    | exact keeps_call _ _
    | apply preserves_bind (keeps_trans _)
    | apply preserves_tryCatch (keeps_trans _)
    | apply preserves_forEach (keeps_refl _) (keeps_trans _)
    | split
    | intro _

theorem setupSystemEvents_keeps_snapshot :
    Preserves (Keeps fun a => a.store.recoveryState) (setupSystemEvents) := by
  unfold setupSystemEvents eventsOn
  try simp only [bind_eq, pure_eq]
  repeat' first
    | exact keeps_assign _ _ (fun _ => rfl)
    | exact keeps_observe _ _ (fun _ => rfl)
    | exact keeps_pure _ _
    | exact keeps_raise _ _
    | exact keeps_getThis _
    | exact keeps_call _ _
    | apply preserves_bind (keeps_trans _)
    | apply preserves_tryCatch (keeps_trans _)
    | apply preserves_forEach (keeps_refl _) (keeps_trans _)
    | split
    | intro _

theorem initializeServices_keeps_snapshot (env : Env) :
    Preserves (Keeps fun a => a.store.recoveryState) (initializeServices env) := by
  unfold initializeServices
  try simp only [bind_eq, pure_eq]
  repeat' first
    | exact keeps_assign _ _ (fun _ => rfl)
    | exact keeps_observe _ _ (fun _ => rfl)
    | exact keeps_pure _ _
    | exact keeps_raise _ _
    | exact keeps_getThis _
    | exact keeps_call _ _
    | apply preserves_bind (keeps_trans _)
    | apply preserves_tryCatch (keeps_trans _)
    | apply preserves_forEach (keeps_refl _) (keeps_trans _)
    | split
    | intro _

theorem loadUserSpecificModules_keeps_snapshot (env : Env) :
    Preserves (Keeps fun a => a.store.recoveryState) (loadUserSpecificModules env) := by
  unfold loadUserSpecificModules loaderPrologue loadModules loadModule
  try simp only [bind_eq, pure_eq]
  repeat' first
    | exact keeps_assign _ _ (fun _ => rfl)
    | exact keeps_observe _ _ (fun _ => rfl)
    | exact keeps_pure _ _
    | exact keeps_raise _ _
    | exact keeps_getThis _
    | exact keeps_call _ _
    | apply preserves_bind (keeps_trans _)
    | apply preserves_tryCatch (keeps_trans _)
    | apply preserves_forEach (keeps_refl _) (keeps_trans _)
    | split
    | intro _

theorem markAsInitialized_keeps_snapshot (env : Env) :
    Preserves (Keeps fun a => a.store.recoveryState) (markAsInitialized env) := by
  unfold markAsInitialized eventsEmit stateUpdate
  try simp only [bind_eq, pure_eq]
  repeat' first
    | exact keeps_assign _ _ (fun _ => rfl)
    | exact keeps_observe _ _ (fun _ => rfl)
    | exact keeps_pure _ _
    | exact keeps_raise _ _
    | exact keeps_getThis _
    | exact keeps_call _ _
    | apply preserves_bind (keeps_trans _)
    | apply preserves_tryCatch (keeps_trans _)
    | apply preserves_forEach (keeps_refl _) (keeps_trans _)
    | split
    | intro _
theorem startup_keeps_recovery_state (env : Env) (a a' : App)
    (h : ClinicProApp.initialize env a = (.ok true, a')) :
    a'.store.recoveryState = a.store.recoveryState := by
  have key : ∀ (m : Method Bool) (hd : JSError → Method Bool),
      Preserves (Keeps fun a => a.store.recoveryState) m →
      (∀ e b, (hd e b).1 = .ok false) → ClinicPro.tryCatch m hd a = (.ok true, a') →
      a'.store.recoveryState = a.store.recoveryState := by
    intro m hd hm hh ht
    unfold ClinicPro.tryCatch at ht
    have hk := hm a
    rcases hres : m a with ⟨r, a1⟩
    rw [hres] at ht hk
    cases r with
    | ok x =>
      simp only [Prod.mk.injEq] at ht
      rw [← ht.2]
      exact hk
    | error e =>
      have hf := hh e a1
      simp only at ht
      rw [ht] at hf
      simp at hf
  unfold ClinicProApp.initialize at h
  refine key _ _ ?_ ?_ h
  · simp only [bind_eq, pure_eq]
    refine preserves_bind (keeps_trans _) (checkBrowserCompatibility_keeps_snapshot env) ?_
    intro c
    split
    · exact preserves_bind (keeps_trans _) (showCompatibilityWarning_keeps_snapshot c)
        fun _ => keeps_pure _ _
    · exact preserves_bind (keeps_trans _) (keeps_pure _ _) fun _ =>
        preserves_bind (keeps_trans _) setupGlobalErrorHandling_keeps_snapshot fun _ =>
        preserves_bind (keeps_trans _) setupPerformanceTracking_keeps_snapshot fun _ =>
        preserves_bind (keeps_trans _) (initializeCoreComponents_keeps_snapshot env) fun _ =>
        preserves_bind (keeps_trans _) (loadInitialData_keeps_snapshot env) fun _ =>
        preserves_bind (keeps_trans _) (initializeAuthentication_keeps_snapshot env) fun _ =>
        preserves_bind (keeps_trans _) (initializeUI_keeps_snapshot env) fun _ =>
        preserves_bind (keeps_trans _) (initializeRouting_keeps_snapshot env) fun _ =>
        preserves_bind (keeps_trans _) setupSystemEvents_keeps_snapshot fun _ =>
        preserves_bind (keeps_trans _) (initializeServices_keeps_snapshot env) fun _ =>
        preserves_bind (keeps_trans _) (loadUserSpecificModules_keeps_snapshot env) fun _ =>
        preserves_bind (keeps_trans _) (markAsInitialized_keeps_snapshot env) fun _ =>
        keeps_pure _ _
  · intro e b
    obtain ⟨b', hb, -⟩ := handleCriticalError_spec env e b
    simp only [bind_eq, pure_eq]
    rw [Method.bind_ok hb]
    rfl

/-! ## Saving and restoring the recovery snapshot -/

theorem stateGet_apply {α : Type} (region : StateManager → α) (a : App) :
    stateGet region a =
      match a.state with
      | none => (.error (typeError "Cannot read properties of null (reading 'get')"), a)
      | some st => (.ok (region st), a) := by
  cases hs : a.state <;> simp [stateGet, Method.bind, hs]

theorem saveApplicationState_apply (env : Env) (a : App) :
    saveApplicationState env a =
      match a.state with
      | none => (.ok (), { a with trace := a.trace ++ [.warn "Failed to save application state"
          (typeError "Cannot read properties of null (reading 'get')")] })
      | some st =>
        if a.storage then
          match env.setItemError "app_recovery_state" with
          | none =>
            (.ok (), { a with store := { a.store with
              recoveryState := some { auth := st.auth, ui := st.ui, timestamp := env.now } } })
          | some e =>
            (.ok (), { a with trace := a.trace ++ [.warn "Failed to save application state" e] })
        else (.ok (), { a with trace := a.trace ++ [.warn "Failed to save application state"
          (typeError "Cannot read properties of undefined (reading 'setItem')")] }) := by
  obtain ⟨storage, state, events, notifications, auth, router, isInitialized, isAuthenticated,
    currentUser, currentRoute, modules, services, windowListeners, pending, unsettled,
    timers, store, trace⟩ := a
  cases state <;> cases storage <;> cases he : env.setItemError "app_recovery_state" <;>
    simp [saveApplicationState, stateGet, setItem, Method.bind, tryCatch, he]

theorem restoreApplicationState_apply (env : Env) (a : App) :
    restoreApplicationState env a =
      if a.storage then
        match env.getItemError "app_recovery_state" with
        | some e =>
          (.ok false, { a with trace := a.trace ++ [.warn "Failed to restore application state" e] })
        | none =>
          match a.store.recoveryState with
          | none => (.ok false, a)
          | some saved =>
            match a.state with
            | none => (.ok false, { a with trace := a.trace ++
                [.warn "Failed to restore application state"
                  (typeError "Cannot read properties of null (reading 'update')")] })
            | some st =>
              (.ok true, { a with
                state := some ((st.update (.authRegion saved.auth)).update (.uiRegion saved.ui)) })
      else (.ok false, { a with trace := a.trace ++ [.warn "Failed to restore application state"
        (typeError "Cannot read properties of undefined (reading 'getItem')")] }) := by
  obtain ⟨storage, state, events, notifications, auth, router, isInitialized, isAuthenticated,
    currentUser, currentRoute, modules, services, windowListeners, pending, unsettled,
    timers, store, trace⟩ := a
  obtain ⟨userSettings, authSession, userTheme, userLanguage, referenceData, recoveryState,
    errorLog⟩ := store
  cases state <;> cases storage <;> cases recoveryState <;>
    cases he : env.getItemError "app_recovery_state" <;>
    simp [restoreApplicationState, getItem, stateUpdate, Method.bind, tryCatch, he]

/-! ## The recovery snapshot -/

theorem uiRegion_merge_none (u : UiRegion) :
    { u with currentRoute := u.currentRoute.orElse fun _ => none } = u := by
  obtain ⟨l, n, m, r⟩ := u
  cases r <;> rfl

theorem uiRegion_merge_some (u : UiRegion) (kept : Option RouteState)
    (h : u.currentRoute.isSome = true) :
    { u with currentRoute := u.currentRoute.orElse fun _ => kept } = u := by
  obtain ⟨l, n, m, r⟩ := u
  cases r with
  | none => simp at h
  | some r => rfl

theorem routeReported_route (st : StateManager) (report : Option RouteChange)
    (h : st.ui.currentRoute = none) :
    (st.routeReported report).ui.currentRoute = report.map RouteChange.recorded := by
  cases report <;> simp [StateManager.routeReported, StateManager.update, h]

/-- C11, as stated, fails for a snapshot taken before any route was recorded: a
startup stops at the style sheets, with the state tree built and the router not
yet; `saveApplicationState()` stores the regions `auth` and `ui` of that tree,
the latter without `currentRoute`. The next orchestrator starts over this store
and its router reports the login page while it starts. Then
`restoreApplicationState()` resolves to `true`, the region `auth` is the saved
one, and the region `ui` still carries the login page as `currentRoute`, which
the saved region did not. -/
theorem snapshot_without_route_keeps_the_route_of_the_restart :
    ( ClinicProApp.initialize Env.stylesheetFails (ClinicProApp.new Store.empty)).1 = .ok false ∧
    (sampleStylesFailed.state.map fun st => st.ui.currentRoute) = some none ∧
    (saveApplicationState Env.stylesheetFails sampleStylesFailed).1 = .ok () ∧
    ( ClinicProApp.initialize Env.routed
      (ClinicProApp.new (saveApplicationState Env.stylesheetFails sampleStylesFailed).2.store)).1 =
      .ok true ∧
    (restoreApplicationState Env.routed sampleRestarted).1 = .ok true ∧
    (restoreApplicationState Env.routed sampleRestarted).2.state.map StateManager.auth =
      sampleStylesFailed.state.map StateManager.auth ∧
    ((restoreApplicationState Env.routed sampleRestarted).2.state.map fun st =>
      st.ui.currentRoute) = some (some sampleLoginPage.recorded) ∧
    (restoreApplicationState Env.routed sampleRestarted).2.state.map StateManager.ui ≠
      sampleStylesFailed.state.map StateManager.ui :=
  ⟨rfl, by decide, rfl, rfl, rfl, by decide, by decide, by decide⟩

/-- C11, amended: let `saveApplicationState()` run on an orchestrator that holds a
state tree `st` and whose store accepts the write. On every orchestrator started
afterwards over the store left behind (a new orchestrator for which
`initialize()` resolved to `true`), with the read of the snapshot succeeding,
`restoreApplicationState()` resolves to `true`; the region `auth` of its state
tree is then the one `st` had, and so is the region `ui`, except that where the
saved region had no `currentRoute` the route its own router reported during
startup stays. Both regions are those of `st` whenever `st` had a `currentRoute`
or the router of the new orchestrator reported none. -/
theorem snapshot_round_trip_after_restart (env env2 : Env) (a b : App) (st : StateManager)
    (hst : a.state = some st) (hsto : a.storage = true)
    (hw : env.setItemError "app_recovery_state" = none)
    (hstart : ClinicProApp.initialize env2
      (ClinicProApp.new (saveApplicationState env a).2.store) = (.ok true, b))
    (hr : env2.getItemError "app_recovery_state" = none) :
    (saveApplicationState env a).1 = .ok () ∧
    ∃ c st', restoreApplicationState env2 b = (.ok true, c) ∧ c.state = some st' ∧
      st'.auth = st.auth ∧
      st'.ui = { st.ui with currentRoute := st.ui.currentRoute.orElse fun _ =>
        env2.routerInitRoute.map RouteChange.recorded } ∧
      (st.ui.currentRoute.isSome = true ∨ env2.routerInitRoute = none → st'.ui = st.ui) := by
  have hsave : saveApplicationState env a = (.ok (), { a with store := { a.store with
      recoveryState := some { auth := st.auth, ui := st.ui, timestamp := env.now } } }) := by
    rw [saveApplicationState_apply, hst]
    simp only [hsto, if_true, hw]
  have hkeep := startup_keeps_recovery_state env2 _ b hstart
  obtain ⟨-, hbs, hbst, -, -, -, -, -, -, hui, -⟩ := startup_true_inv env2 _ b hstart
  rw [hsave] at hkeep
  simp only [ClinicProApp.new] at hkeep
  obtain ⟨stB, hstB⟩ : ∃ stB, b.state = some stB := by
    cases hb : b.state with
    | none => rw [hb] at hbst; simp at hbst
    | some stB => exact ⟨stB, rfl⟩
  rw [hstB] at hui
  simp only [Option.map_some', Option.some.injEq] at hui
  have hroute : stB.ui.currentRoute = env2.routerInitRoute.map RouteChange.recorded := by
    rw [hui]
    exact routeReported_route _ _ rfl
  have hres : restoreApplicationState env2 b = (.ok true, { b with
      state := some ((stB.update (.authRegion st.auth)).update (.uiRegion st.ui)) }) := by
    rw [restoreApplicationState_apply, hbs, hr, hkeep, hstB]
    simp only [if_true]
  have hmerge : ((stB.update (.authRegion st.auth)).update (.uiRegion st.ui)).ui =
      { st.ui with currentRoute := st.ui.currentRoute.orElse fun _ =>
        env2.routerInitRoute.map RouteChange.recorded } := by
    simp only [StateManager.update, hroute]
  refine ⟨by rw [hsave], _, _, hres, rfl, rfl, hmerge, ?_⟩
  rintro (h | h)
  · rw [hmerge]
    exact uiRegion_merge_some st.ui _ h
  · rw [hmerge, h]
    exact uiRegion_merge_none st.ui

/-- Witness of C11: the snapshot of a doctor on the patients page, taken by a
running orchestrator, is restored by the next one, whose router had reported the
login page: the patients page of the snapshot replaces it. -/
theorem snapshot_round_trip_after_restart_witness :
    ∃ c st', restoreApplicationState Env.routed
        ( ClinicProApp.initialize Env.routed
          (ClinicProApp.new (saveApplicationState Env.doctor sampleAtWork).2.store)).2 =
          (.ok true, c) ∧ c.state = some st' ∧
      st'.auth = { isAuthenticated := true, user := some sampleDoctor, token := some "t-1",
                   permissions := ["patient_management"] } ∧
      st'.ui.currentRoute = some samplePatientsPage ∧ st'.ui.modals = ["confirm"] := by
  obtain ⟨c, st', h1, h2, h3, -, h5⟩ := (snapshot_round_trip_after_restart Env.doctor Env.routed
    sampleAtWork ( ClinicProApp.initialize Env.routed
      (ClinicProApp.new (saveApplicationState Env.doctor sampleAtWork).2.store)).2
    sampleAtWorkState rfl rfl rfl rfl rfl).2
  have h4 := h5 (Or.inl rfl)
  exact ⟨c, st', h1, h2, h3.trans rfl, by rw [h4]; rfl, by rw [h4]; rfl⟩

/-- C12, as stated, fails when the state tree is missing: after a startup that
stopped at `storage.initialize()`, `this.storage` is assigned and `this.state` is
still `null`; the store then returns the snapshot it holds under
`app_recovery_state`, and `restoreApplicationState()` resolves to `false`, the
`TypeError` of `this.state.update` being caught and logged. -/
theorem snapshot_read_without_state_tree_is_not_restored :
    ( ClinicProApp.initialize Env.storeFails (ClinicProApp.new Store.withSnapshot)).1 = .ok false ∧
    sampleSnapshotCoreFailed.storage = true ∧ sampleSnapshotCoreFailed.state = none ∧
    Env.storeFails.getItemError "app_recovery_state" = none ∧
    sampleSnapshotCoreFailed.store.recoveryState = Store.withSnapshot.recoveryState ∧
    Store.withSnapshot.recoveryState.isSome = true ∧
    restoreApplicationState Env.storeFails sampleSnapshotCoreFailed =
      (.ok false, { sampleSnapshotCoreFailed with
        trace := sampleSnapshotCoreFailed.trace ++ [.warn "Failed to restore application state"
          (typeError "Cannot read properties of null (reading 'update')")] }) :=
  ⟨rfl, rfl, rfl, rfl, rfl, rfl, rfl⟩

/-- C12, amended: `restoreApplicationState()` never raises, whatever the state of
the orchestrator and of the store. It resolves to `true` exactly when the store
returns a snapshot for `app_recovery_state` and the state tree exists; the state
tree then holds the regions `auth` and `ui` of the snapshot. In every other case
(the snapshot is absent, the read raises, `this.storage` or `this.state` is not
yet assigned) it resolves to `false` and the state tree is left as it was. The
store is never written. -/
theorem restore_is_true_iff_snapshot_read_and_state_tree (env : Env) (a : App) :
    ∃ r a', restoreApplicationState env a = (.ok r, a') ∧
      (r = true ↔ (a.storage = true ∧ env.getItemError "app_recovery_state" = none ∧
        a.store.recoveryState.isSome = true ∧ a.state.isSome = true)) ∧
      (r = true → ∃ saved st, a.store.recoveryState = some saved ∧ a.state = some st ∧
        a'.state = some ((st.update (.authRegion saved.auth)).update (.uiRegion saved.ui))) ∧
      (r = false → a'.state = a.state) ∧ a'.store = a.store := by
  rw [restoreApplicationState_apply]
  obtain ⟨storage, state, events, notifications, auth, router, isInitialized, isAuthenticated,
    currentUser, currentRoute, modules, services, windowListeners, pending, unsettled,
    timers, store, trace⟩ := a
  obtain ⟨userSettings, authSession, userTheme, userLanguage, referenceData, recoveryState,
    errorLog⟩ := store
  cases state <;> cases storage <;> cases recoveryState <;>
    cases he : env.getItemError "app_recovery_state" <;> simp

/-- C13 at its failing input: for an error whose `name` is `constructor`,
`errorMessages[error.name]` is the function inherited from `Object.prototype`,
which is truthy, so `getErrorMessage` returns it instead of the default text:
the value handed to the notification is none of the five texts of the table.
The same holds of every other property name of `Object.prototype`. The four
names of the table and a name that is nowhere to be found give the texts the
claim says. -/
theorem inherited_error_name_is_not_a_table_text :
    getErrorMessage sampleOddError = .inherited "constructor" ∧
    (∀ text ∈ errorMessages.map Prod.snd, getErrorMessage sampleOddError ≠ .text text) ∧
    notificationsShown (handleAppError Env.nominal sampleOddError "" sampleStarted).2.trace =
      [("error", .inherited "constructor")] ∧
    (∀ key ∈ objectPrototypeKeys,
      getErrorMessage { sampleOddError with name := some key } = .inherited key) ∧
    (∀ entry ∈ errorMessages,
      getErrorMessage { sampleOddError with name := some entry.1 } = .text entry.2) ∧
    getErrorMessage { sampleOddError with name := some "TypeError" } = .text defaultErrorMessage ∧
    getErrorMessage { sampleOddError with name := none } = .text defaultErrorMessage := by
  refine ⟨by decide, by decide, by decide, by decide, by decide, by decide, by decide⟩

/-- C15: `saveApplicationState()` completes on every orchestrator and with every
store: when the state tree is missing, when `this.storage` is missing and when
`setItem` is rejected, the error is caught and the only trace of it is a warning
in the log; otherwise the snapshot is written. `handleCriticalError` therefore
completes as well: it shows the recovery screen, starts the save, and no
rejection is left unhandled. -/
theorem saving_the_snapshot_never_raises (env : Env) (a : App) (error : JSError) :
    (∃ a', saveApplicationState env a = (.ok (), a') ∧
      ((∃ st, a.state = some st ∧ a.storage = true ∧
          env.setItemError "app_recovery_state" = none ∧
          a' = { a with store := { a.store with
            recoveryState := some { auth := st.auth, ui := st.ui, timestamp := env.now } } }) ∨
       (∃ e, (a.state = none ∨ a.storage = false ∨
            env.setItemError "app_recovery_state" = some e) ∧
          a' = { a with trace := a.trace ++ [.warn "Failed to save application state" e] }))) ∧
    (∃ a', handleCriticalError env error a = (.ok (), a') ∧
      a' = (saveApplicationState env
        { a with trace := a.trace ++ [.handleCriticalError error, .showCriticalErrorScreen] }).2 ∧
      unhandledRejections a'.trace = unhandledRejections a.trace) := by
  constructor
  · rw [saveApplicationState_apply]
    obtain ⟨storage, state, events, notifications, auth, router, isInitialized, isAuthenticated,
      currentUser, currentRoute, modules, services, windowListeners, pending, unsettled,
      timers, store, trace⟩ := a
    cases state <;> cases storage <;> cases he : env.setItemError "app_recovery_state" <;> simp
  · have h : handleCriticalError env error a = (.ok (), (saveApplicationState env
        { a with trace := a.trace ++ [.handleCriticalError error, .showCriticalErrorScreen] }).2) := by
      have ht := total_apply_eq (saveApplicationState_total env)
        { a with trace := a.trace ++ [.handleCriticalError error, .showCriticalErrorScreen] }
      simp only [handleCriticalError, showCriticalErrorScreen, detached, bind_eq]
      rw [Method.bind_ok (observe_apply _ _), Method.bind_ok (observe_apply _ _)]
      simp only [List.append_assoc, List.singleton_append]
      exact tryCatch_ok ht
    refine ⟨_, h, rfl, ?_⟩
    rw [saveApplicationState_apply]
    obtain ⟨storage, state, events, notifications, auth, router, isInitialized, isAuthenticated,
      currentUser, currentRoute, modules, services, windowListeners, pending, unsettled,
      timers, store, trace⟩ := a
    cases state <;> cases storage <;> cases he : env.setItemError "app_recovery_state" <;>
      simp [unhandledRejections, List.filterMap_append]

/-- C18: when the compatibility check reports `supported = false`, `initialize()`
resolves to `false` and no field of the orchestrator has been written: what is
left differs from what was there only by the log, which gained the entry of the
check and the compatibility warning with the issues found. No other startup
method was entered and `handleCriticalError` was not called. -/
theorem unsupported_browser_stops_startup_before_any_write (env : Env) (a : App)
    (hc : env.compatibility.supported = false) :
    ClinicProApp.initialize env a =
      (.ok false, { a with trace := a.trace ++ [.enter .checkBrowserCompatibility,
        .showCompatibilityWarning env.compatibility.issues] }) ∧
    phasesEntered ( ClinicProApp.initialize env a).2.trace =
      phasesEntered a.trace ++ [.checkBrowserCompatibility] ∧
    criticalErrors ( ClinicProApp.initialize env a).2.trace = criticalErrors a.trace := by
  have h := startup_unsupported env a hc
  refine ⟨h, ?_, ?_⟩
  · rw [h]
    simp [phasesEntered, List.filterMap_append]
  · rw [h]
    simp [criticalErrors, List.filterMap_append]

/-- Witness of C18: a new orchestrator in a browser without IndexedDB. Storage,
state tree, event bus, session manager and router are unset, both registries are
empty, `isInitialized` is `false` and no listener is installed on `window`. -/
theorem unsupported_browser_stops_startup_before_any_write_witness :
    ( ClinicProApp.initialize Env.unsupported (ClinicProApp.new Store.empty)).1 = .ok false ∧
    ( ClinicProApp.initialize Env.unsupported (ClinicProApp.new Store.empty)).2 =
      { ClinicProApp.new Store.empty with trace := [.enter .checkBrowserCompatibility,
        .showCompatibilityWarning ["IndexedDB"]] } ∧
    ( ClinicProApp.initialize Env.unsupported (ClinicProApp.new Store.empty)).2.storage = false ∧
    ( ClinicProApp.initialize Env.unsupported (ClinicProApp.new Store.empty)).2.windowListeners = [] ∧
    criticalErrors ( ClinicProApp.initialize Env.unsupported
      (ClinicProApp.new Store.empty)).2.trace = [] := by
  obtain ⟨h1, -, h3⟩ := unsupported_browser_stops_startup_before_any_write Env.unsupported
    (ClinicProApp.new Store.empty) rfl
  refine ⟨by rw [h1], by rw [h1]; rfl, by rw [h1]; rfl, by rw [h1]; rfl, h3⟩

/-! ## The error funnel, `login` and `logout` -/

theorem handleAppError_apply (env : Env) (error : ErrorValue) (context : String) (a : App)
    (ls : List Listener) (hs : a.storage = true) (hn : a.notifications = true)
    (he : a.events = some ls) :
    handleAppError env error context a =
      (.ok (), { a with
        unsettled := a.unsettled ++ [.errorLog (errorInfo env error context a)],
        trace := a.trace ++ [.appError error context,
          .notify "error" (getErrorMessage error),
          .emit "error:occurred" (.errorRecord (errorInfo env error context a))] }) := by
  obtain ⟨storage, state, events, notifications, auth, router, isInitialized, isAuthenticated,
    currentUser, currentRoute, modules, services, windowListeners, pending, unsettled,
    timers, store, trace⟩ := a
  simp only at hs hn he
  subst hs hn he
  simp [handleAppError, setItemCaught, showErrorNotification, notificationsShow,
    eventsEmit, errorInfo, Method.bind]

theorem settleWrite_rejected (env : Env) (e : JSError)
    (hw : env.setItemError "error_log" = some e) (write : StoreWrite) (a : App) :
    settleWrite env write a = (.ok (), { a with trace := a.trace ++ [.consoleError e] }) := by
  cases write
  simp [settleWrite, StoreWrite.key, hw]

theorem forEach_settleWrite_rejected (env : Env) (e : JSError)
    (hw : env.setItemError "error_log" = some e) :
    ∀ (writes : List StoreWrite) (a : App),
      forEach writes (settleWrite env) a =
        (.ok (), { a with trace := a.trace ++ writes.map fun _ => .consoleError e }) := by
  intro writes
  induction writes with
  | nil => intro a; simp [forEach]
  | cons w ws ih =>
    intro a
    rw [forEach, Method.bind_ok (settleWrite_rejected env e hw w a), ih]
    simp

theorem settleWrites_rejected (env : Env) (e : JSError)
    (hw : env.setItemError "error_log" = some e) (a : App) :
    settleWrites env a =
      (.ok (), { a with unsettled := [],
                        trace := a.trace ++ a.unsettled.map fun _ => .consoleError e }) := by
  unfold settleWrites
  simp only [bind_eq]
  rw [Method.bind_ok (getThis_apply a), Method.bind_ok (assign_apply _ a),
    forEach_settleWrite_rejected env e hw]

/-- C14, as stated, fails where the notification sink is missing: after a
startup that stopped at `storage.initialize()`, `this.storage` is assigned and
`this.notifications` is not. `handleAppError` is then called while the store
rejects the write of the error record: the write is started, and the call raises
a `TypeError` at `this.notifications.show`; no notification is shown and
`error:occurred` is not emitted. The rejection of the write reaches
`console.error` afterwards, when the promise settles. -/
theorem error_funnel_raises_without_notification_sink :
    sampleCoreFailed.storage = true ∧ sampleCoreFailed.notifications = false ∧
    Env.storeDown.setItemError "error_log" = some ⟨"InvalidStateError", "database unavailable"⟩ ∧
    (handleAppError Env.storeDown sampleNetworkError "" sampleCoreFailed).1 =
      .error (typeError "Cannot read properties of undefined (reading 'show')") ∧
    notificationsShown (handleAppError Env.storeDown sampleNetworkError "" sampleCoreFailed).2.trace
      = [] ∧
    emitted (handleAppError Env.storeDown sampleNetworkError "" sampleCoreFailed).2.trace = [] ∧
    (settleWrites Env.storeDown
      (handleAppError Env.storeDown sampleNetworkError "" sampleCoreFailed).2).2.trace =
      (handleAppError Env.storeDown sampleNetworkError "" sampleCoreFailed).2.trace ++
        [.consoleError ⟨"InvalidStateError", "database unavailable"⟩] :=
  ⟨rfl, rfl, rfl, rfl, by decide, by decide, by decide⟩

/-- C14, amended: on an orchestrator whose store, notification sink and event bus
have been constructed, for every error and context: `handleAppError` completes;
it has shown the notification with the text of `getErrorMessage(error)` and
emitted `error:occurred` with the record `{ message, stack, timestamp, context,
user }`, `user` being the id of the cached user, and the write of that record is
started and not awaited. When the store then rejects the write, the rejection
goes to `console.error` once the promise settles, after `handleAppError` has
returned: no rejection is left unhandled, nothing else is shown or emitted, and
the store is left as it was. -/
theorem error_log_write_failure_is_only_logged (env : Env) (error : ErrorValue)
    (context : String) (a : App) (ls : List Listener) (e : JSError)
    (hs : a.storage = true) (hn : a.notifications = true) (he : a.events = some ls)
    (hw : env.setItemError "error_log" = some e) :
    ∃ a', handleAppError env error context a = (.ok (), a') ∧
      a'.trace = a.trace ++ [.appError error context,
        .notify "error" (getErrorMessage error),
        .emit "error:occurred" (.errorRecord
          { message := error.message, stack := error.stack, timestamp := env.now,
            context := context, user := a.currentUser.map User.id })] ∧
      a'.unsettled = a.unsettled ++ [.errorLog
          { message := error.message, stack := error.stack, timestamp := env.now,
            context := context, user := a.currentUser.map User.id }] ∧
      ∃ a'', settleWrites env a' = (.ok (), a'') ∧
        a''.trace = a'.trace ++ a'.unsettled.map (fun _ => .consoleError e) ∧
        a''.unsettled = [] ∧
        unhandledRejections a''.trace = unhandledRejections a.trace ∧
        notificationsShown a''.trace =
          notificationsShown a.trace ++ [("error", getErrorMessage error)] ∧
        emitted a''.trace = emitted a.trace ++ [("error:occurred", .errorRecord
          { message := error.message, stack := error.stack, timestamp := env.now,
            context := context, user := a.currentUser.map User.id })] ∧
        a''.store = a.store := by
  refine ⟨_, handleAppError_apply env error context a ls hs hn he, rfl, rfl, _,
    settleWrites_rejected env e hw _, rfl, rfl, ?_, ?_, ?_, rfl⟩
  · simp [unhandledRejections, List.filterMap_append, List.filterMap_map]
  · simp [notificationsShown, List.filterMap_append, List.filterMap_map]
  · simp [emitted, List.filterMap_append, List.filterMap_map, errorInfo]

/-- Witness of C14: a network error reported on a started orchestrator, with the
doctor signed in, while the store rejects every write. -/
theorem error_log_write_failure_is_only_logged_witness :
    ∃ a' a'', handleAppError Env.writesFail sampleNetworkError "sync" sampleDoctorStarted =
        (.ok (), a') ∧ settleWrites Env.writesFail a' = (.ok (), a'') ∧
      a''.trace = a'.trace ++ [.consoleError ⟨"QuotaExceededError", "write failed"⟩] ∧
      notificationsShown a''.trace = [("error", .text
        "فشل في الاتصال بالخادم. يرجى التحقق من اتصال الإنترنت.")] ∧
      emitted a''.trace = emitted sampleDoctorStarted.trace ++ [("error:occurred", .errorRecord
          { message := "fetch failed", stack := "at api.js:10",
            timestamp := "2024-01-01T00:00:00.000Z", context := "sync", user := some "u-7" })] ∧
      a''.store = sampleDoctorStarted.store := by
  obtain ⟨a', h, -, hu, a'', h2, h3, -, -, h6, h7, h8⟩ :=
    error_log_write_failure_is_only_logged Env.writesFail
      sampleNetworkError "sync" sampleDoctorStarted _ ⟨"QuotaExceededError", "write failed"⟩
      rfl rfl rfl rfl
  refine ⟨a', a'', h, h2, ?_, h6.trans (by decide), h7, h8⟩
  rw [h3, hu]
  rfl

theorem handleAppError_started (env : Env) (error : ErrorValue) (context : String) (a : App)
    (ls : List Listener) (hs : a.storage = true) (hn : a.notifications = true)
    (he : a.events = some ls) :
    ∃ a', handleAppError env error context a = (.ok (), a') ∧
      appErrors a'.trace = appErrors a.trace ++ [(error, context)] := by
  refine ⟨_, handleAppError_apply env error context a ls hs hn he, ?_⟩
  simp [appErrors, List.filterMap_append]

/-- C20, as stated, fails before startup: on a new orchestrator `this.auth` is
`null`, so `this.auth.login` and `this.auth.logout` raise a `TypeError` inside
the `try`; the `catch` calls `handleAppError`, which raises at
`this.storage.setItem` because `this.storage` is not assigned either, and the
error leaves `login` and `logout`. -/
theorem login_before_startup_raises :
    (login Env.doctorLogsIn sampleCredentials (ClinicProApp.new Store.empty)).1 =
      .error (typeError "Cannot read properties of undefined (reading 'setItem')") ∧
    (logout Env.doctorLogsIn (ClinicProApp.new Store.empty)).1 =
      .error (typeError "Cannot read properties of undefined (reading 'setItem')") ∧
    appErrors (login Env.doctorLogsIn sampleCredentials (ClinicProApp.new Store.empty)).2.trace =
      [(JSError.value Env.doctorLogsIn
          (typeError "Cannot read properties of null (reading 'login')"), "login")] :=
  ⟨rfl, rfl, by decide⟩

/-- C20, amended: on an orchestrator whose session manager, store, notification
sink and event bus have been constructed, `login(credentials)` and `logout()`
complete. `login` returns `{ success: true, user }` with the user of the result
when `auth.login` returns a result with `success` true, and `{ success: false,
message }` with the message of the result when it returns one with `success`
false; in both cases `handleAppError` is not called. When `auth.login` raises,
`handleAppError` is called once, with that error and the context `login`, and the
object returned has `success` false. `logout` returns `{ success: true }` when
`auth.logout` completes; when it raises, `handleAppError` is called once, with
that error and the context `logout`, and the object returned has `success`
false. -/
theorem login_and_logout_complete_once_started (env : Env) (credentials : Credentials)
    (a : App) (ls : List Listener) (hauth : a.auth = true) (hs : a.storage = true)
    (hn : a.notifications = true) (he : a.events = some ls) :
    (∃ out a', login env credentials a = (.ok out, a') ∧
      (out.success = true ↔
        ∃ result, env.authLogin credentials = .ok result ∧ result.success = true) ∧
      match env.authLogin credentials with
      | .ok result =>
        appErrors a'.trace = appErrors a.trace ∧
        out = if result.success then { success := true, user := result.user, message := none }
              else { success := false, user := none, message := result.message }
      | .error e =>
        appErrors a'.trace = appErrors a.trace ++ [(e.value env, "login")] ∧
        out.success = false) ∧
    (∃ out a', logout env a = (.ok out, a') ∧
      match env.authLogout with
      | none => appErrors a'.trace = appErrors a.trace ∧ out.success = true
      | some e =>
        appErrors a'.trace = appErrors a.trace ++ [(e.value env, "logout")] ∧
        out.success = false) := by
  constructor
  · rcases hl : env.authLogin credentials with e | result
    · have h1 : authLogin env credentials a = (.error e, a) := by
        simp [authLogin, Method.bind, hauth, hl]
      obtain ⟨A, h2, h3⟩ := handleAppError_started env (e.value env) "login" a ls hs hn he
      have hlogin : login env credentials a =
          (.ok ⟨false, none, some "حدث خطأ أثناء تسجيل الدخول"⟩, A) := by
        unfold login
        simp only [bind_eq, pure_eq]
        rw [tryCatch_error (Method.bind_error h1), Method.bind_ok h2]
        rfl
      exact ⟨_, _, hlogin, by simp, h3, rfl⟩
    · have h1 : authLogin env credentials a = (.ok result, a) := by
        simp [authLogin, Method.bind, hauth, hl]
      rcases hsucc : result.success with _ | _
      · have hlogin : login env credentials a =
            (.ok { success := false, user := none, message := result.message },
             { a with trace := a.trace ++
                [.notify "error" (.text (orText result.message "فشل تسجيل الدخول"))] }) := by
          unfold login
          simp only [bind_eq, pure_eq]
          refine tryCatch_ok ?_
          rw [Method.bind_ok h1]
          simp [hsucc, showErrorNotification, notificationsShow, Method.bind, hn]
        exact ⟨_, _, hlogin, by simp [hsucc], by simp [appErrors, List.filterMap_append], by rw [hsucc]; rfl⟩
      · have hlogin : login env credentials a =
            (.ok { success := true, user := result.user, message := none },
             { a with trace := a.trace ++
                [.notify "success" (.text "تم تسجيل الدخول بنجاح")] }) := by
          unfold login
          simp only [bind_eq, pure_eq]
          refine tryCatch_ok ?_
          rw [Method.bind_ok h1]
          simp [hsucc, showSuccessNotification, notificationsShow, Method.bind, hn]
        exact ⟨_, _, hlogin, by simp [hsucc], by simp [appErrors, List.filterMap_append], by rw [hsucc]; rfl⟩
  · rcases hl : env.authLogout with _ | e
    · have hlogout : logout env a =
          (.ok { success := true, user := none, message := none },
           { a with trace := a.trace ++
              [.notify "success" (.text "تم تسجيل الخروج بنجاح")] }) := by
        unfold logout
        simp only [bind_eq, pure_eq]
        refine tryCatch_ok ?_
        simp [authLogout, showSuccessNotification, notificationsShow, Method.bind, hauth, hn, hl]
      exact ⟨_, _, hlogout, by simp [appErrors, List.filterMap_append], rfl⟩
    · have h1 : authLogout env a = (.error e, a) := by
        simp [authLogout, Method.bind, hauth, hl]
      obtain ⟨A, h2, h3⟩ := handleAppError_started env (e.value env) "logout" a ls hs hn he
      have hlogout : logout env a =
          (.ok ⟨false, none, some "حدث خطأ أثناء تسجيل الخروج"⟩, A) := by
        unfold logout
        simp only [bind_eq, pure_eq]
        rw [tryCatch_error (Method.bind_error h1), Method.bind_ok h2]
        rfl
      exact ⟨_, _, hlogout, h3, rfl⟩

/-- Witness of C20: on a started orchestrator the doctor signs in, a stranger is
turned away, and a session manager that cannot reach its server makes `login`
report the failure through `handleAppError`. -/
theorem login_and_logout_complete_once_started_witness :
    (login Env.doctorLogsIn sampleCredentials sampleStarted).1 =
      .ok { success := true, user := some sampleDoctor, message := none } ∧
    (login Env.doctorLogsIn { sampleCredentials with email := "x@clinic.example" }
      sampleStarted).1 =
      .ok { success := false, user := none, message := some "Invalid credentials" } ∧
    (∃ out a', login Env.sessionServerDown sampleCredentials sampleStarted = (.ok out, a') ∧
      out.success = false ∧
      appErrors a'.trace = [(⟨some "NetworkError", "fetch failed", "NetworkError: fetch failed"⟩,
        "login")]) ∧
    (∃ out a', logout Env.sessionServerDown sampleStarted = (.ok out, a') ∧
      out.success = false ∧
      appErrors a'.trace = [(⟨some "NetworkError", "fetch failed", "NetworkError: fetch failed"⟩,
        "logout")]) := by
  obtain ⟨⟨out, a', h1, -, h2⟩, out2, a2, h3, h4⟩ := login_and_logout_complete_once_started
    Env.sessionServerDown sampleCredentials sampleStarted _ rfl rfl rfl rfl
  exact ⟨rfl, rfl, ⟨out, a', h1, h2.2, h2.1.trans (by decide)⟩,
    ⟨out2, a2, h3, h4.2, h4.1.trans (by decide)⟩⟩

/-! ## What the result of startup tells -/

theorem startup_cases (env : Env) (a : App) :
    (∃ a', ClinicProApp.initialize env a = (.ok true, a')) ∨
    (∃ a', ClinicProApp.initialize env a = (.ok false, a') ∧
      a'.isInitialized = a.isInitialized ∧ emitted a'.trace = emitted a.trace) := by
  cases hc : env.compatibility.supported with
  | false =>
    refine Or.inr ⟨_, startup_unsupported env a hc, rfl, ?_⟩
    simp [emitted, List.filterMap_append]
  | true =>
  cases hs : env.storageInit with
  | some e =>
    obtain ⟨b, hb, -, -, h1, h2⟩ := startup_fails_at_core env a e hc hs
    exact Or.inr ⟨b, hb, h1, h2⟩
  | none =>
  cases ha : env.authInit with
  | some e =>
    obtain ⟨b, hb, -, -, h1, h2⟩ := startup_fails_at_authentication env a e hc hs (Or.inl ha)
    exact Or.inr ⟨b, hb, h1, h2⟩
  | none =>
  cases hsess : env.checkCurrentSession with
  | error e =>
    obtain ⟨b, hb, -, -, h1, h2⟩ :=
      startup_fails_at_authentication env a e hc hs (Or.inr ⟨ha, hsess⟩)
    exact Or.inr ⟨b, hb, h1, h2⟩
  | ok s =>
  cases hcss : env.loadCSS with
  | some e =>
    obtain ⟨b, hb, -, -, h1, h2⟩ := startup_fails_at_ui env a s e hc hs ha hsess (Or.inl hcss)
    exact Or.inr ⟨b, hb, h1, h2⟩
  | none =>
  cases htheme : env.getItemError "user_theme" with
  | some e =>
    obtain ⟨b, hb, -, -, h1, h2⟩ :=
      startup_fails_at_ui env a s e hc hs ha hsess (Or.inr ⟨hcss, htheme⟩)
    exact Or.inr ⟨b, hb, h1, h2⟩
  | none =>
  cases hr : env.routerInit with
  | some e =>
    obtain ⟨b, hb, -, -, h1, h2⟩ :=
      startup_fails_at_routing env a s e hc hs ha hsess hcss htheme hr
    exact Or.inr ⟨b, hb, h1, h2⟩
  | none =>
  by_cases hrole : ∀ u, s.user = some u → ∃ ds, getModulesForRole u.role = .descriptors ds
  · obtain ⟨b, hb, -⟩ := startup_succeeds env a s hc hs ha hsess hrole hcss htheme hr
    exact Or.inl ⟨b, hb⟩
  · push_neg at hrole
    obtain ⟨u, hu, hnot⟩ := hrole
    cases hk : getModulesForRole u.role with
    | descriptors ds => exact (hnot ds hk).elim
    | inherited key =>
      obtain ⟨b, hb, -, -, h1, h2⟩ :=
        startup_fails_at_modules env a s u key hc hs ha hsess hu hk hcss htheme hr
      exact Or.inr ⟨b, hb, h1, h2⟩

/-- C19: `initialize()` always resolves, to `true` or to `false`. When it
resolves to `true`, `markAsInitialized` was the last startup method entered,
`isInitialized` is `true`, the field `app.initialized` of the state tree is
`true`, and the call emitted exactly one event, `app:initialized`, whose data
carry the timestamp and the cached `currentUser`. When it resolves to `false`,
`isInitialized` is what it was before the call (`false` on a new orchestrator)
and the call emitted no event at all. -/
theorem startup_result_tells_whether_marked_initialized (env : Env) (a : App) :
    ∃ r a', ClinicProApp.initialize env a = (.ok r, a') ∧
      (r = true →
        (phasesEntered a'.trace).getLast? = some .markAsInitialized ∧
        a'.isInitialized = true ∧
        a'.state.map (fun st => st.app.initialized) = some true ∧
        emitted a'.trace = emitted a.trace ++
          [("app:initialized", .initialized env.now a'.currentUser)]) ∧
      (r = false → a'.isInitialized = a.isInitialized ∧ emitted a'.trace = emitted a.trace) := by
  rcases startup_cases env a with ⟨a', h⟩ | ⟨a', h, h1, h2⟩
  · obtain ⟨i1, -, -, -, -, -, ⟨s, hs, -, hu⟩, hp, -, -, ⟨s2, hs2, hem⟩, -, hst⟩ :=
      startup_true_inv env a a' h
    refine ⟨true, a', h, fun _ => ⟨?_, i1, hst, ?_⟩, fun hf => by simp at hf⟩
    · rw [hp]
      simp
    · rw [hs] at hs2
      cases hs2
      rw [hem, hu]
  · exact ⟨false, a', h, fun hf => by simp at hf, fun _ => ⟨h1, h2⟩⟩

/-! ## Stopping -/

theorem hooksInvoked_append (s t : List Effect) :
    hooksInvoked (s ++ t) = hooksInvoked s ++ hooksInvoked t := by
  simp [hooksInvoked, List.filterMap_append]

theorem runShutdownHooks_apply {β : Type} (env : Env) (path : β → String)
    (registry : List (String × β))
    (h : ∀ entry ∈ registry, ∀ e, env.shutdownHook (path entry.2) ≠ .raises e) (a : App) :
    ∃ a', forEach registry (fun entry => runShutdownHook env entry.1 (path entry.2)) a =
        (.ok (), a') ∧
      a' = { a with trace := a'.trace } ∧
      hooksInvoked a'.trace = hooksInvoked a.trace ++ hookedKeys env path registry ∧
      emitted a'.trace = emitted a.trace := by
  induction registry generalizing a with
  | nil => exact ⟨a, rfl, rfl, by simp [hookedKeys], rfl⟩
  | cons entry rest ih =>
    have hrest : ∀ x ∈ rest, ∀ e, env.shutdownHook (path x.2) ≠ .raises e :=
      fun x hx => h x (List.mem_cons_of_mem _ hx)
    have hentry := h entry (List.mem_cons_self _ _)
    unfold forEach
    rcases hk : env.shutdownHook (path entry.2) with _ | _ | e
    · obtain ⟨a', h1, h2, h3, h4⟩ := ih hrest a
      refine ⟨a', ?_, h2, ?_, h4⟩
      · have hb : runShutdownHook env entry.1 (path entry.2) a = (.ok (), a) := by
          simp [runShutdownHook, hk]
        rw [Method.bind_ok hb]
        exact h1
      · rw [h3]
        simp [hookedKeys, List.filter_cons, hk]
    · obtain ⟨a', h1, h2, h3, h4⟩ := ih hrest { a with trace := a.trace ++ [.shutdownHook entry.1] }
      refine ⟨a', ?_, ?_, ?_, ?_⟩
      · have hb : runShutdownHook env entry.1 (path entry.2) a =
            (.ok (), { a with trace := a.trace ++ [.shutdownHook entry.1] }) := by
          simp [runShutdownHook, hk]
        rw [Method.bind_ok hb]
        exact h1
      · rw [h2]
      · rw [h3]
        simp [hookedKeys, List.filter_cons, hk, hooksInvoked, List.filterMap_append]
      · rw [h4]
        simp [emitted, List.filterMap_append]
    · exact (hentry e hk).elim


theorem saveApplicationState_frame (env : Env) (a : App) :
    ∃ a', saveApplicationState env a = (.ok (), a') ∧
      a'.services = a.services ∧ a'.modules = a.modules ∧ a'.events = a.events ∧
      a'.timers = a.timers ∧ a'.state = a.state ∧
      hooksInvoked a'.trace = hooksInvoked a.trace ∧ emitted a'.trace = emitted a.trace ∧
      (∀ st, a.state = some st → a.storage = true →
        env.setItemError "app_recovery_state" = none →
        a'.store.recoveryState = some { auth := st.auth, ui := st.ui, timestamp := env.now }) := by
  rw [saveApplicationState_apply]
  obtain ⟨storage, state, events, notifications, auth, router, isInitialized, isAuthenticated,
    currentUser, currentRoute, modules, services, windowListeners, pending, unsettled,
    timers, store, trace⟩ := a
  cases state <;> cases storage <;> cases he : env.setItemError "app_recovery_state" <;>
    simp [hooksInvoked, emitted, List.filterMap_append]

/-- C16, as stated, fails in three ways. With the doctor signed in and the
shutdown hook of the cache manager raising, `shutdown()` raises that error after
the hooks of `api` and `cache`: the hooks of `backup`, `notifications` and of the
three modules are not called, the four listeners stay registered, and a logout
event published afterwards still reaches its handler and navigates to `/login`.
With a store that rejects the write, `shutdown()` completes without a snapshot in
the store. On an orchestrator that was never started, `shutdown()` raises at
`this.events.emit`. -/
theorem shutdown_stops_at_a_raising_hook :
    ( ClinicProApp.initialize Env.cacheHookRaises (ClinicProApp.new Store.empty)).1 = .ok true ∧
    (shutdown Env.cacheHookRaises
      ( ClinicProApp.initialize Env.cacheHookRaises (ClinicProApp.new Store.empty)).2).1 =
        .error ⟨"Error", "cache busy"⟩ ∧
    hooksInvoked (shutdown Env.cacheHookRaises
      ( ClinicProApp.initialize Env.cacheHookRaises (ClinicProApp.new Store.empty)).2).2.trace =
        ["api", "cache"] ∧
    (shutdown Env.cacheHookRaises
      ( ClinicProApp.initialize Env.cacheHookRaises (ClinicProApp.new Store.empty)).2).2.events =
        some [.authLogin, .authLogout, .languageChanged, .themeChanged] ∧
    navigations (publish Env.cacheHookRaises "auth:logout" .absent (shutdown Env.cacheHookRaises
      ( ClinicProApp.initialize Env.cacheHookRaises
        (ClinicProApp.new Store.empty)).2).2).2.trace = ["/login"] ∧
    (shutdown Env.writesFail sampleDoctorStarted).1 = .ok () ∧
    (shutdown Env.writesFail sampleDoctorStarted).2.store.recoveryState = none ∧
    (shutdown Env.nominal (ClinicProApp.new Store.empty)).1 =
      .error (typeError "Cannot read properties of undefined (reading 'emit')") :=
  ⟨rfl, rfl, by decide, rfl, by decide, rfl, rfl, rfl⟩


/-- C16, amended: on an orchestrator whose event bus has been constructed, and
provided no shutdown hook raises, for every content of the two registries
`shutdown()` completes; it emits `app:shutdown`, calls the shutdown hook of every
registered service and then of every registered module that exposes one, once per
registry entry and in registry order, skipping the entries without a hook, and
removes all listeners: an event published afterwards reaches no handler. The
snapshot is attempted on the way and is in the store when the state tree exists
and the store accepts the write. -/
theorem shutdown_runs_every_hook_and_unsubscribes (env : Env) (a : App) (ls : List Listener)
    (he : a.events = some ls)
    (hsv : ∀ entry ∈ a.services, ∀ e, env.shutdownHook entry.2 ≠ .raises e)
    (hmd : ∀ entry ∈ a.modules, ∀ e, env.shutdownHook entry.2.path ≠ .raises e) :
    ∃ a', shutdown env a = (.ok (), a') ∧
      emitted a'.trace = emitted a.trace ++ [("app:shutdown", .shutdown env.now)] ∧
      hooksInvoked a'.trace = hooksInvoked a.trace ++
        (hookedKeys env id a.services ++ hookedKeys env ModuleInstance.path a.modules) ∧
      (∀ st, a.state = some st → a.storage = true →
        env.setItemError "app_recovery_state" = none →
        a'.store.recoveryState = some { auth := st.auth, ui := st.ui, timestamp := env.now }) ∧
      a'.events = some [] ∧
      ∀ event data, publish env event data a' =
        (.ok (), { a' with trace := a'.trace ++ [.emit event data] }) := by
  have h1 : eventsEmit "app:shutdown" (.shutdown env.now) a =
      (.ok (), { a with trace := a.trace ++ [.emit "app:shutdown" (.shutdown env.now)] }) := by
    simp [eventsEmit, Method.bind, he]
  obtain ⟨a2, h2, s2, m2, e2, -, st2, k2, t2, r2⟩ := saveApplicationState_frame env
    { a with trace := a.trace ++ [.emit "app:shutdown" (.shutdown env.now)] }
  obtain ⟨a3, h3, f3, k3, t3⟩ := runShutdownHooks_apply env id a2.services
    (by rw [s2]; exact hsv) a2
  obtain ⟨a4, h4, f4, k4, t4⟩ := runShutdownHooks_apply env ModuleInstance.path a3.modules
    (by rw [f3, m2]; exact hmd) a3
  have e4 : a4.events = some ls := by rw [f4, f3, e2]; exact he
  have h5 : eventsRemoveAllListeners a4 = (.ok (), { a4 with events := some [] }) := by
    simp [eventsRemoveAllListeners, Method.bind, e4]
  refine ⟨{ a4 with events := some [] }, ?_, ?_, ?_, ?_, rfl, ?_⟩
  · unfold shutdown
    simp only [bind_eq]
    rw [Method.bind_ok h1, Method.bind_ok h2, Method.bind_ok (getThis_apply a2)]
    have h3' : forEach a2.services (fun service => runShutdownHook env service.1 service.2) a2 =
        (.ok (), a3) := h3
    rw [Method.bind_ok h3', Method.bind_ok (getThis_apply a3)]
    have h4' : forEach a3.modules (fun module => runShutdownHook env module.1 module.2.path) a3 =
        (.ok (), a4) := h4
    rw [Method.bind_ok h4']
    exact h5
  · show emitted a4.trace = _
    rw [t4, t3, t2]
    simp [emitted, List.filterMap_append]
  · show hooksInvoked a4.trace = _
    rw [k4, k3, k2, f3, m2, s2]
    simp [hooksInvoked, List.filterMap_append]
  · intro st hst hsto hw
    show a4.store.recoveryState = _
    rw [f4, f3]
    exact r2 st hst hsto hw
  · intro event data
    simp [publish, Method.bind, forEach]


/-- Witness of C16: with the doctor signed in, four services and three modules
are registered; the API service and the prescription module have no hook. The
five hooks that exist are called in order, the listeners are gone, the snapshot
is in the store, and a logout event published afterwards navigates nowhere. -/
theorem shutdown_runs_every_hook_and_unsubscribes_witness :
    ∃ a', shutdown Env.someHooksAbsent sampleSomeHooks = (.ok (), a') ∧
      mapKeys sampleSomeHooks.services = ["api", "cache", "backup", "notifications"] ∧
      mapKeys sampleSomeHooks.modules =
        ["doctor-dashboard", "prescription-manager", "patient-manager"] ∧
      hooksInvoked a'.trace =
        ["cache", "backup", "notifications", "doctor-dashboard", "patient-manager"] ∧
      emitted a'.trace = emitted sampleSomeHooks.trace ++
        [("app:shutdown", .shutdown "2024-01-01T00:00:00.000Z")] ∧
      a'.store.recoveryState.isSome = true ∧
      a'.events = some [] ∧
      navigations (publish Env.someHooksAbsent "auth:logout" .absent a').2.trace =
        navigations a'.trace := by
  have hsv : ∀ entry ∈ sampleSomeHooks.services, ∀ e,
      Env.someHooksAbsent.shutdownHook entry.2 ≠ .raises e := by
    intro entry _ e
    simp only [Env.someHooksAbsent]
    split <;> simp
  have hmd : ∀ entry ∈ sampleSomeHooks.modules, ∀ e,
      Env.someHooksAbsent.shutdownHook entry.2.path ≠ .raises e := by
    intro entry _ e
    simp only [Env.someHooksAbsent]
    split <;> simp
  obtain ⟨a', h1, h2, h3, h4, h5, h6⟩ := shutdown_runs_every_hook_and_unsubscribes
    Env.someHooksAbsent sampleSomeHooks [.authLogin, .authLogout, .languageChanged, .themeChanged]
    rfl hsv hmd
  refine ⟨a', h1, by decide, by decide, h3.trans (by decide), h2, ?_, h5, ?_⟩
  · rw [h4 _ rfl rfl rfl]
    rfl
  · rw [h6]
    simp [navigations, List.filterMap_append]

/-- C17, as stated, fails: `run()` arms three timers, `shutdown()` completes, and
the three timers are still armed; when the daily timer fires afterwards it calls
`createAutoBackup` on the backup service, and the two others call their tasks as
well, because `shutdown()` leaves the service registry as it is. -/
theorem timers_fire_after_shutdown :
    (run Env.doctor (ClinicProApp.new Store.empty)).1 = .ok true ∧
    sampleRunning.timers = [⟨.autoBackup, 86400000⟩, ⟨.scheduledNotifications, 300000⟩,
      ⟨.cacheCleanup, 3600000⟩] ∧
    (shutdown Env.doctor sampleRunning).1 = .ok () ∧
    sampleStopped.timers = sampleRunning.timers ∧
    serviceCalls (Timer.fire ⟨.autoBackup, 86400000⟩ sampleStopped).2.trace =
      [("backup", "createAutoBackup")] ∧
    serviceCalls (forEach sampleStopped.timers Timer.fire sampleStopped).2.trace =
      [("backup", "createAutoBackup"), ("notifications", "sendScheduledNotifications"),
       ("cache", "cleanup")] :=
  ⟨rfl, rfl, rfl, rfl, by decide, by decide⟩

theorem runShutdownHook_keeps {β : Type} (f : App → β)
    (hf : ∀ (a : App) t, f { a with trace := t } = f a) (env : Env) (name path : String) :
    Preserves (Keeps f) (runShutdownHook env name path) := by
  unfold runShutdownHook
  split
  · exact keeps_pure _ _
  · exact keeps_observe _ _ fun a => hf a _
  · exact preserves_bind (keeps_trans _) (keeps_observe _ _ fun a => hf a _)
      fun _ => keeps_raise _ _

theorem shutdown_keeps_timers_and_services (env : Env) :
    Preserves (Keeps fun a => (a.timers, a.services)) (shutdown env) := by
  unfold shutdown saveApplicationState eventsEmit eventsRemoveAllListeners stateGet setItem
  simp only [bind_eq, pure_eq]
  repeat' first
    | exact runShutdownHook_keeps (fun a => (a.timers, a.services)) (fun _ _ => rfl) _ _ _
    | exact keeps_assign _ _ (fun _ => rfl)
    | exact keeps_observe _ _ (fun _ => rfl)
    | exact keeps_pure _ _
    | exact keeps_raise _ _
    | exact keeps_getThis _
    | exact keeps_call _ _
    | apply preserves_bind (keeps_trans _)
    | apply preserves_tryCatch (keeps_trans _)
    | apply preserves_forEach (keeps_refl _) (keeps_trans _)
    | split
    | intro _

/-- C17, amended: `shutdown()` cancels none of the periodic tasks. Whatever the
state of the orchestrator and whatever the collaborators do, and whether
`shutdown()` completes or raises, the timers armed before it are armed after it
and the service registry is the same; so a timer that fires after `shutdown()`
calls its task on its service exactly when that service is registered, as it did
before. `run()`, when it resolves to `true`, has armed three more timers: the
daily backup, the five-minute notification dispatch and the hourly cache
cleanup. -/
theorem shutdown_leaves_the_timers_armed (env : Env) (a : App) :
    (shutdown env a).2.timers = a.timers ∧
    (shutdown env a).2.services = a.services ∧
    (∀ timer, serviceCalls (Timer.fire timer (shutdown env a).2).2.trace =
      serviceCalls (shutdown env a).2.trace ++
        if a.services.any (fun kv => kv.1 == timer.task.service)
        then [(timer.task.service, timer.task.method)] else []) ∧
    (∀ a', run env a = (.ok true, a') →
      a'.timers = a.timers ++ [⟨.autoBackup, 86400000⟩, ⟨.scheduledNotifications, 300000⟩,
        ⟨.cacheCleanup, 3600000⟩]) := by
  have hk := shutdown_keeps_timers_and_services env a
  simp only [Keeps, Prod.mk.injEq] at hk
  refine ⟨hk.1, hk.2, ?_, ?_⟩
  · intro timer
    unfold Timer.fire
    simp only [bind_eq, Method.bind, getThis_apply, hk.2]
    split <;> simp [serviceCalls, List.filterMap_append, Method.pure]
  · intro a' hrun
    unfold run at hrun
    simp only [bind_eq, pure_eq] at hrun
    rcases startup_cases env a with ⟨b, hb⟩ | ⟨b, hb, -⟩
    · obtain ⟨-, -, -, hev, -, -, -, -, -, -, -, htm, -⟩ := startup_true_inv env a b hb
      rw [Method.bind_ok hb] at hrun
      simp only [if_true] at hrun
      have h1 : eventsEmit "app:started" (.started env.now systemVersion) b =
          (.ok (), { b with trace := b.trace ++ [.emit "app:started"
            (.started env.now systemVersion)] }) := by
        simp [eventsEmit, Method.bind, hev]
      rw [Method.bind_ok h1] at hrun
      simp [startBackgroundServices, autoBackupEnabled, Method.bind, Method.pure] at hrun
      rw [← hrun, htm]
    · rw [Method.bind_ok hb] at hrun
      simp [Method.pure] at hrun


/-! ## The service loader -/

theorem initializeServices_eq (env : Env) :
    initializeServices env =
      Method.bind (observe (.enter .initializeServices)) fun _ =>
        forEach services (loadService env) := rfl

theorem loadService_apply (env : Env) (service : String × String) (a : App) :
    loadService env service a =
      match env.serviceLoad service.2 with
      | some e =>
        (.ok (), { a with trace := a.trace ++
          [.dynamicImport service.2, .warn ("Failed to load service: " ++ service.1) e] })
      | none =>
        (.ok (), { a with
          services := mapSet a.services service.1 service.2,
          trace := a.trace ++ [.dynamicImport service.2, .loaded service.1] }) := by
  cases h1 : env.serviceLoad service.2 <;> simp [loadService, tryCatch, Method.bind, h1]

theorem loadServices_apply (env : Env) (xs : List (String × String)) :
    ∀ a : App, (xs.map Prod.fst).Nodup → (∀ x ∈ xs, x.1 ∉ mapKeys a.services) →
      ∃ a', forEach xs (loadService env) a = (.ok (), a') ∧
        importsAttempted a'.trace = importsAttempted a.trace ++ xs.map Prod.snd ∧
        mapKeys a'.services = mapKeys a.services ++
          (xs.filter fun service => (env.serviceLoad service.2).isNone).map Prod.fst := by
  induction xs with
  | nil => intro a _ _; exact ⟨a, rfl, by simp, by simp⟩
  | cons x xs ih =>
    intro a hnd hfresh
    rw [List.map_cons, List.nodup_cons] at hnd
    have hx : x.1 ∉ mapKeys a.services := hfresh x (List.mem_cons_self _ _)
    obtain ⟨b, hb, hbt, hbk⟩ : ∃ b, loadService env x a = (.ok (), b) ∧
        importsAttempted b.trace = importsAttempted a.trace ++ [x.2] ∧
        mapKeys b.services = mapKeys a.services ++
          if (env.serviceLoad x.2).isNone then [x.1] else [] := by
      rw [loadService_apply]
      cases h1 : env.serviceLoad x.2
      · exact ⟨_, rfl, by simp [importsAttempted],
          by simp [mapSet_of_not_mem _ _ _ hx, mapKeys]⟩
      · exact ⟨_, rfl, by simp [importsAttempted], by simp⟩
    have hfresh' : ∀ y ∈ xs, y.1 ∉ mapKeys b.services := by
      intro y hy hmem
      rw [hbk] at hmem
      rcases List.mem_append.mp hmem with hmem | hmem
      · exact hfresh y (List.mem_cons_of_mem _ hy) hmem
      · split at hmem
        · simp at hmem
          exact hnd.1 (hmem ▸ List.mem_map_of_mem _ hy)
        · simp at hmem
    obtain ⟨a', h1, h2, h3⟩ := ih b hnd.2 hfresh'
    refine ⟨a', ?_, ?_, ?_⟩
    · show Method.bind (loadService env x) (fun _ => forEach xs (loadService env)) a = _
      rw [Method.bind_ok hb]
      exact h1
    · rw [h2, hbt]
      simp
    · rw [h3, hbk]
      cases h1 : (env.serviceLoad x.2).isNone <;> simp [List.filter, h1]

/-- C21: on an orchestrator whose service registry is empty, as it is when
startup reaches `initializeServices`, the method completes whatever the imports
and constructors do; it calls `import` for the four services `api`, `cache`,
`backup`, `notifications`, in that order, and the keys of the registry are then
the names of exactly those services whose import and construction succeeded, in
that order. -/
theorem service_loader_isolates_failures (env : Env) (a : App) (hs : a.services = []) :
    ∃ a', initializeServices env a = (.ok (), a') ∧
      services.map Prod.fst = ["api", "cache", "backup", "notifications"] ∧
      importsAttempted a'.trace = importsAttempted a.trace ++ services.map Prod.snd ∧
      mapKeys a'.services =
        (services.filter fun service => (env.serviceLoad service.2).isNone).map Prod.fst := by
  obtain ⟨a', h1, h2, h3⟩ := loadServices_apply env services
    { a with trace := a.trace ++ [.enter .initializeServices] } (by decide)
    (by intro x _; simp [hs, mapKeys])
  refine ⟨a', ?_, by decide, ?_, ?_⟩
  · rw [initializeServices_eq, Method.bind_ok (observe_apply _ a)]
    exact h1
  · rw [h2]
    simp [importsAttempted]
  · rw [h3]
    simp [hs, mapKeys]

/-- Witness of C21: the API service and the backup manager fail to load; the
cache manager and the notification scheduler are registered. -/
theorem service_loader_isolates_failures_witness :
    ∃ a', initializeServices Env.twoServicesMissing (ClinicProApp.new Store.empty) = (.ok (), a') ∧
      importsAttempted a'.trace =
        ["./services/api-service.js", "./core/cache-manager.js",
         "./services/backup/backup-manager.js",
         "./services/notifications/notification-scheduler.js"] ∧
      mapKeys a'.services = ["cache", "notifications"] := by
  obtain ⟨a', h1, -, h2, h3⟩ := service_loader_isolates_failures Env.twoServicesMissing
    (ClinicProApp.new Store.empty) rfl
  exact ⟨a', h1, h2.trans (by decide), h3.trans (by decide)⟩

/-! ## The connectivity signals -/

/-- C22: on an orchestrator that holds the state tree, the event bus and the
notification sink, which exist whenever the closures of `setupSystemEvents` are
registered, the closure for `online` sets `app.online` to `true`, emits
`network:online` and shows a notification, and the closure for `offline` sets
`app.online` to `false`, emits `network:offline` and shows a notification.
Nothing else is written: the other fields of region `app`, the regions `auth` and
`ui`, the cached `isAuthenticated` and `currentUser`, the module registry and the
loader loops still pending are what they were. -/
theorem connectivity_signals_write_only_app_online (a : App) (st : StateManager)
    (ls : List Listener) (hst : a.state = some st) (he : a.events = some ls)
    (hn : a.notifications = true) :
    handleOnline a = (.ok (), { a with
      state := some { st with app := { st.app with online := true } },
      trace := a.trace ++ [.emit "network:online" .absent,
        .notify "success" (.text "تم استعادة الاتصال بالشبكة")] }) ∧
    handleOffline a = (.ok (), { a with
      state := some { st with app := { st.app with online := false } },
      trace := a.trace ++ [.emit "network:offline" .absent,
        .notify "warning"
          (.text "فقدان الاتصال بالشبكة. جاري العمل في وضع عدم الاتصال")] }) ∧
    (∀ b ∈ [(handleOnline a).2, (handleOffline a).2],
      b.state.map StateManager.auth = some st.auth ∧
      b.isAuthenticated = a.isAuthenticated ∧ b.currentUser = a.currentUser ∧
      b.modules = a.modules ∧ b.pending = a.pending ∧ navigations b.trace = navigations a.trace) := by
  have h1 : handleOnline a = (.ok (), { a with
      state := some { st with app := { st.app with online := true } },
      trace := a.trace ++ [.emit "network:online" .absent,
        .notify "success" (.text "تم استعادة الاتصال بالشبكة")] }) := by
    obtain ⟨storage, state, events, notifications, auth, router, isInitialized, isAuthenticated,
      currentUser, currentRoute, modules, services, windowListeners, pending, unsettled,
      timers, store, trace⟩ := a
    simp only at hst he hn
    subst hst he hn
    simp [handleOnline, stateUpdate, eventsEmit, showSuccessNotification, notificationsShow,
      Method.bind, StateManager.update]
  have h2 : handleOffline a = (.ok (), { a with
      state := some { st with app := { st.app with online := false } },
      trace := a.trace ++ [.emit "network:offline" .absent,
        .notify "warning"
          (.text "فقدان الاتصال بالشبكة. جاري العمل في وضع عدم الاتصال")] }) := by
    obtain ⟨storage, state, events, notifications, auth, router, isInitialized, isAuthenticated,
      currentUser, currentRoute, modules, services, windowListeners, pending, unsettled,
      timers, store, trace⟩ := a
    simp only at hst he hn
    subst hst he hn
    simp [handleOffline, stateUpdate, eventsEmit, showWarningNotification, notificationsShow,
      Method.bind, StateManager.update]
  refine ⟨h1, h2, ?_⟩
  intro b hb
  simp only [List.mem_cons, List.mem_singleton, List.not_mem_nil, or_false] at hb
  rcases hb with hb | hb
  · rw [hb, h1]
    simp [navigations, List.filterMap_append]
  · rw [hb, h2]
    simp [navigations, List.filterMap_append]

/-- Witness of C22: the two signals on a started orchestrator with the doctor
signed in and the three modules of the role registered. -/
theorem connectivity_signals_write_only_app_online_witness :
    (handleOffline sampleDoctorStarted).1 = .ok () ∧
    (handleOffline sampleDoctorStarted).2.state.map (fun st => st.app.online) = some false ∧
    (handleOnline (handleOffline sampleDoctorStarted).2).2.state.map
      (fun st => st.app.online) = some true ∧
    (handleOffline sampleDoctorStarted).2.currentUser = some sampleDoctor ∧
    mapKeys (handleOffline sampleDoctorStarted).2.modules =
      ["doctor-dashboard", "prescription-manager", "patient-manager"] ∧
    emitted (handleOffline sampleDoctorStarted).2.trace =
      emitted sampleDoctorStarted.trace ++ [("network:offline", .absent)] := by
  obtain ⟨-, h2, -⟩ := connectivity_signals_write_only_app_online sampleDoctorStarted
    ((initialState Env.doctor).update (.appInitialized true)) _ rfl rfl rfl
  refine ⟨by rw [h2], by rw [h2]; rfl, by decide, by rw [h2]; rfl, by rw [h2]; decide, ?_⟩
  rw [h2]
  simp [emitted, List.filterMap_append]

/-! ## The state tree and the cache after startup -/

/-- C26 at its failing input: the store holds no session and
`checkCurrentSession` reports the doctor as signed in. `initialize()` resolves to
`true`; the cache then says signed in, with the doctor as `currentUser`, while
the region `auth` of the state tree still holds the initial values, because
`initializeAuthentication` assigns the cache and does not call `state.update`.
The other way round, with a stored session of the doctor and a session check
that reports nobody, the state tree says signed in and the cache does not. When
the stored session and the session check agree, so do state tree and cache. -/
theorem session_check_is_not_written_to_the_state_tree :
    ( ClinicProApp.initialize Env.doctor (ClinicProApp.new Store.empty)).1 = .ok true ∧
    sampleDoctorStarted.isAuthenticated = true ∧
    sampleDoctorStarted.currentUser = some sampleDoctor ∧
    sampleDoctorStarted.state.map StateManager.auth =
      some { isAuthenticated := false, user := none, token := none, permissions := [] } ∧
    ( ClinicProApp.initialize Env.nominal (ClinicProApp.new Store.withSession)).1 = .ok true ∧
    ( ClinicProApp.initialize Env.nominal (ClinicProApp.new Store.withSession)).2.isAuthenticated =
      false ∧
    ( ClinicProApp.initialize Env.nominal (ClinicProApp.new Store.withSession)).2.state.map
      StateManager.auth =
      some { isAuthenticated := true, user := some sampleDoctor, token := none,
             permissions := [] } ∧
    ( ClinicProApp.initialize Env.doctor (ClinicProApp.new Store.withSession)).2.state.map
      (fun st => (st.auth.isAuthenticated, st.auth.user)) = some (true, some sampleDoctor) ∧
    ( ClinicProApp.initialize Env.doctor (ClinicProApp.new Store.withSession)).2.currentUser =
      some sampleDoctor :=
  ⟨rfl, rfl, rfl, rfl, rfl, rfl, rfl, rfl, rfl⟩

/-! ## The module registry across logins -/

theorem mem_mapKeys_mapSet {β : Type} (m : List (String × β)) (key : String) (value : β)
    (name : String) : name ∈ mapKeys (mapSet m key value) ↔ name ∈ mapKeys m ∨ name = key := by
  unfold mapSet
  split
  · rename_i hany
    rw [List.any_eq_true] at hany
    obtain ⟨kv, hkv, hk⟩ := hany
    have hk' : kv.1 = key := by simpa using hk
    have hmem : key ∈ mapKeys m := List.mem_map.mpr ⟨kv, hkv, hk'⟩
    have hkeys : mapKeys (m.map fun kv => if kv.1 == key then (key, value) else kv) = mapKeys m := by
      simp only [mapKeys, List.map_map]
      refine List.map_congr_left fun x _ => ?_
      simp only [Function.comp]
      split
      · rename_i hx
        exact (by simpa using hx : x.1 = key).symm
      · rfl
    rw [hkeys]
    constructor
    · exact Or.inl
    · rintro (h | h)
      · exact h
      · rw [h]; exact hmem
  · simp [mapKeys]

theorem loadModules_key_set (env : Env) (ds : List ModuleDescriptor)
    (hall : ∀ d ∈ ds, env.moduleLoad d.path = none) :
    ∀ (a : App) (name : String), name ∈ mapKeys (loadModules env ds a).2.modules ↔
      name ∈ mapKeys a.modules ∨ name ∈ ds.map ModuleDescriptor.name := by
  induction ds with
  | nil => intro a name; simp [loadModules, forEach]
  | cons d ds ih =>
    intro a name
    rw [loadModules_cons, ih (fun d' hd' => hall d' (List.mem_cons_of_mem _ hd'))]
    have hd := hall d (List.mem_cons_self _ _)
    have hk : (loadModule env d a).2.modules = mapSet a.modules d.name ⟨d.path, a.currentUser⟩ := by
      rw [loadModule_apply, hd]
      cases env.moduleInit d.path <;> rfl
    rw [hk, mem_mapKeys_mapSet]
    simp only [List.map_cons, List.mem_cons]
    tauto


theorem runPending_single (env : Env) (ds : List ModuleDescriptor) (a : App)
    (hp : a.pending = [ds]) :
    runPending env a = loadModules env ds { a with pending := [] } := by
  unfold runPending
  simp only [bind_eq]
  rw [Method.bind_ok (getThis_apply a), Method.bind_ok (assign_apply _ a), hp, forEach_singleton]

/-- C27, as stated, fails: the administrator is signed in at startup and the
three modules of that role are registered; then the login event of the doctor
arrives, with no logout before it, and the loader run it starts completes with
every module loading. The registry then holds the three modules of the
administrator followed by the three of the doctor. -/
theorem modules_of_the_earlier_role_stay_registered :
    mapKeys sampleAdminStarted.modules = ["system-admin", "reports-manager", "audit-logger"] ∧
    (publish Env.admin "auth:login" (.user sampleDoctor) sampleAdminStarted).1 = .ok () ∧
    (runPending Env.admin
      (publish Env.admin "auth:login" (.user sampleDoctor) sampleAdminStarted).2).1 = .ok () ∧
    mapKeys (runPending Env.admin
      (publish Env.admin "auth:login" (.user sampleDoctor) sampleAdminStarted).2).2.modules =
      ["system-admin", "reports-manager", "audit-logger",
       "doctor-dashboard", "prescription-manager", "patient-manager"] ∧
    getModulesForRole sampleDoctor.role = .descriptors
      [⟨"doctor-dashboard", "medical/doctor-dashboard"⟩,
       ⟨"prescription-manager", "prescriptions/prescription-manager"⟩,
       ⟨"patient-manager", "medical/patients/patient-manager"⟩] :=
  ⟨by decide, rfl, rfl, by decide, by decide⟩

theorem loadModules_trace (env : Env) (ds : List ModuleDescriptor)
    (hload : ∀ d ∈ ds, env.moduleLoad d.path = none)
    (hinit : ∀ d ∈ ds, env.moduleInit d.path = none) :
    ∀ a : App, (loadModules env ds a).2.trace = a.trace ++ (ds.map fun d =>
      [Effect.dynamicImport ("./modules/" ++ d.path ++ ".js"), .loaded d.name]).flatten := by
  induction ds with
  | nil => intro a; simp [loadModules, forEach]
  | cons d ds ih =>
    intro a
    rw [loadModules_cons, ih (fun d' hd' => hload d' (List.mem_cons_of_mem _ hd'))
      (fun d' hd' => hinit d' (List.mem_cons_of_mem _ hd'))]
    have hk : (loadModule env d a).2.trace = a.trace ++
        [.dynamicImport ("./modules/" ++ d.path ++ ".js"), .loaded d.name] := by
      rw [loadModule_apply, hload d (List.mem_cons_self _ _), hinit d (List.mem_cons_self _ _)]
    rw [hk]
    simp

/-- C27, amended: let the login event of a user `u` arrive at a started
orchestrator with no loader run pending, let the role of `u` have the module
list `ds`, and let every module of `ds` load and initialize. Once the loader run
started by the event has completed, every module of `ds` has been imported and
reported loaded, in table order and with no failure logged, and the keys of the
module registry are the keys it had before together with the names of `ds`:
nothing is removed by a login. When the registry was empty before, as it is
after a logout event, the keys are exactly the names of `ds`, in table order. -/
theorem login_adds_the_role_modules_to_the_registry (env : Env) (a : App) (u : User)
    (st : StateManager) (r : RouterEngine) (ds : List ModuleDescriptor)
    (hev : a.events = some [.authLogin, .authLogout, .languageChanged, .themeChanged])
    (hst : a.state = some st) (hr : a.router = some r) (hp : a.pending = [])
    (hds : getModulesForRole u.role = .descriptors ds)
    (hload : ∀ d ∈ ds, env.moduleLoad d.path = none)
    (hinit : ∀ d ∈ ds, env.moduleInit d.path = none) :
    ∃ a1 a2, publish env "auth:login" (.user u) a = (.ok (), a1) ∧
      runPending env a1 = (.ok (), a2) ∧
      a2.trace = a1.trace ++ (ds.map fun d =>
        [Effect.dynamicImport ("./modules/" ++ d.path ++ ".js"), .loaded d.name]).flatten ∧
      (∀ name, name ∈ mapKeys a2.modules ↔
        name ∈ mapKeys a.modules ∨ name ∈ ds.map ModuleDescriptor.name) ∧
      (a.modules = [] → (ds.map ModuleDescriptor.name).Nodup →
        mapKeys a2.modules = ds.map ModuleDescriptor.name) := by
  have h1 := (publish_login env a u hev).trans (handleAuthStateChange_login _ u st r hst hr)
  obtain ⟨A, hA⟩ : ∃ A : App, A = (publish env "auth:login" (.user u) a).2 := ⟨_, rfl⟩
  have hA1 : publish env "auth:login" (.user u) a = (.ok (), A) := by
    rw [hA, h1]
  have hAp : A.pending = [ds] := by
    rw [hA, h1]
    simp [hds, hp]
  have hAm : A.modules = a.modules := by
    rw [hA, h1]
  have h2 := runPending_single env ds A hAp
  have ht := total_apply_eq (loadModules_total env ds) { A with pending := [] }
  refine ⟨A, _, hA1, h2.trans ht, ?_, ?_, ?_⟩
  · exact loadModules_trace env ds hload hinit _
  · intro name
    rw [loadModules_key_set env ds hload]
    simp [hAm]
  · intro hm hnd
    have hk := loadModules_keys env ds { A with pending := [] } hnd
      (by intro d _; simp [hAm, hm, mapKeys])
    rw [hk]
    have hf : (ds.filter fun d => (env.moduleLoad d.path).isNone) = ds :=
      List.filter_eq_self.mpr fun d hd => by simp [hload d hd]
    simp [hf, hAm, hm, mapKeys]

/-- Witness of C27: the login event of the doctor on an orchestrator started with
the administrator signed in, whose registry holds the three modules of that
role: afterwards it holds those and the three of the doctor. -/
theorem login_adds_the_role_modules_to_the_registry_witness :
    ∃ a1 a2, publish Env.admin "auth:login" (.user sampleDoctor) sampleAdminStarted =
        (.ok (), a1) ∧
      runPending Env.admin a1 = (.ok (), a2) ∧
      mapKeys sampleAdminStarted.modules = ["system-admin", "reports-manager", "audit-logger"] ∧
      (∀ name, name ∈ mapKeys a2.modules ↔
        name ∈ ["system-admin", "reports-manager", "audit-logger"] ∨
        name ∈ ["doctor-dashboard", "prescription-manager", "patient-manager"]) := by
  obtain ⟨a1, a2, h1, h2, -, h4, -⟩ := login_adds_the_role_modules_to_the_registry Env.admin
    sampleAdminStarted sampleDoctor _ _ _ rfl rfl rfl rfl
    (getModulesForRole_of_lookup "doctor" _ rfl) (fun _ _ => rfl) (fun _ _ => rfl)
  exact ⟨a1, a2, h1, h2, by decide, h4⟩

/-! ## The singleton -/

theorem getApp_first (origin : Store) :
    (MainModule.load origin).getApp =
      (0, { appInstance := some 0, instances := [ClinicProApp.new origin], origin := origin }) :=
  rfl

theorem getApp_later (m : MainModule) (app : Nat) (h : m.appInstance = some app) :
    m.getApp = (app, m) := by
  simp [MainModule.getApp, h]

theorem callOn_singleton {α : Type} (m : MainModule) (this : App) (method : Method α)
    (h : m.instances = [this]) :
    (m.callOn 0 method).2 = { m with instances := [(method this).2] } := by
  simp [MainModule.callOn, h]

theorem callOn_inv {α : Type} (m : MainModule) (this : App) (method : Method α)
    (h1 : m.appInstance = some 0) (h2 : m.instances = [this]) :
    (m.callOn 0 method).2.appInstance = some 0 ∧
      (m.callOn 0 method).2.instances.length = 1 ∧ (m.callOn 0 method).2.origin = m.origin := by
  rw [callOn_singleton m this method h2]
  exact ⟨h1, rfl, rfl⟩

theorem call_singleton (env : Env) (m : MainModule) (this : App) (e : Export)
    (h1 : m.appInstance = some 0) (h2 : m.instances = [this]) :
    (m.call env e).1 = 0 ∧ (m.call env e).2.appInstance = some 0 ∧
      (m.call env e).2.instances.length = 1 ∧ (m.call env e).2.origin = m.origin := by
  have hg := getApp_later m 0 h1
  have hfst : (m.call env e).1 = 0 := by
    cases e <;> simp only [MainModule.call, hg]
  refine ⟨hfst, ?_⟩
  cases e with
  | getApp =>
    simp only [MainModule.call, hg]
    exact ⟨h1, by rw [h2]; rfl, trivial⟩
  | initializeApp =>
    simp only [MainModule.call, MainModule.initializeApp, hg]
    exact callOn_inv m this _ h1 h2
  | login credentials =>
    simp only [MainModule.call, MainModule.login, hg]
    exact callOn_inv m this _ h1 h2
  | logout =>
    simp only [MainModule.call, MainModule.logout, hg]
    exact callOn_inv m this _ h1 h2
  | getAppInfo =>
    simp only [MainModule.call, MainModule.getAppInfo, hg]
    exact callOn_inv m this _ h1 h2

theorem call_first (env : Env) (origin : Store) (e : Export) :
    ((MainModule.load origin).call env e).1 = 0 ∧
      ((MainModule.load origin).call env e).2.appInstance = some 0 ∧
      ((MainModule.load origin).call env e).2.instances.length = 1 ∧
      ((MainModule.load origin).call env e).2.origin = origin := by
  have hg := getApp_first origin
  have hfst : ((MainModule.load origin).call env e).1 = 0 := by
    cases e <;> simp only [MainModule.call, hg]
  refine ⟨hfst, ?_⟩
  have hinv : ∀ {α : Type} (method : Method α),
      (MainModule.callOn ⟨some 0, [ClinicProApp.new origin], origin⟩ 0 method).2.appInstance =
        some 0 ∧
      (MainModule.callOn ⟨some 0, [ClinicProApp.new origin], origin⟩ 0
        method).2.instances.length = 1 ∧
      (MainModule.callOn ⟨some 0, [ClinicProApp.new origin], origin⟩ 0 method).2.origin =
        origin :=
    fun method => callOn_inv _ (ClinicProApp.new origin) method rfl rfl
  cases e with
  | getApp =>
    simp only [MainModule.call, hg]
    exact ⟨trivial, rfl, trivial⟩
  | initializeApp =>
    simp only [MainModule.call, MainModule.initializeApp, hg]
    exact hinv _
  | login credentials =>
    simp only [MainModule.call, MainModule.login, hg]
    exact hinv _
  | logout =>
    simp only [MainModule.call, MainModule.logout, hg]
    exact hinv _
  | getAppInfo =>
    simp only [MainModule.call, MainModule.getAppInfo, hg]
    exact hinv _

theorem calls_singleton (cs : List (Env × Export)) :
    ∀ m : MainModule, m.appInstance = some 0 → m.instances.length = 1 →
      (∀ app ∈ (m.calls cs).1, app = 0) ∧ (m.calls cs).2.appInstance = some 0 ∧
        (m.calls cs).2.instances.length = 1 := by
  induction cs with
  | nil => intro m h1 h2; exact ⟨by simp [MainModule.calls], h1, h2⟩
  | cons c cs ih =>
    intro m h1 h2
    obtain ⟨this, hthis⟩ : ∃ this, m.instances = [this] :=
      List.length_eq_one.mp h2
    obtain ⟨k1, k2, k3, -⟩ := call_singleton c.1 m this c.2 h1 hthis
    obtain ⟨i1, i2, i3⟩ := ih _ k2 k3
    refine ⟨?_, i2, i3⟩
    intro app happ
    simp only [MainModule.calls, List.mem_cons] at happ
    rcases happ with happ | happ
    · rw [happ, k1]
    · exact i1 app happ

/-- C23: right after `main.js` is evaluated no orchestrator exists. The first
call of `getApp()` builds one and stores it in `appInstance`; a call of `getApp()`
that finds `appInstance` set returns that instance and builds nothing. So in
every sequence of calls of the exported `getApp`, `initializeApp`, `login`,
`logout` and `getAppInfo`, whatever the collaborators do and whether the calls
complete or raise, every call obtains the same instance, the first one built,
and no second instance is ever built. -/
theorem exported_functions_share_one_instance (origin : Store) (c : Env × Export)
    (cs : List (Env × Export)) :
    (MainModule.load origin).instances = [] ∧
    (MainModule.load origin).getApp.2.instances = [ClinicProApp.new origin] ∧
    (MainModule.load origin).getApp.2.getApp =
      ((MainModule.load origin).getApp.1, (MainModule.load origin).getApp.2) ∧
    (∀ (m : MainModule) (app : Nat), m.appInstance = some app → m.getApp = (app, m)) ∧
    (∀ app ∈ ((MainModule.load origin).calls (c :: cs)).1, app = 0) ∧
    ((MainModule.load origin).calls (c :: cs)).2.appInstance = some 0 ∧
    ((MainModule.load origin).calls (c :: cs)).2.instances.length = 1 := by
  refine ⟨rfl, rfl, rfl, getApp_later, ?_⟩
  obtain ⟨k1, k2, k3, -⟩ := call_first c.1 origin c.2
  obtain ⟨i1, i2, i3⟩ := calls_singleton cs _ k2 k3
  refine ⟨?_, i2, i3⟩
  intro app happ
  simp only [MainModule.calls, List.mem_cons] at happ
  rcases happ with happ | happ
  · rw [happ, k1]
  · exact i1 app happ



/-! ## The configuration module -/

/-! ## The nested-path helpers -/

theorem lookup_mapSet_self {β : Type} (m : List (String × β)) (key : String) (value : β) :
    (mapSet m key value).lookup key = some value := by
  unfold mapSet
  split
  · rename_i hany
    induction m with
    | nil => simp at hany
    | cons kv rest ih =>
      by_cases hk : kv.1 = key
      · have hb : (kv.1 == key) = true := by simpa using hk
        simp only [List.map_cons, hb, if_true, List.lookup_cons, beq_self_eq_true]
      · have hne : (key == kv.1) = false := by
          simpa using fun h => hk h.symm
        have hne' : (kv.1 == key) = false := by simpa using hk
        simp only [List.map_cons, hne', Bool.false_eq_true, if_false]
        rw [show kv = (kv.1, kv.2) from rfl, List.lookup_cons, hne]
        refine ih ?_
        simpa [List.any_cons, hne'] using hany
  · rename_i hany
    induction m with
    | nil => simp [List.lookup]
    | cons kv rest ih =>
      have hne' : (kv.1 == key) = false := by
        simp only [List.any_cons, Bool.or_eq_true, not_or] at hany
        simpa using hany.1
      have hne : (key == kv.1) = false := by
        simpa using fun h => (by simpa using hne' : kv.1 ≠ key) h.symm
      rw [List.cons_append, show kv = (kv.1, kv.2) from rfl, List.lookup_cons, hne]
      refine ih ?_
      simp only [List.any_cons, Bool.or_eq_true, not_or] at hany
      simpa using hany.2

theorem readProperty_mapSet_self (prototype props : List (String × JSValue)) (key : String)
    (value : JSValue) : readProperty prototype (mapSet props key value) key = .value value := by
  simp [readProperty, lookup_mapSet_self]

theorem objectPrototypeMember_mapSet_self (prototype : List (String × JSValue)) (key : String)
    (value : JSValue) : objectPrototypeMember (mapSet prototype key value) key = .value value := by
  simp [objectPrototypeMember, lookup_mapSet_self]

theorem writeProperty_plain (props : List (String × JSValue)) (key : String) (value : JSValue)
    (hk : key ≠ "__proto__") : writeProperty props key value = .returned (mapSet props key value) := by
  simp [writeProperty, hk]

theorem writePrototypeProperty_plain (prototype : List (String × JSValue)) (key : String)
    (value : JSValue) (hk : key ≠ "__proto__") :
    writePrototypeProperty prototype key value = .returned (mapSet prototype key value) := by
  simp [writePrototypeProperty, hk]

theorem reduceKeys_cons {V : Type} (r : Reader V) (obj : V) (key : String) (rest : List String) :
    reduceKeys r obj (key :: rest) =
      reduceKeys r
        (if r.truthy obj && !r.isUndefined (r.member obj key) then r.member obj key
         else r.undefined) rest := rfl

theorem reduceKeys_into_object (builtin : List (String × JSValue) → JSValue → String → Found)
    (prototype props child : List (String × JSValue)) (key : String) (rest : List String)
    (h : readProperty prototype props key = .value (.obj child)) :
    reduceKeys (JSValue.reader builtin prototype) (.value (.obj props)) (key :: rest) =
      reduceKeys (JSValue.reader builtin prototype) (.value (.obj child)) rest := by
  rw [reduceKeys_cons]
  simp [JSValue.reader, Found.member, Found.truthy, Found.isUndefined, h]

theorem reduceKeys_into_prototype (builtin : List (String × JSValue) → JSValue → String → Found)
    (prototype props : List (String × JSValue)) (rest : List String)
    (h : props.lookup "__proto__" = none) :
    reduceKeys (JSValue.reader builtin prototype) (.value (.obj props)) ("__proto__" :: rest) =
      reduceKeys (JSValue.reader builtin prototype) .objectPrototype rest := by
  rw [reduceKeys_cons]
  simp [JSValue.reader, Found.member, Found.truthy, Found.isUndefined, readProperty, h]

theorem reduceKeys_from_prototype (builtin : List (String × JSValue) → JSValue → String → Found)
    (prototype : List (String × JSValue)) (key : String) (value : JSValue) (rest : List String)
    (h : objectPrototypeMember prototype key = .value value)
    (hv : (Found.value value).isUndefined = false) :
    reduceKeys (JSValue.reader builtin prototype) .objectPrototype (key :: rest) =
      reduceKeys (JSValue.reader builtin prototype) (.value value) rest := by
  rw [reduceKeys_cons]
  simp [JSValue.reader, Found.member, Found.truthy, h, hv]

theorem written_map_map {α β γ : Type} (f : α → β) (g : β → γ) (w : Written α) :
    (w.map f).map g = w.map fun x => g (f x) := by
  cases w <;> rfl

/-- Below `Object.prototype` the walk creates or keeps an object under every key
and ends in `finish`, as long as no key is `__proto__` or the key the walk
entered under. -/
theorem walkBelow_spec (entered : String)
    (finish : List (String × JSValue) → Written (Bool × List (String × JSValue)))
    (P : List (String × JSValue) → Bool → List (String × JSValue) → Prop)
    (hfinish : ∀ target, ∃ r target', finish target = .returned (r, target') ∧ P target r target') :
    ∀ (keys : List String) (current : List (String × JSValue)),
      (∀ key ∈ keys, key ≠ "__proto__" ∧ key ≠ entered) →
      ∃ r current' target target', walkBelow entered finish current keys = .returned (r, current') ∧
        P target r target' ∧
        (∀ builtin prototype rest,
          reduceKeys (JSValue.reader builtin prototype) (.value (.obj current')) (keys ++ rest) =
            reduceKeys (JSValue.reader builtin prototype) (.value (.obj target')) rest) ∧
        (keys = [] → target = current ∧ current' = target') := by
  intro keys
  induction keys with
  | nil =>
    intro current _
    obtain ⟨r, target', h1, h2⟩ := hfinish current
    exact ⟨r, target', current, target', h1, h2, fun _ _ _ => rfl, fun _ => ⟨rfl, rfl⟩⟩
  | cons key keys ih =>
    intro current hkeys
    have hk := hkeys key (List.mem_cons_self _ _)
    have hks : ∀ k ∈ keys, k ≠ "__proto__" ∧ k ≠ entered := fun k h =>
      hkeys k (List.mem_cons_of_mem _ h)
    have key_step : ∀ child, (∀ out : Bool × List (String × JSValue),
          walkBelow entered finish child keys = .returned out →
          walkBelow entered finish current (key :: keys) =
            .returned (out.1, mapSet current key (.obj out.2))) →
        ∃ r current' target target',
          walkBelow entered finish current (key :: keys) = .returned (r, current') ∧
          P target r target' ∧
          (∀ builtin prototype rest,
            reduceKeys (JSValue.reader builtin prototype) (.value (.obj current'))
              (key :: keys ++ rest) =
            reduceKeys (JSValue.reader builtin prototype) (.value (.obj target')) rest) ∧
          (key :: keys = [] → target = current ∧ current' = target') := by
      intro child hw
      obtain ⟨r, child', target, target', h1, h2, h3, -⟩ := ih child hks
      refine ⟨r, _, target, target', hw (r, child') h1, h2, ?_, fun h => by simp at h⟩
      intro builtin prototype rest
      rw [List.cons_append, reduceKeys_into_object builtin prototype _ child' key _
        (readProperty_mapSet_self _ _ _ _)]
      exact h3 builtin prototype rest
    cases hread : current.lookup key with
    | none =>
      refine key_step [] ?_
      intro out hout
      simp only [walkBelow, hread, hk.1, hk.2, or_self, if_false, hout, Written.map]
    | some v =>
      cases v with
      | obj child =>
        refine key_step child ?_
        intro out hout
        simp only [walkBelow, hread, hout, Written.map]
      | prim p =>
        refine key_step [] ?_
        intro out hout
        simp only [walkBelow, hread, hout, Written.map]
      | fn name =>
        refine key_step [] ?_
        intro out hout
        simp only [walkBelow, hread, hout, Written.map]

/-- As long as no key is `__proto__`, the walk from `obj` is the walk through own
properties and leaves `Object.prototype` as the engine provides it. -/
theorem walkKeys_plain
    (finish finishPrototype :
      List (String × JSValue) → Written (Bool × List (String × JSValue))) :
    ∀ (keys : List String) (current : List (String × JSValue)), "__proto__" ∉ keys →
      walkKeys finish finishPrototype current keys =
        (walkBelow "__proto__" finish current keys).map fun out =>
          (out.1, ⟨out.2, objectPrototypeOwn⟩) := by
  intro keys
  induction keys with
  | nil => intro current _; rfl
  | cons key keys ih =>
    intro current hproto
    have hk : key ≠ "__proto__" := fun h => hproto (h ▸ List.mem_cons_self _ _)
    have hks : "__proto__" ∉ keys := fun h => hproto (List.mem_cons_of_mem _ h)
    cases hread : current.lookup key with
    | none =>
      simp only [walkKeys, walkBelow, hread, hk, or_self, if_false, ih _ hks, written_map_map]
    | some v =>
      cases v <;>
        simp only [walkKeys, walkBelow, hread, ih _ hks, written_map_map]

/-- The walk creates or keeps an object under every key and ends in `finish`. -/
theorem walkKeys_spec
    (finish finishPrototype :
      List (String × JSValue) → Written (Bool × List (String × JSValue)))
    (P : List (String × JSValue) → Bool → List (String × JSValue) → Prop)
    (hfinish : ∀ target, ∃ r target', finish target = .returned (r, target') ∧ P target r target') :
    ∀ (keys : List String) (current : List (String × JSValue)), "__proto__" ∉ keys →
      ∃ r current' target target',
        walkKeys finish finishPrototype current keys =
          .returned (r, ⟨current', objectPrototypeOwn⟩) ∧
        P target r target' ∧
        (∀ builtin prototype rest,
          reduceKeys (JSValue.reader builtin prototype) (.value (.obj current')) (keys ++ rest) =
            reduceKeys (JSValue.reader builtin prototype) (.value (.obj target')) rest) ∧
        (keys = [] → target = current ∧ current' = target') := by
  intro keys current hproto
  obtain ⟨r, current', target, target', h1, h2, h3, h4⟩ :=
    walkBelow_spec "__proto__" finish P hfinish keys current
      (fun k hk => ⟨fun h => hproto (h ▸ hk), fun h => hproto (h ▸ hk)⟩)
  refine ⟨r, current', target, target', ?_, h2, h3, h4⟩
  rw [walkKeys_plain finish finishPrototype keys current hproto, h1]
  rfl

theorem splitPath_parts (path : String) :
    ∃ last, (splitPath path).getLast? = some last ∧
      (splitPath path).dropLast ++ [last] = splitPath path := by
  have hne : splitPath path ≠ [] := by
    unfold splitPath
    have : ∀ cs, splitAtDots cs ≠ [] := by
      intro cs
      cases cs with
      | nil => simp [splitAtDots]
      | cons c rest =>
        simp only [splitAtDots]
        split
        · simp
        · split <;> simp
    simpa using this path.toList
  cases h : (splitPath path).getLast? with
  | none => exact (hne (List.getLast?_eq_none_iff.mp h)).elim
  | some last => exact ⟨last, rfl, List.dropLast_append_getLast? last h⟩


theorem afterPrototype_of_not_mem (keys : List String) (h : "__proto__" ∉ keys) :
    afterPrototype keys = none := by
  induction keys with
  | nil => rfl
  | cons key keys ih =>
    have hk : key ≠ "__proto__" := fun hk => h (hk ▸ List.mem_cons_self _ _)
    simp only [afterPrototype, hk, if_false]
    exact ih fun hm => h (List.mem_cons_of_mem _ hm)

theorem reduceKeys_last (builtin : List (String × JSValue) → JSValue → String → Found)
    (prototype target : List (String × JSValue)) (last : String) (value : JSValue)
    (h : readProperty prototype target last = .value value)
    (hv : (Found.value value).isUndefined = false) :
    reduceKeys (JSValue.reader builtin prototype) (.value (.obj target)) [last] =
      .value value := by
  rw [reduceKeys_cons]
  simp [reduceKeys, JSValue.reader, Found.member, Found.truthy, h, hv]

/-- The walk from `Object.prototype` ends in the assignment of `value`, which is
then read back along the same keys. -/
theorem walkPrototype_read_back (builtin : List (String × JSValue) → JSValue → String → Found)
    (value : JSValue) (last : String) (hv : (Found.value value).isUndefined = false)
    (hlast : last ≠ "") (keys : List String)
    (hproto : "__proto__" ∉ keys ++ [last])
    (hnext : ∀ next rest, keys ++ [last] = next :: rest → next ∉ rest) :
    ∃ prototype,
      walkPrototype
        (fun target =>
          if last ≠ "" then (writeProperty target last value).map fun written => (true, written)
          else .returned (false, target))
        (fun target =>
          if last ≠ "" then
            (writePrototypeProperty target last value).map fun written => (true, written)
          else .returned (false, target))
        keys = .returned (true, prototype) ∧
      reduceKeys (JSValue.reader builtin prototype) .objectPrototype (keys ++ [last]) =
        .value value := by
  have hlp : last ≠ "__proto__" := fun h => hproto (by simp [h])
  cases keys with
  | nil =>
    refine ⟨mapSet objectPrototypeOwn last value, ?_, ?_⟩
    · simp [walkPrototype, hlast, writePrototypeProperty_plain _ _ _ hlp, Written.map]
    · rw [List.nil_append, reduceKeys_from_prototype builtin _ last value []
        (objectPrototypeMember_mapSet_self _ _ _) hv]
      rfl
  | cons next keys =>
    have hn : next ≠ "__proto__" := fun h => hproto (by simp [h])
    have hrest : next ∉ keys ++ [last] := hnext next (keys ++ [last]) rfl
    obtain ⟨r, current', target, target', h1, ⟨h2, h3⟩, h4, -⟩ := walkBelow_spec next
      (fun target =>
        if last ≠ "" then (writeProperty target last value).map fun written => (true, written)
        else .returned (false, target))
      (fun _ r target' => r = true ∧ ∀ prototype, readProperty prototype target' last = .value value)
      (fun target => ⟨true, mapSet target last value, by
        simp [hlast, writeProperty_plain _ _ _ hlp, Written.map], rfl,
        fun _ => readProperty_mapSet_self _ _ _ _⟩)
      keys []
      (fun k hk => ⟨fun h => hproto (by simp [← h, hk]), fun h => hrest (by simp [← h, hk])⟩)
    subst h2
    refine ⟨mapSet objectPrototypeOwn next (.obj current'), ?_, ?_⟩
    · simp only [walkPrototype, hn, if_false]
      rw [h1]
      rfl
    · rw [List.cons_append, reduceKeys_from_prototype builtin _ next (.obj current') _
        (objectPrototypeMember_mapSet_self _ _ _) rfl, h4 builtin _ [last]]
      exact reduceKeys_last builtin _ _ _ _ (h3 _) hv

/-- The walk from `obj` ends in the assignment of `value`, which is then read
back along the same keys. -/
theorem walkKeys_read_back (builtin : List (String × JSValue) → JSValue → String → Found)
    (value : JSValue) (last : String) (hv : (Found.value value).isUndefined = false)
    (hlast : last ≠ "") :
    ∀ (keys : List String) (current : List (String × JSValue)),
      (∀ post, afterPrototype (keys ++ [last]) = some post →
        "__proto__" ∉ post ∧ ∃ next rest, post = next :: rest ∧ next ∉ rest) →
      ∃ objects : Objects,
        walkKeys
          (fun target =>
            if last ≠ "" then (writeProperty target last value).map fun written => (true, written)
            else .returned (false, target))
          (fun target =>
            if last ≠ "" then
              (writePrototypeProperty target last value).map fun written => (true, written)
            else .returned (false, target))
          current keys = .returned (true, objects) ∧
        reduceKeys (JSValue.reader builtin objects.objectPrototype) (.value (.obj objects.obj))
          (keys ++ [last]) = .value value := by
  intro keys
  induction keys with
  | nil =>
    intro current hproto
    have hlp : last ≠ "__proto__" := by
      intro h
      obtain ⟨-, next, rest, hnil, -⟩ := hproto [] (by simp [afterPrototype, h])
      simp at hnil
    refine ⟨⟨mapSet current last value, objectPrototypeOwn⟩, ?_, ?_⟩
    · simp [walkKeys, hlast, writeProperty_plain _ _ _ hlp, Written.map]
    · exact reduceKeys_last builtin _ _ _ _ (readProperty_mapSet_self _ _ _ _) hv
  | cons key keys ih =>
    intro current hproto
    have descend : ∀ child,
        (∀ post, afterPrototype (keys ++ [last]) = some post →
          "__proto__" ∉ post ∧ ∃ next rest, post = next :: rest ∧ next ∉ rest) →
        (∀ out : Bool × Objects,
          walkKeys
            (fun target =>
              if last ≠ "" then
                (writeProperty target last value).map fun written => (true, written)
              else .returned (false, target))
            (fun target =>
              if last ≠ "" then
                (writePrototypeProperty target last value).map fun written => (true, written)
              else .returned (false, target))
            child keys = .returned out →
          walkKeys
            (fun target =>
              if last ≠ "" then
                (writeProperty target last value).map fun written => (true, written)
              else .returned (false, target))
            (fun target =>
              if last ≠ "" then
                (writePrototypeProperty target last value).map fun written => (true, written)
              else .returned (false, target))
            current (key :: keys) =
            .returned (out.1, ⟨mapSet current key (.obj out.2.obj), out.2.objectPrototype⟩)) →
        ∃ objects : Objects,
          walkKeys
            (fun target =>
              if last ≠ "" then
                (writeProperty target last value).map fun written => (true, written)
              else .returned (false, target))
            (fun target =>
              if last ≠ "" then
                (writePrototypeProperty target last value).map fun written => (true, written)
              else .returned (false, target))
            current (key :: keys) = .returned (true, objects) ∧
          reduceKeys (JSValue.reader builtin objects.objectPrototype)
            (.value (.obj objects.obj)) (key :: keys ++ [last]) = .value value := by
      intro child hpost hw
      obtain ⟨objects, h1, h2⟩ := ih child hpost
      refine ⟨_, hw (true, objects) h1, ?_⟩
      rw [List.cons_append, reduceKeys_into_object builtin _ _ objects.obj key _
        (readProperty_mapSet_self _ _ _ _)]
      exact h2
    by_cases hk : key = "__proto__"
    · subst hk
      obtain ⟨hpost, next, rest, hsplit, hnext⟩ := hproto (keys ++ [last]) (by simp [afterPrototype])
      have hvac : ∀ post, afterPrototype (keys ++ [last]) = some post →
          "__proto__" ∉ post ∧ ∃ next rest, post = next :: rest ∧ next ∉ rest := by
        intro post h
        rw [afterPrototype_of_not_mem _ hpost] at h
        simp at h
      cases hread : current.lookup "__proto__" with
      | none =>
        obtain ⟨prototype, h1, h2⟩ := walkPrototype_read_back builtin value last hv hlast keys
          hpost (fun n r h => by
            rw [hsplit] at h
            cases h
            exact hnext)
        refine ⟨⟨current, prototype⟩, ?_, ?_⟩
        · simp only [walkKeys, hread, if_true]
          rw [h1]
          rfl
        · rw [List.cons_append, reduceKeys_into_prototype builtin _ _ _ hread]
          exact h2
      | some v =>
        cases v with
        | obj child =>
          refine descend child hvac ?_
          intro out hout
          simp only [walkKeys, hread]
          rw [hout]
          rfl
        | prim p =>
          refine descend [] hvac ?_
          intro out hout
          simp only [walkKeys, hread]
          rw [hout]
          rfl
        | fn name =>
          refine descend [] hvac ?_
          intro out hout
          simp only [walkKeys, hread]
          rw [hout]
          rfl
    · have hpost : ∀ post, afterPrototype (keys ++ [last]) = some post →
          "__proto__" ∉ post ∧ ∃ next rest, post = next :: rest ∧ next ∉ rest := by
        intro post h
        exact hproto post (by simpa [afterPrototype, hk] using h)
      cases hread : current.lookup key with
      | none =>
        refine descend [] hpost ?_
        intro out hout
        simp only [walkKeys, hread, hk, if_false]
        rw [hout]
        rfl
      | some v =>
        cases v with
        | obj child =>
          refine descend child hpost ?_
          intro out hout
          simp only [walkKeys, hread]
          rw [hout]
          rfl
        | prim p =>
          refine descend [] hpost ?_
          intro out hout
          simp only [walkKeys, hread]
          rw [hout]
          rfl
        | fn name =>
          refine descend [] hpost ?_
          intro out hout
          simp only [walkKeys, hread]
          rw [hout]
          rfl

/-- C28, as stated, fails for the path `__proto__`: on the empty object,
`updateNestedValue(obj, '__proto__', 5)` returns `true`, yet the assignment went
to the setter of `Object.prototype`, which ignores a number; `obj` is still
empty, `Object.prototype` is as it was, and `getNestedValue(obj, '__proto__')`
returns `Object.prototype`, not `5`. -/
theorem proto_path_is_not_read_back :
    updateNestedValue [] "__proto__" (.prim (.number 5 0)) =
      .returned (true, ⟨[], objectPrototypeOwn⟩) ∧
    (∀ builtin, getNestedValue (JSValue.reader builtin objectPrototypeOwn) (.value (.obj []))
      "__proto__" = .objectPrototype) ∧
    Found.objectPrototype ≠ .value (.prim (.number 5 0)) :=
  ⟨rfl, fun _ => rfl, by simp⟩

/-- C28, amended: let `obj` be a plain object made of own properties only
(primitives, functions and plain objects, nothing shared), `Object.prototype` as
the engine provides it, `value` any value other than `undefined`, and `path` a
dotted path whose last segment is not empty and in which a segment `__proto__`,
if there is one, is the only one, is not the last, and is followed by a segment
that does not occur again after it. Then `updateNestedValue(obj, path, value)`
returns `true`, and `getNestedValue(obj, path)` afterwards returns `value`,
whatever the segments before the last held: nothing, a primitive, a function or
an object. Where `__proto__` is not an own property of the object the walk is
in, the walk goes on in `Object.prototype`, and it is there that the value is
written and read back. -/
theorem nested_value_is_read_back
    (builtin : List (String × JSValue) → JSValue → String → Found)
    (obj : List (String × JSValue)) (path : String) (value : JSValue)
    (hv : (Found.value value).isUndefined = false)
    (hlast : (splitPath path).getLast?.getD "" ≠ "")
    (hproto : ∀ post, afterPrototype (splitPath path) = some post →
      "__proto__" ∉ post ∧ ∃ next rest, post = next :: rest ∧ next ∉ rest) :
    ∃ objects : Objects, updateNestedValue obj path value = .returned (true, objects) ∧
      getNestedValue (JSValue.reader builtin objects.objectPrototype)
        (.value (.obj objects.obj)) path = .value value := by
  obtain ⟨last, hl, hparts⟩ := splitPath_parts path
  rw [hl] at hlast
  simp only [Option.getD_some] at hlast
  obtain ⟨objects, h1, h2⟩ := walkKeys_read_back builtin value last hv hlast
    (splitPath path).dropLast obj (by rw [hparts]; exact hproto)
  refine ⟨objects, ?_, ?_⟩
  · unfold updateNestedValue
    simp only [hl, Option.getD_some]
    exact h1
  · unfold getNestedValue
    rw [← hparts]
    exact h2

/-- Witness of C28: the clinic name written under `clinic.basicInfo.name` of an
object whose `clinic` holds a number, and a theme written under
`__proto__.theme` of an empty object, which lands in `Object.prototype`. -/
theorem nested_value_is_read_back_witness :
    (∃ objects : Objects,
      updateNestedValue [("clinic", .prim (.number 5 0))] "clinic.basicInfo.name"
        (.prim (.str "Al Noor")) = .returned (true, objects) ∧
      getNestedValue (JSValue.reader (fun _ _ _ => Found.undefined) objects.objectPrototype)
        (.value (.obj objects.obj)) "clinic.basicInfo.name" = .value (.prim (.str "Al Noor"))) ∧
    updateNestedValue [("clinic", .prim (.number 5 0))] "clinic.basicInfo.name"
        (.prim (.str "Al Noor")) = .returned (true,
      ⟨[("clinic", .obj [("basicInfo", .obj [("name", .prim (.str "Al Noor"))])])],
       objectPrototypeOwn⟩) ∧
    (∃ objects : Objects,
      updateNestedValue [] "__proto__.theme" (.prim (.str "dark")) = .returned (true, objects) ∧
      getNestedValue (JSValue.reader (fun _ _ _ => Found.undefined) objects.objectPrototype)
        (.value (.obj objects.obj)) "__proto__.theme" = .value (.prim (.str "dark"))) ∧
    updateNestedValue [] "__proto__.theme" (.prim (.str "dark")) = .returned (true,
      ⟨[], objectPrototypeOwn ++ [("theme", .prim (.str "dark"))]⟩) :=
  ⟨nested_value_is_read_back (fun _ _ _ => Found.undefined) [("clinic", .prim (.number 5 0))]
    "clinic.basicInfo.name" (.prim (.str "Al Noor")) rfl (by decide)
    (fun _ h => Option.noConfusion
      ((by decide : afterPrototype (splitPath "clinic.basicInfo.name") = none).symm.trans h)),
   rfl,
   nested_value_is_read_back (fun _ _ _ => Found.undefined) [] "__proto__.theme"
    (.prim (.str "dark")) rfl (by decide)
    (fun _ h => Option.some.inj
      ((by decide : afterPrototype (splitPath "__proto__.theme") = some ["theme"]).symm.trans h) ▸
      ⟨by decide, "theme", [], rfl, by decide⟩),
   rfl⟩

/-- C29, as stated, fails for the path `a.`: `updateNestedValue` returns
`false`, and the object has changed all the same. An empty object has gained the
property `a`, holding an empty object; an object whose `a` held a string has lost
the string to an empty object. Only with the path of no dot, the empty one, is
the object left as it was. -/
theorem empty_last_segment_still_writes_the_segments_before :
    updateNestedValue [] "a." (.prim (.number 5 0)) =
      .returned (false, ⟨[("a", .obj [])], objectPrototypeOwn⟩) ∧
    updateNestedValue [("a", .prim (.str "kept"))] "a." (.prim (.number 5 0)) =
      .returned (false, ⟨[("a", .obj [])], objectPrototypeOwn⟩) ∧
    [("a", JSValue.obj [])] ≠ [] ∧
    [("a", JSValue.obj [])] ≠ [("a", .prim (.str "kept"))] ∧
    updateNestedValue [("a", .prim (.str "kept"))] "" (.prim (.number 5 0)) =
      .returned (false, ⟨[("a", .prim (.str "kept"))], objectPrototypeOwn⟩) :=
  ⟨rfl, rfl, by simp, by simp, rfl⟩

/-- C29, amended: for a plain object made of own properties only and a path none
of whose segments is `__proto__`, `updateNestedValue` returns `false` exactly
when the last segment of the path is empty. Nothing is then assigned under the
last segment, but the walk over the segments before it has run: following them
from `obj` now leads to an object, every one of them that was missing or held
something else than an object having been given an empty object. When there is
no segment before the last, `obj` is left exactly as it was. `Object.prototype`
is not written to. -/
theorem update_is_false_iff_last_segment_empty
    (builtin : List (String × JSValue) → JSValue → String → Found)
    (obj : List (String × JSValue)) (path : String) (value : JSValue)
    (hproto : "__proto__" ∉ splitPath path) :
    ∃ r obj', updateNestedValue obj path value = .returned (r, ⟨obj', objectPrototypeOwn⟩) ∧
      (r = false ↔ (splitPath path).getLast? = some "") ∧
      (r = false → ∃ props, reduceKeys (JSValue.reader builtin objectPrototypeOwn)
        (.value (.obj obj')) (splitPath path).dropLast = .value (.obj props)) ∧
      (r = false → (splitPath path).dropLast = [] → obj' = obj) := by
  obtain ⟨last, hl, -⟩ := splitPath_parts path
  have hlp : last ≠ "__proto__" := fun h =>
    hproto (h ▸ List.mem_of_getLast?_eq_some hl)
  have hinit : "__proto__" ∉ (splitPath path).dropLast := fun h =>
    hproto (List.dropLast_subset _ h)
  obtain ⟨r, obj', target, target', h1, ⟨h2, h3⟩, h4, h5⟩ := walkKeys_spec
    (fun target =>
      if last ≠ "" then (writeProperty target last value).map fun written => (true, written)
      else .returned (false, target))
    (fun target =>
      if last ≠ "" then
        (writePrototypeProperty target last value).map fun written => (true, written)
      else .returned (false, target))
    (fun target r target' => (r = false ↔ last = "") ∧ (r = false → target' = target))
    (fun target => by
      by_cases hlast : last = ""
      · exact ⟨false, target, by simp [hlast], by simp [hlast], fun _ => rfl⟩
      · exact ⟨true, mapSet target last value, by
          simp [hlast, writeProperty_plain _ _ _ hlp, Written.map], by simp [hlast],
          fun h => by simp at h⟩)
    (splitPath path).dropLast obj hinit
  refine ⟨r, obj', ?_, ?_, ?_, ?_⟩
  · unfold updateNestedValue
    simp only [hl, Option.getD_some]
    exact h1
  · rw [hl, h2]
    simp
  · intro hr
    refine ⟨target', ?_⟩
    have := h4 builtin objectPrototypeOwn []
    simpa [reduceKeys] using this
  · intro hr hnil
    obtain ⟨k1, k2⟩ := h5 hnil
    rw [k2, h3 hr, k1]

/-- Witness of C29: the path `clinic.basicInfo.` on an object whose `clinic` is
a number. -/
theorem update_is_false_iff_last_segment_empty_witness :
    ∃ obj', updateNestedValue [("clinic", .prim (.number 5 0))] "clinic.basicInfo."
        (.prim (.str "Al Noor")) = .returned (false, ⟨obj', objectPrototypeOwn⟩) ∧
      ∃ props, reduceKeys (JSValue.reader (fun _ _ _ => Found.undefined) objectPrototypeOwn)
        (.value (.obj obj')) ["clinic", "basicInfo"] = .value (.obj props) := by
  obtain ⟨r, obj', h1, h2, h3, -⟩ := update_is_false_iff_last_segment_empty
    (fun _ _ _ => Found.undefined) [("clinic", .prim (.number 5 0))] "clinic.basicInfo."
    (.prim (.str "Al Noor")) (by decide)
  have hr : r = false := h2.mpr (by decide)
  subst hr
  exact ⟨obj', h1, h3 rfl⟩
/-! ## The exported configuration -/

/-- C25 at its failing input: once the module is loaded, `ClinicProConfig.clinic`
is a new object, but what it holds under `basicInfo` is the very object that
`CLINIC_CONFIG.basicInfo` is; likewise `theme.colors` and `THEME_CONFIG.colors`,
and `system.supportedLanguages` and `SYSTEM_CONFIG.system.supportedLanguages`.
After the statement `ClinicProConfig.clinic.basicInfo.name = 'Al Noor'` the
default constant `CLINIC_CONFIG.basicInfo.name` reads `Al Noor` too. -/
theorem exported_config_is_a_shallow_copy :
    readConfig sampleLoaded.2 "clinic" = .ref "ClinicProConfig.clinic" ∧
    readConfig sampleLoaded.2 "clinic.basicInfo" = .ref "CLINIC_CONFIG.basicInfo" ∧
    getNestedValue (sampleLoaded.2.reader noBuiltins) (.ref "CLINIC_CONFIG") "basicInfo" =
      .ref "CLINIC_CONFIG.basicInfo" ∧
    readConfig sampleLoaded.2 "theme.colors" = .ref "THEME_CONFIG.colors" ∧
    getNestedValue (sampleLoaded.2.reader noBuiltins) (.ref "THEME_CONFIG") "colors" =
      .ref "THEME_CONFIG.colors" ∧
    readConfig sampleLoaded.2 "system.supportedLanguages" =
      .ref "SYSTEM_CONFIG.system.supportedLanguages" ∧
    getNestedValue (sampleLoaded.2.reader noBuiltins) (.ref "SYSTEM_CONFIG")
      "system.supportedLanguages" = .ref "SYSTEM_CONFIG.system.supportedLanguages" ∧
    getNestedValue (sampleLoaded.2.reader noBuiltins) (.ref "CLINIC_CONFIG") "basicInfo.name" =
      .text "مركز العناية الطبية" ∧
    (sampleRenamed.result?.map fun h =>
      getNestedValue (h.reader noBuiltins) (.ref "CLINIC_CONFIG") "basicInfo.name") =
      some (.text "Al Noor") := by
  decide!

/-- C24 at its failing input: after the statement
`ClinicProConfig.clinic.basicInfo.name = 'Al Noor'`, the call
`resetConfigSection(ClinicProConfig, 'clinic')` returns `true` and the name still
reads `Al Noor`, not the name the module was loaded with: `Object.assign` copies
the properties of `CLINIC_CONFIG`, and its `basicInfo` is the object that was
written to. A setting held by the section itself is restored: after
`ClinicProConfig.backup.enabled = false`, resetting `backup` makes it `true`
again. For each of the nine sections the call returns `true`. -/
theorem reset_does_not_restore_nested_settings :
    readConfig sampleLoaded.2 "clinic.basicInfo.name" = .text "مركز العناية الطبية" ∧
    (sampleRenamed.result?.map fun h => readConfig h "clinic.basicInfo.name") =
      some (.text "Al Noor") ∧
    (sampleRenamed.result?.bind fun h => resetThenRead h "clinic" "clinic.basicInfo.name") =
      some (true, .text "Al Noor") ∧
    readConfig sampleLoaded.2 "backup.enabled" = .flag true ∧
    (sampleDisabled.result?.map fun h => readConfig h "backup.enabled") = some (.flag false) ∧
    (sampleDisabled.result?.bind fun h => resetThenRead h "backup" "backup.enabled") =
      some (true, .flag true) ∧
    (∀ name ∈ defaultSections.map Prod.fst,
      (resetThenRead sampleLoaded.2 name "system.name").map Prod.fst = some true) := by
  decide!

/-- C30 at its failing input: `ClinicProConfig.utils.getConfigValue('system.name')`
returns `undefined`, because inside the method `this` is `ClinicProConfig.utils`,
which has no property `system`; `getNestedValue(ClinicProConfig, 'system.name')`
returns `ClinicPro`. Likewise for `backup.autoBackup.enabled`, `undefined` against
`true`. For the path `getConfigValue` the method returns itself, where
`getNestedValue(ClinicProConfig, ...)` returns `undefined`. -/
theorem utils_reads_its_own_object :
    utilsGetConfigValue noBuiltins "2024-01-01T00:00:00.000Z" "1a2b3c" "system.name" =
      Val.undefined ∧
    readConfig sampleLoaded.2 "system.name" = .text "ClinicPro" ∧
    utilsGetConfigValue noBuiltins "2024-01-01T00:00:00.000Z" "1a2b3c"
      "backup.autoBackup.enabled" = Val.undefined ∧
    readConfig sampleLoaded.2 "backup.autoBackup.enabled" = .flag true ∧
    utilsGetConfigValue noBuiltins "2024-01-01T00:00:00.000Z" "1a2b3c" "getConfigValue" =
      .fn "getConfigValue" ∧
    readConfig sampleLoaded.2 "getConfigValue" = Val.undefined := by
  decide!

end ClinicPro
